import Mathlib

/-!
# apong: a shallow embedding of the simulation core

The definitions below follow `src/game.c`, `src/game.h`, `src/better_ai.c`,
`src/src/basic_ai.c`, `src/src/player_input.c` and `src/peripherals.c`.

Conventions of the embedding

* C `int` and `char` values are mathematical integers (`Int`).  Signed overflow
  is undefined behaviour in C, so the model describes the program on the runs
  where no `int` overflows.  For `move_paddle` and `calculate_bounces`, which
  are studied on every `int` argument, the variants `move_paddle_int32` and
  `calculate_bounces_int32` make the 32-bit arithmetic explicit (`int32_wrap`).
* The one write into a local buffer, `sprintf` into `char str[21]` in
  `on_ball_left_right_edge_collision`, is explicit in
  `on_ball_left_right_edge_collision_checked`; the two functions agree wherever
  the message fits the buffer (`edge_collision_checked_spec`).
* The file-level `static` variables of `game.c` and `better_ai.c` are the fields
  of one record, `game_state`, which every function takes and returns.
* `is_right` is a `char` that the callers only ever set to 0 or 1; it is a
  `Bool` here (`false` = 0 = left, `true` = 1 = right).
* Values produced by `rand()`, the characters waiting on stdin and the knob
  register are inputs of the functions that read them.
* Writes to the memory-mapped LED registers and the log output are not part of
  the state.
* C `double` values are exact fractions (`double` below).  Every `double`
  expression of the program is an arithmetic expression over `int` values, the
  constants 0.5, 1000 and 2, ending in a conversion to `int`.  The sums and
  products are exactly representable for the magnitudes that fit an `int` game
  coordinate; the only inexact operations are the divisions by 49.5 (in
  `on_hit_change_ball_vel_y`) and by the ball velocity (in
  `calculate_final_ball_y`), and there the exact value is either itself exactly
  representable or at a distance of at least 1/198 (respectively 1/(2|vx|)) from
  the nearest integer, far more than the rounding error, so truncating the
  exact value gives the same `int` as truncating the rounded one.  The lemmas
  `double.toRat_add` ... `double.toInt_eq_trunc` below state that the operations
  on fractions are the rational operations and that `toInt` truncates toward
  zero.
-/

namespace Apong

/-! ## Constants (`game.h`, `graphics.h`, `settings.h`, `peripherals.h`) -/

@[simp] abbrev LCD_WIDTH : Int := 480
@[simp] abbrev LCD_HEIGHT : Int := 320
@[simp] abbrev LIVES_FONT_SIZE : Int := 44
@[simp] abbrev BALL_SIZE : Int := 20
@[simp] abbrev PADDLE_HEIGHT : Int := 80
@[simp] abbrev PADDLE_WIDTH : Int := 20
@[simp] abbrev INITIAL_LIVES : Int := 3
@[simp] abbrev BOUNCE_CONST : Int := 2
@[simp] abbrev BONUS_ON_AI_BALL_LOSS : Int := 3
@[simp] abbrev UPDATES_PER_SECOND : Int := 50
@[simp] abbrev PADDLE_SPEED_KEY : Int := 3
@[simp] abbrev PADDLE_SPEED_KNOB : Int := 3
@[simp] abbrev BALL_SPEED_MEDIUM : Int := 5
@[simp] abbrev BALL_SPEED_EASY : Int := 3
@[simp] abbrev BALL_SPEED_HARD : Int := 8
@[simp] abbrev HIT_BLINK_DURATION : Int := 200
@[simp] abbrev BALL_LOSS_BLINK_DURATION : Int := 1000
@[simp] abbrev BALL_LOSS_BLINK_PERIOD : Int := 200
@[simp] abbrev PLAYER : Int := 1
@[simp] abbrev BOT : Int := 0
@[simp] abbrev EASY : Int := 0
@[simp] abbrev MEDIUM : Int := 1
@[simp] abbrev HARD : Int := 2
@[simp] abbrev DUMB_AI : Int := 0
@[simp] abbrev SMARTER_AI : Int := 1
@[simp] abbrev RED_K : Nat := 0
@[simp] abbrev GREEN_K : Nat := 1
@[simp] abbrev BLUE_K : Nat := 2
@[simp] abbrev RED_B : Nat := 3
@[simp] abbrev GREEN_B : Nat := 4
@[simp] abbrev BLUE_B : Nat := 5
@[simp] abbrev ROTATION_MASK : Nat := 0xff
@[simp] abbrev BUTTON_MASK : Nat := 0x1
@[simp] abbrev LEFT_PLAYER_UP : Char := 'w'
@[simp] abbrev LEFT_PLAYER_DOWN : Char := 's'
@[simp] abbrev RIGHT_PLAYER_UP : Char := 'o'
@[simp] abbrev RIGHT_PLAYER_DOWN : Char := 'l'

/-! ## Exact model of the `double` computations -/

/-- A C `double` value, kept as the exact fraction `num / den` (not normalised). -/
structure double where
  num : Int
  den : Int
deriving DecidableEq, Repr

namespace double

/-- Conversion `(double)n` of an `int`. -/
def ofInt (n : Int) : double := ⟨n, 1⟩

/-- The literal `0.5`. -/
def half : double := ⟨1, 2⟩

/-- Sum of two fractions. -/
def add (a b : double) : double := ⟨a.num * b.den + b.num * a.den, a.den * b.den⟩

/-- Difference of two fractions. -/
def sub (a b : double) : double := ⟨a.num * b.den - b.num * a.den, a.den * b.den⟩

/-- Product of two fractions. -/
def mul (a b : double) : double := ⟨a.num * b.num, a.den * b.den⟩

/-- Quotient of two fractions. -/
def div (a b : double) : double := ⟨a.num * b.den, a.den * b.num⟩

instance : Add double := ⟨add⟩
instance : Sub double := ⟨sub⟩
instance : Mul double := ⟨mul⟩
instance : Div double := ⟨div⟩

/-- Conversion `(int)x` of a `double`: truncation toward zero. -/
def toInt (a : double) : Int := Int.tdiv a.num a.den

/-- The rational number a fraction stands for. -/
def toRat (a : double) : ℚ := (a.num : ℚ) / (a.den : ℚ)

end double

/-! ## Data model -/

/-- `struct game_data` of `game.h`. -/
structure game_data where
  ball_pos_x : Int
  ball_pos_y : Int
  ball_vel_x : Int
  ball_vel_y : Int
  paddle_left_pos : Int
  paddle_right_pos : Int
  lives_left : Int
  lives_right : Int
deriving DecidableEq, Repr

/-- The fields of `settings_t` (`settings.h`) that the simulation reads. -/
structure settings_t where
  difficulty : Int
  ai : Int
  left : Int
  right : Int
deriving DecidableEq, Repr

/-- `knobs_t` of `peripherals.h`: the two `uint8_t[6]` arrays. -/
structure knobs_t where
  before : List Nat
  now : List Nat
deriving DecidableEq, Repr

/-- `struct input` of `player_input.h`. -/
structure input where
  left_up : Int
  left_down : Int
  right_up : Int
  right_down : Int
deriving DecidableEq, Repr

/-- The static variables of `game.c` (`data`, `ball_speed`, `score`,
`game_settings`, `game_running`, `input_knobs`, `last_key[2]`, the four blink
countdowns) and of `better_ai.c` (`ball_x_dir`, `target_paddle_y`). -/
structure game_state where
  data : game_data
  ball_speed : Int
  score : Int
  game_settings : settings_t
  game_running : Int
  input_knobs : knobs_t
  last_key_left : Int
  last_key_right : Int
  hit_blink_left_countdown : Int
  hit_blink_right_countdown : Int
  ball_loss_blink_left_countdown : Int
  ball_loss_blink_right_countdown : Int
  ai_ball_x_dir : Int
  ai_target_paddle_y : Int
deriving DecidableEq, Repr

/-- What one call of `update` reads from outside the program: the characters
waiting on stdin, the 32-bit knob register, and the value of each `rand()` call
site that may run (left AI, right AI, and the two draws of `reset_ball`). -/
structure tick_input where
  keys : List Char
  knob_register : Nat
  rand_ai_left : Nat
  rand_ai_right : Nat
  rand_reset_y : Nat
  rand_reset_x : Nat
deriving DecidableEq, Repr

/-! ## Paddle movement (`game.c`) -/

/-- `move_paddle` of `game.c`.  The sum is the exact one; it is what the
program computes whenever position + distance fits a 32-bit `int`
(`move_paddle_int32` has the 32-bit addition). -/
def move_paddle (s : game_state) (is_right : Bool) (distance : Int) : game_state :=
  if is_right then
    let p1 := s.data.paddle_right_pos + distance
    let p2 := if p1 < LIVES_FONT_SIZE then LIVES_FONT_SIZE else p1
    let p3 := if p2 > LCD_HEIGHT - PADDLE_HEIGHT then LCD_HEIGHT - PADDLE_HEIGHT else p2
    { s with data := { s.data with paddle_right_pos := p3 } }
  else
    let p1 := s.data.paddle_left_pos + distance
    let p2 := if p1 < LIVES_FONT_SIZE then LIVES_FONT_SIZE else p1
    let p3 := if p2 > LCD_HEIGHT - PADDLE_HEIGHT then LCD_HEIGHT - PADDLE_HEIGHT else p2
    { s with data := { s.data with paddle_left_pos := p3 } }

/-- `move_ai_paddle` of `game.c`. -/
def move_ai_paddle (s : game_state) (is_right : Bool) (dir : Int) : game_state :=
  if dir = -1 then move_paddle s is_right (-PADDLE_SPEED_KEY)
  else if dir = 1 then move_paddle s is_right PADDLE_SPEED_KEY
  else s

/-- The element `last_key[is_right]`. -/
def last_key (s : game_state) (is_right : Bool) : Int :=
  if is_right then s.last_key_right else s.last_key_left

/-- The assignment `last_key[is_right] = v`. -/
def set_last_key (s : game_state) (is_right : Bool) (v : Int) : game_state :=
  if is_right then { s with last_key_right := v } else { s with last_key_left := v }

/-- `update_player_paddle` of `game.c`. -/
def update_player_paddle (s : game_state) (is_right : Bool) (key : Int) (knob_diff : Int) :
    game_state :=
  if knob_diff ≠ 0 then
    let s1 := set_last_key s is_right 0
    move_paddle s1 is_right ((if is_right then -1 else 1) * knob_diff * PADDLE_SPEED_KNOB)
  else
    let s1 := if key ≠ 0 then set_last_key s is_right key else s
    if last_key s1 is_right = -1 then move_paddle s1 is_right (-PADDLE_SPEED_KEY)
    else if last_key s1 is_right = 1 then move_paddle s1 is_right PADDLE_SPEED_KEY
    else s1

/-! ## Blink countdowns (`game.c`) -/

/-- `hit_blink` of `game.c` (the countdown part). -/
def hit_blink (s : game_state) (is_right : Bool) : game_state :=
  if is_right then
    if s.ball_loss_blink_right_countdown = 0 then
      { s with hit_blink_right_countdown :=
          (double.ofInt (HIT_BLINK_DURATION * UPDATES_PER_SECOND) / double.ofInt 1000
            + double.half).toInt }
    else s
  else
    if s.ball_loss_blink_left_countdown = 0 then
      { s with hit_blink_left_countdown :=
          (double.ofInt (HIT_BLINK_DURATION * UPDATES_PER_SECOND) / double.ofInt 1000
            + double.half).toInt }
    else s

/-- `ball_loss_blink` of `game.c` (the countdown part). -/
def ball_loss_blink (s : game_state) (is_right : Bool) : game_state :=
  if is_right then
    { s with
      ball_loss_blink_right_countdown :=
        (double.ofInt (BALL_LOSS_BLINK_DURATION * UPDATES_PER_SECOND) / double.ofInt 1000
          + double.half).toInt
      hit_blink_right_countdown := 0 }
  else
    { s with
      ball_loss_blink_left_countdown :=
        (double.ofInt (BALL_LOSS_BLINK_DURATION * UPDATES_PER_SECOND) / double.ofInt 1000
          + double.half).toInt
      hit_blink_left_countdown := 0 }

/-- `update_diodes` of `game.c` (the countdown part; the colour written to the
diode is not part of the state). -/
def update_diodes (s : game_state) : game_state :=
  let s1 :=
    if s.ball_loss_blink_right_countdown ≠ 0 then
      { s with ball_loss_blink_right_countdown := s.ball_loss_blink_right_countdown - 1 }
    else if s.hit_blink_right_countdown ≠ 0 then
      { s with hit_blink_right_countdown := s.hit_blink_right_countdown - 1 }
    else s
  if s1.ball_loss_blink_left_countdown ≠ 0 then
    { s1 with ball_loss_blink_left_countdown := s1.ball_loss_blink_left_countdown - 1 }
  else if s1.hit_blink_left_countdown ≠ 0 then
    { s1 with hit_blink_left_countdown := s1.hit_blink_left_countdown - 1 }
  else s1

/-! ## Ball physics (`game.c`) -/

/-- `reset_ball` of `game.c`; `r1` and `r2` are the values of its two `rand()`
calls, in order. -/
def reset_ball (s : game_state) (r1 r2 : Nat) : game_state :=
  { s with data :=
    { s.data with
      ball_pos_x := Int.tdiv (LCD_WIDTH - BALL_SIZE) 2
      ball_pos_y := LIVES_FONT_SIZE + Int.tdiv (LCD_HEIGHT - LIVES_FONT_SIZE - BALL_SIZE) 2
      ball_vel_y := if r1 % 2 = 0 then -s.ball_speed else s.ball_speed
      ball_vel_x := if r2 % 2 = 0 then -s.ball_speed else s.ball_speed } }

/-- `check_ball_top_bot_edge_collision` of `game.c`. -/
def check_ball_top_bot_edge_collision (s : game_state) : game_state :=
  let s1 :=
    if s.data.ball_pos_y < LIVES_FONT_SIZE then
      { s with data :=
        { s.data with
          ball_pos_y := 2 * LIVES_FONT_SIZE - s.data.ball_pos_y
          ball_vel_y := -s.data.ball_vel_y } }
    else s
  if s1.data.ball_pos_y > LCD_HEIGHT - BALL_SIZE then
    { s1 with data :=
      { s1.data with
        ball_pos_y := 2 * LCD_HEIGHT - 2 * BALL_SIZE - s1.data.ball_pos_y
        ball_vel_y := -s1.data.ball_vel_y } }
  else s1

/-- `on_hit_change_ball_vel_y` of `game.c`. -/
def on_hit_change_ball_vel_y (s : game_state) (paddle_y ball_y overshoot : Int) : game_state :=
  let paddle_half_span : double := double.ofInt (PADDLE_HEIGHT + BALL_SIZE - 1) / double.ofInt 2
  let ball_middle_y : double :=
    double.ofInt ball_y + double.ofInt BALL_SIZE / double.ofInt 2 - double.half
  let paddle_middle_y : double :=
    double.ofInt paddle_y + double.ofInt PADDLE_HEIGHT / double.ofInt 2 - double.half
  let relative_hit_y : double := ball_middle_y - paddle_middle_y
  let ball_dir : double := double.ofInt BOUNCE_CONST * relative_hit_y / paddle_half_span
  { s with data :=
    { s.data with
      ball_vel_y := (ball_dir * double.ofInt s.ball_speed + double.half).toInt
      ball_pos_y := ball_y + (double.ofInt overshoot * ball_dir + double.half).toInt } }

/-- The `left_limit` of `check_ball_paddle_collision`. -/
@[simp] abbrev left_limit : Int := PADDLE_WIDTH

/-- The `right_limit` of `check_ball_paddle_collision`. -/
@[simp] abbrev right_limit : Int := LCD_WIDTH - PADDLE_WIDTH - BALL_SIZE

/-- The local `hit_y` of the left branch of `check_ball_paddle_collision`;
`ball_vel_y / ball_vel_x` is the C division of two `int`s. -/
def left_hit_y (d : game_data) : Int :=
  let previous_y := d.ball_pos_y - d.ball_vel_y
  let previous_x := d.ball_pos_x - d.ball_vel_x
  let ball_dir : double := double.ofInt (Int.tdiv d.ball_vel_y d.ball_vel_x)
  (double.ofInt previous_y + double.ofInt (left_limit - previous_x) * ball_dir
    + double.half).toInt

/-- The local `hit_y` of the right branch of `check_ball_paddle_collision`. -/
def right_hit_y (d : game_data) : Int :=
  let previous_y := d.ball_pos_y - d.ball_vel_y
  let previous_x := d.ball_pos_x - d.ball_vel_x
  let ball_dir : double := double.ofInt (Int.tdiv d.ball_vel_y d.ball_vel_x)
  (double.ofInt previous_y + double.ofInt (previous_x - right_limit) * ball_dir
    + double.half).toInt

/-- The condition of the inner `if` of `check_ball_paddle_collision`. -/
def paddle_hit (paddle_pos hit_y : Int) : Prop :=
  paddle_pos > hit_y - PADDLE_HEIGHT ∧ paddle_pos < hit_y + BALL_SIZE

instance (paddle_pos hit_y : Int) : Decidable (paddle_hit paddle_pos hit_y) := by
  unfold paddle_hit; infer_instance

/-- `check_ball_paddle_collision` of `game.c`. -/
def check_ball_paddle_collision (s : game_state) : game_state :=
  let previous_x := s.data.ball_pos_x - s.data.ball_vel_x
  if s.data.ball_pos_x < left_limit ∧ previous_x ≥ left_limit then
    let hit_y := left_hit_y s.data
    if paddle_hit s.data.paddle_left_pos hit_y then
      let s1 := on_hit_change_ball_vel_y s s.data.paddle_left_pos hit_y
        (left_limit - s.data.ball_pos_x)
      let s2 := { s1 with data :=
        { s1.data with
          ball_pos_x := 2 * left_limit - s1.data.ball_pos_x
          ball_vel_x := -s1.data.ball_vel_x } }
      let s3 := hit_blink s2 false
      if s3.score ≥ 0 ∧ s3.game_settings.left = PLAYER then { s3 with score := s3.score + 1 }
      else s3
    else s
  else if s.data.ball_pos_x > right_limit ∧ previous_x ≤ right_limit then
    let hit_y := right_hit_y s.data
    if paddle_hit s.data.paddle_right_pos hit_y then
      let s1 := on_hit_change_ball_vel_y s s.data.paddle_right_pos hit_y
        (s.data.ball_pos_x - right_limit)
      let s2 := { s1 with data :=
        { s1.data with
          ball_pos_x := 2 * right_limit - s1.data.ball_pos_x
          ball_vel_x := -s1.data.ball_vel_x } }
      let s3 := hit_blink s2 true
      if s3.score ≥ 0 ∧ s3.game_settings.right = PLAYER then { s3 with score := s3.score + 1 }
      else s3
    else s
  else s

/-- `check_ball_left_right_edge_collision` of `game.c`: the new state and the
returned `char`. -/
def check_ball_left_right_edge_collision (s : game_state) : game_state × Int :=
  if s.data.ball_pos_x < 0 then
    ({ s with data := { s.data with ball_pos_x := 0 } }, -1)
  else if s.data.ball_pos_x > LCD_WIDTH - BALL_SIZE then
    ({ s with data := { s.data with ball_pos_x := LCD_WIDTH - BALL_SIZE } }, 1)
  else (s, 0)

/-- `update_ball` of `game.c`: the new state and the returned `char`. -/
def update_ball (s : game_state) : game_state × Int :=
  let s1 := { s with data := { s.data with ball_pos_y := s.data.ball_pos_y + s.data.ball_vel_y } }
  let s2 := { s1 with data :=
    { s1.data with ball_pos_x := s1.data.ball_pos_x + s1.data.ball_vel_x } }
  let s3 := check_ball_top_bot_edge_collision s2
  let s4 := check_ball_paddle_collision s3
  check_ball_left_right_edge_collision s4

/-! ## Match rules (`game.c`) -/

/-- `update_lives` of `game.c`: the new state and the returned `char`.
`second` is the second `if` block together with the final `return 0`. -/
def update_lives (s : game_state) (looser : Int) : game_state × Int :=
  let second (t : game_state) : game_state × Int :=
    if looser = 1 then
      if t.game_settings.right = PLAYER then
        let t1 := { t with data := { t.data with lives_right := t.data.lives_right - 1 } }
        if t1.data.lives_right ≤ 0 then (t1, 1) else (t1, 0)
      else (t, 0)
    else (t, 0)
  if looser = -1 then
    if s.game_settings.left = PLAYER then
      let s1 := { s with data := { s.data with lives_left := s.data.lives_left - 1 } }
      if s1.data.lives_left ≤ 0 then (s1, -1) else second s1
    else second s
  else second s

/-- `on_ball_left_right_edge_collision` of `game.c`; `r1` and `r2` are the draws
of the `reset_ball` call, when it runs.  The log message of the branch in which
a human loses a mixed match is not part of the state; the write into its
buffer `char str[21]` is in `on_ball_left_right_edge_collision_checked`. -/
def on_ball_left_right_edge_collision (s : game_state) (side : Int) (r1 r2 : Nat) :
    game_state :=
  if side ≠ 0 then
    let s1 := ball_loss_blink s (if side = -1 then false else true)
    if s1.data.lives_left ≥ 0 then
      let r := update_lives s1 side
      if r.2 ≠ 0 then { r.1 with game_running := 0 }
      else reset_ball r.1 r1 r2
    else
      if (side = -1 ∧ s1.game_settings.left = PLAYER)
          ∨ (side = 1 ∧ s1.game_settings.right = PLAYER) then
        { s1 with game_running := 0 }
      else
        reset_ball { s1 with score := s1.score + BONUS_ON_AI_BALL_LOSS } r1 r2
  else s

/-! ## Input (`player_input.c`, `peripherals.c`) -/

/-- `init_input_data` of `player_input.c`. -/
def init_input_data : input := ⟨0, 0, 0, 0⟩

/-- `check_char` of `player_input.c`. -/
def check_char (c : Char) (i : input) : input :=
  if c = LEFT_PLAYER_UP then { i with left_up := 1 }
  else if c = LEFT_PLAYER_DOWN then { i with left_down := 1 }
  else if c = RIGHT_PLAYER_UP then { i with right_up := 1 }
  else if c = RIGHT_PLAYER_DOWN then { i with right_down := 1 }
  else i

/-- `get_input` of `player_input.c`; `keys` are the characters that the
non-blocking `read` loop returns, in order. -/
def get_input (keys : List Char) : input :=
  keys.foldl (fun i c => check_char c i) init_input_data

/-- `init_knobs` of `peripherals.c`: every entry is `(uint8_t)-1`. -/
def init_knobs : knobs_t := ⟨List.replicate 6 255, List.replicate 6 255⟩

/-- `get_knob_movement` of `peripherals.c`. -/
def get_knob_movement (knobs : knobs_t) (knob : Nat) : Int :=
  if knobs.before.getD knob 0 = 255 then 0
  else
    let ret : Int := (knobs.now.getD knob 0 : Int) - (knobs.before.getD knob 0 : Int)
    if ret < -128 then 256 + ret
    else if ret > 128 then 256 - ret
    else ret

/-- `get_knob_value` of `peripherals.c`; `values` is the 32-bit word read from
the knob register. -/
def get_knob_value (knobs : knobs_t) (values : Nat) : knobs_t :=
  { before := knobs.now
    now :=
      [ (values >>> 16) &&& ROTATION_MASK,
        (values >>> 8) &&& ROTATION_MASK,
        values &&& ROTATION_MASK,
        (values >>> 26) &&& BUTTON_MASK,
        (values >>> 25) &&& BUTTON_MASK,
        (values >>> 24) &&& BUTTON_MASK ] }

/-! ## AI strategies (`basic_ai.c`, `better_ai.c`) -/

/-- `basic_ai_move` of `basic_ai.c`. -/
def basic_ai_move (is_right : Bool) (d : game_data) : Int :=
  let paddle_middle :=
    (if is_right then d.paddle_right_pos else d.paddle_left_pos)
      + Int.tdiv PADDLE_HEIGHT 2 - 1
  let ball_middle := d.ball_pos_y + Int.tdiv BALL_SIZE 2 - 1
  if paddle_middle < ball_middle then 1
  else if paddle_middle > ball_middle then -1
  else 0

/-- Distance of a y coordinate from the interval of legal ball positions. -/
def bounce_distance (y : Int) : Int :=
  if y < LIVES_FONT_SIZE then LIVES_FONT_SIZE - y
  else if y > LCD_HEIGHT - BALL_SIZE then y - (LCD_HEIGHT - BALL_SIZE)
  else 0

/-- `calculate_bounces` of `better_ai.c`: the `while (1)` loop, as a recursion
that is well founded because every reflection reduces `bounce_distance`.  The
reflections are the exact ones; they are what the program computes for every
argument above -2147483560 (`calculate_bounces_int32` has the 32-bit
arithmetic). -/
def calculate_bounces (final_ball_y : Int) : Int :=
  if final_ball_y < LIVES_FONT_SIZE then
    calculate_bounces (2 * LIVES_FONT_SIZE - final_ball_y)
  else if final_ball_y > LCD_HEIGHT - BALL_SIZE then
    calculate_bounces (2 * (LCD_HEIGHT - BALL_SIZE) - final_ball_y)
  else final_ball_y
termination_by (bounce_distance final_ball_y).toNat
decreasing_by
  all_goals simp only [bounce_distance, LIVES_FONT_SIZE, LCD_HEIGHT, BALL_SIZE] at *
  all_goals split_ifs <;> omega

/-- `calculate_final_ball_y` of `better_ai.c`. -/
def calculate_final_ball_y (d : game_data) : Int :=
  if d.ball_vel_x > 0 then
    let right_limit := LCD_WIDTH - PADDLE_WIDTH - BALL_SIZE
    calculate_bounces (d.ball_pos_y
      + (double.ofInt ((right_limit - d.ball_pos_x) * d.ball_vel_y) / double.ofInt d.ball_vel_x
          + double.half).toInt)
  else if d.ball_vel_x < 0 then
    let left_limit := PADDLE_WIDTH
    calculate_bounces (d.ball_pos_y
      + (double.ofInt ((left_limit - d.ball_pos_x) * d.ball_vel_y) / double.ofInt d.ball_vel_x
          + double.half).toInt)
  else
    LIVES_FONT_SIZE + Int.tdiv (LCD_HEIGHT - LIVES_FONT_SIZE) 2 - Int.tdiv BALL_SIZE 2

/-- `get_ball_x_dir` of `better_ai.c`. -/
def get_ball_x_dir (d : game_data) : Int :=
  if d.ball_vel_x < 0 then -1
  else if d.ball_vel_x > 0 then 1
  else 0

/-- `ball_is_coming_towards_ai` of `better_ai.c`. -/
def ball_is_coming_towards_ai (is_right : Bool) (ball_x_dir : Int) : Int :=
  if is_right then
    if ball_x_dir = 1 then 1 else 0
  else
    if ball_x_dir = -1 then 1 else 0

/-- `random_bounce` of `better_ai.c`; `r` is the value of `rand()`. -/
def random_bounce (r : Nat) : Int :=
  let range := PADDLE_HEIGHT + BALL_SIZE - 1
  Int.tmod (r : Int) range

/-- `better_ai_move` of `better_ai.c`: the new state (the two static variables
of `better_ai.c` may change) and the returned `char`; `r` is the value of
`rand()` when `random_bounce` runs. -/
def better_ai_move (s : game_state) (is_right : Bool) (d : game_data) (r : Nat) :
    game_state × Int :=
  let new_ball_dir := get_ball_x_dir d
  let s1 :=
    if s.ai_ball_x_dir ≠ new_ball_dir then
      let s0 := { s with ai_ball_x_dir := new_ball_dir }
      if ball_is_coming_towards_ai is_right s0.ai_ball_x_dir ≠ 0 then
        let final_ball_y := calculate_final_ball_y d
        let s00 := { s0 with ai_target_paddle_y := final_ball_y - PADDLE_HEIGHT + 1 }
        { s00 with ai_target_paddle_y := s00.ai_target_paddle_y + random_bounce r }
      else
        { s0 with ai_target_paddle_y :=
            LIVES_FONT_SIZE + Int.tdiv (LCD_HEIGHT - LIVES_FONT_SIZE) 2
              - Int.tdiv PADDLE_HEIGHT 2 }
    else s
  let current_paddle_y := if is_right then d.paddle_right_pos else d.paddle_left_pos
  if s1.ai_target_paddle_y < current_paddle_y then (s1, -1)
  else if s1.ai_target_paddle_y > current_paddle_y then (s1, 1)
  else (s1, 0)

/-! ## The tick (`game.c`) -/

/-- `update_ai_paddle` of `game.c`; `r` is the value of `rand()` when the
predictive strategy draws one. -/
def update_ai_paddle (s : game_state) (is_right : Bool) (r : Nat) : game_state :=
  if s.game_settings.ai = DUMB_AI then
    move_ai_paddle s is_right (basic_ai_move is_right s.data)
  else if s.game_settings.ai = SMARTER_AI then
    let m := better_ai_move s is_right s.data r
    move_ai_paddle m.1 is_right m.2
  else s

/-- `update_paddles` of `game.c`. -/
def update_paddles (s : game_state) (i : tick_input) : game_state :=
  let inp := get_input i.keys
  let s0 := { s with input_knobs := get_knob_value s.input_knobs i.knob_register }
  let s1 :=
    if s0.game_settings.left = PLAYER then
      let d1 : Int := if inp.left_up ≠ 0 ∧ inp.left_down = 0 then -1 else 0
      let paddle_dir : Int := if inp.left_down ≠ 0 ∧ inp.left_up = 0 then 1 else d1
      update_player_paddle s0 false paddle_dir (get_knob_movement s0.input_knobs RED_K)
    else update_ai_paddle s0 false i.rand_ai_left
  if s1.game_settings.right = PLAYER then
    let d1 : Int := if inp.right_up ≠ 0 ∧ inp.right_down = 0 then -1 else 0
    let paddle_dir : Int := if inp.right_down ≠ 0 ∧ inp.right_up = 0 then 1 else d1
    update_player_paddle s1 true paddle_dir (get_knob_movement s1.input_knobs BLUE_K)
  else update_ai_paddle s1 true i.rand_ai_right

/-- `update` of `game.c`: one simulation tick. -/
def update (s : game_state) (i : tick_input) : game_state :=
  let s1 := update_paddles s i
  let r := update_ball s1
  let s2 := on_ball_left_right_edge_collision r.1 r.2 i.rand_reset_y i.rand_reset_x
  update_diodes s2

/-! ## Initialisation (`game.c`) -/

/-- `init_data` of `game.c`; `r1`, `r2` are the draws of its `reset_ball`. -/
def init_data (s : game_state) (r1 r2 : Nat) : game_state :=
  let speed : Int :=
    if s.game_settings.difficulty = EASY then BALL_SPEED_EASY
    else if s.game_settings.difficulty = MEDIUM then BALL_SPEED_MEDIUM
    else if s.game_settings.difficulty = HARD then BALL_SPEED_HARD
    else 0
  let s1 := { s with ball_speed := speed }
  let paddle_init_pos :=
    LIVES_FONT_SIZE + Int.tdiv (LCD_HEIGHT - LIVES_FONT_SIZE - PADDLE_HEIGHT) 2
  let s2 := { s1 with data :=
    { s1.data with paddle_left_pos := paddle_init_pos, paddle_right_pos := paddle_init_pos } }
  let s3 :=
    if (s2.game_settings.left = PLAYER ∧ s2.game_settings.right = PLAYER)
        ∨ (s2.game_settings.left = BOT ∧ s2.game_settings.right = BOT) then
      { s2 with data :=
        { s2.data with lives_left := INITIAL_LIVES, lives_right := INITIAL_LIVES } }
    else
      { s2 with data := { s2.data with lives_left := -1, lives_right := -1 } }
  reset_ball s3 r1 r2

/-- `init_game` of `game.c`, run on the state in which `start_game` has stored
the settings. -/
def init_game (s : game_state) (r1 r2 : Nat) : game_state :=
  let s1 := init_data s r1 r2
  let s2 := { s1 with
    last_key_left := 0
    last_key_right := 0
    hit_blink_left_countdown := 0
    hit_blink_right_countdown := 0
    ball_loss_blink_left_countdown := 0
    ball_loss_blink_right_countdown := 0 }
  if (s2.game_settings.left = PLAYER ∧ s2.game_settings.right = BOT)
      ∨ (s2.game_settings.left = BOT ∧ s2.game_settings.right = PLAYER) then
    { s2 with score := 0 }
  else
    { s2 with score := -1 }

/-- The assignment `game_running = 1` with which `update_loop` starts. -/
def update_loop_start (s : game_state) : game_state :=
  { s with game_running := 1 }

/-! ## Vocabulary of the statements -/

/-- A lives-based match: both sides human, or both sides AI (the condition
under which `init_data` hands out `INITIAL_LIVES`). -/
def lives_based (st : settings_t) : Prop :=
  (st.left = PLAYER ∧ st.right = PLAYER) ∨ (st.left = BOT ∧ st.right = BOT)

instance (st : settings_t) : Decidable (lives_based st) := by
  unfold lives_based; infer_instance

/-- A mixed match: one side human, the other AI (the condition under which
`init_game` starts the score at 0). -/
def mixed_match (st : settings_t) : Prop :=
  (st.left = PLAYER ∧ st.right = BOT) ∨ (st.left = BOT ∧ st.right = PLAYER)

instance (st : settings_t) : Decidable (mixed_match st) := by
  unfold mixed_match; infer_instance

/-- The lives invariant: both counters are in `[0, 3]` and the match has
stopped exactly when one of them is zero. -/
def lives_inv (s : game_state) : Prop :=
  (0 ≤ s.data.lives_left ∧ s.data.lives_left ≤ 3)
  ∧ (0 ≤ s.data.lives_right ∧ s.data.lives_right ≤ 3)
  ∧ (s.game_running = 0 ↔ (s.data.lives_left = 0 ∨ s.data.lives_right = 0))

instance (s : game_state) : Decidable (lives_inv s) := by
  unfold lives_inv; infer_instance

/-- The calls of `update` made by the `while (game_running)` loop of
`update_loop`: one per element of the list, for as long as the match runs. -/
def update_loop_ticks (s : game_state) : List tick_input → game_state
  | [] => s
  | i :: rest => if s.game_running ≠ 0 then update_loop_ticks (update s i) rest else s

/-- The match bookkeeping of two states agrees: life counters, running flag and
settings. -/
def same_match (s t : game_state) : Prop :=
  t.data.lives_left = s.data.lives_left ∧ t.data.lives_right = s.data.lives_right
  ∧ t.game_running = s.game_running ∧ t.game_settings = s.game_settings

/-- An example state: the given data, speed, score and settings; the match is
running, the knobs are as `init_knobs` leaves them and every other static
variable is zero. -/
def example_state (d : game_data) (speed score : Int) (st : settings_t) : game_state :=
  { data := d, ball_speed := speed, score := score, game_settings := st, game_running := 1,
    input_knobs := init_knobs, last_key_left := 0, last_key_right := 0,
    hit_blink_left_countdown := 0, hit_blink_right_countdown := 0,
    ball_loss_blink_left_countdown := 0, ball_loss_blink_right_countdown := 0,
    ai_ball_x_dir := 0, ai_target_paddle_y := 0 }

/-! ## Example states used by the witnesses -/

/-- The ball has just crossed the left plane (from x = 24 to x = 16) level
with the top of the left paddle. -/
def left_crossing_state : game_state :=
  example_state ⟨16, 44, -8, 0, 44, 142, -1, -1⟩ 8 0 ⟨HARD, DUMB_AI, PLAYER, BOT⟩

/-- The ball has just crossed the right plane (from x = 440 to x = 445) with
the right paddle in its way. -/
def right_crossing_state : game_state :=
  example_state ⟨445, 100, 5, 3, 142, 60, -1, -1⟩ 5 0 ⟨MEDIUM, DUMB_AI, BOT, PLAYER⟩

/-- The ball has just crossed the left plane (from x = 24 to x = 16) far below
the left paddle. -/
def left_miss_state : game_state :=
  example_state ⟨16, 250, -8, 0, 44, 142, -1, -1⟩ 8 0 ⟨HARD, DUMB_AI, PLAYER, BOT⟩

/-- The inputs of a recorded match: no key is pressed; the knob register
reads red = 100, blue = 100 in the first tick and red = 81, blue = 75 in the
125 ticks after it, which moves the left paddle to 85 and the right one to
217 in the second tick. -/
def recorded_inputs : List tick_input :=
  ⟨[], 100 * 65536 + 100, 0, 0, 0, 0⟩ :: List.replicate 125 ⟨[], 81 * 65536 + 75, 0, 0, 0, 0⟩

/-- The start of the recorded match: human vs human, difficulty MEDIUM, both
draws of the first `reset_ball` even. -/
def recorded_start : game_state :=
  update_loop_start (init_game
    (example_state ⟨0, 0, 0, 0, 0, 0, 0, 0⟩ 0 0 ⟨MEDIUM, DUMB_AI, PLAYER, PLAYER⟩) 0 0)

/-! ## Further vocabulary: loop body, reachability, scheduler -/

/-- The body of the `while (1)` loop of `calculate_bounces`: one reflection, or
the value itself when it is in bounds (where the loop returns). -/
def bounce_step (y : Int) : Int :=
  if y < LIVES_FONT_SIZE then 2 * LIVES_FONT_SIZE - y
  else if y > LCD_HEIGHT - BALL_SIZE then 2 * (LCD_HEIGHT - BALL_SIZE) - y
  else y

/-- The settings name a recognised difficulty and `speed` is the ball speed
that `init_data` configures for it. -/
def configured_speed (st : settings_t) (speed : Int) : Prop :=
  (st.difficulty = EASY ∧ speed = BALL_SPEED_EASY)
  ∨ (st.difficulty = MEDIUM ∧ speed = BALL_SPEED_MEDIUM)
  ∨ (st.difficulty = HARD ∧ speed = BALL_SPEED_HARD)

instance (st : settings_t) (speed : Int) : Decidable (configured_speed st speed) := by
  unfold configured_speed; infer_instance

/-- The states reachable from `init_game` with a recognised difficulty by the
start of the update loop, ticks and ball resets. -/
inductive reachable : game_state → Prop
  | init (s0 : game_state) (r1 r2 : Nat) :
      (s0.game_settings.difficulty = EASY ∨ s0.game_settings.difficulty = MEDIUM
        ∨ s0.game_settings.difficulty = HARD) → reachable (init_game s0 r1 r2)
  | start (s : game_state) : reachable s → reachable (update_loop_start s)
  | tick (s : game_state) (i : tick_input) : reachable s → reachable (update s i)
  | reset (s : game_state) (r1 r2 : Nat) : reachable s → reachable (reset_ball s r1 r2)

/-- The ball and the configuration of two states agree: ball position and
velocity, ball speed and settings. -/
def same_ball (s t : game_state) : Prop :=
  t.data.ball_pos_x = s.data.ball_pos_x ∧ t.data.ball_pos_y = s.data.ball_pos_y
  ∧ t.data.ball_vel_x = s.data.ball_vel_x ∧ t.data.ball_vel_y = s.data.ball_vel_y
  ∧ t.ball_speed = s.ball_speed ∧ t.game_settings = s.game_settings

/-- The velocity invariant: the ball speed is the one configured for the
difficulty and the horizontal velocity has that magnitude. -/
def velocity_inv (s : game_state) : Prop :=
  configured_speed s.game_settings s.ball_speed ∧ |s.data.ball_vel_x| = s.ball_speed

/-- The local variables `last` and `delta` of `update_loop` together with the
program state. -/
structure loop_state where
  last : Int
  delta : Int
  game : game_state
deriving DecidableEq, Repr

/-- One iteration of the `while (game_running)` loop of `update_loop`; `now` is
the value that `clock()` returns.  The flag tells whether `update` and
`update_view` ran in this iteration (`update_view` only renders). -/
def update_loop_iteration (clocks_per_update : Int) (st : loop_state) (now : Int)
    (i : tick_input) : loop_state × Bool :=
  let delta := st.delta + (now - st.last)
  if delta ≥ clocks_per_update then
    ({ last := now, delta := delta - clocks_per_update, game := update st.game i }, true)
  else
    ({ last := now, delta := delta, game := st.game }, false)

/-- The iterations of the `while (game_running)` loop of `update_loop` over a
list of clock readings: the final state and the number of updates performed.
The loop stops when the match is over. -/
def update_loop_iterations (clocks_per_update : Int) (st : loop_state) :
    List (Int × tick_input) → loop_state × Nat
  | [] => (st, 0)
  | (now, i) :: rest =>
    if st.game.game_running ≠ 0 then
      let r := update_loop_iteration clocks_per_update st now i
      let rr := update_loop_iterations clocks_per_update r.1 rest
      (rr.1, rr.2 + (if r.2 then 1 else 0))
    else (st, 0)

/-- `update_loop` of `game.c` run on a finite list of clock readings;
`clocks_per_sec` is the platform constant `CLOCKS_PER_SEC` and `first_clock`
the reading taken before the loop. -/
def update_loop (clocks_per_sec : Int) (s : game_state) (first_clock : Int)
    (readings : List (Int × tick_input)) : loop_state × Nat :=
  let clocks_per_update := Int.tdiv clocks_per_sec UPDATES_PER_SECOND
  update_loop_iterations clocks_per_update
    { last := first_clock, delta := 0, game := update_loop_start s } readings

/-- The ball came from (440, 150) with velocity (5, 3); the right paddle is at
100, so the contact y 150 is 50 below the paddle top. -/
def scenario_state : game_state :=
  example_state ⟨445, 153, 5, 3, 142, 100, -1, -1⟩ 5 0 ⟨MEDIUM, DUMB_AI, BOT, PLAYER⟩

/-- A fresh program start of the predictive AI (remembered direction 0, cached
target 0) with a ball that has no horizontal velocity and both paddles at 100. -/
def fresh_ai_state : game_state :=
  example_state ⟨230, 172, 0, 5, 100, 100, 3, 3⟩ 5 (-1) ⟨MEDIUM, SMARTER_AI, BOT, BOT⟩

/-- The state `fresh_ai_state` after the predictive AI has remembered that the
ball was moving left. -/
def moving_ai_state : game_state :=
  { fresh_ai_state with ai_ball_x_dir := -1, ai_target_paddle_y := 60 }

/-- A state in which the ball moves left toward a left-hand predictive AI that
has no direction remembered yet. -/
def incoming_ai_state : game_state :=
  example_state ⟨230, 172, -5, 5, 142, 142, -1, -1⟩ 5 0 ⟨MEDIUM, SMARTER_AI, BOT, PLAYER⟩

/-- Three clock readings (15000, 25000, 30000) with no input. -/
def sample_readings : List (Int × tick_input) :=
  [(15000, ⟨[], 0, 0, 0, 0, 0⟩), (25000, ⟨[], 0, 0, 0, 0, 0⟩), (30000, ⟨[], 0, 0, 0, 0, 0⟩)]

/-! ## Vocabulary of the third group of claims -/

/-- The C division `a / b` of two `int`s, which is undefined for `b = 0`. -/
def c_div (a b : Int) : Option Int :=
  if b = 0 then none else some (Int.tdiv a b)

/-- `check_ball_paddle_collision` of `game.c` with the division
`ball_vel_y / ball_vel_x` made explicit: the result is `none` when the function
divides by zero. -/
def check_ball_paddle_collision_checked (s : game_state) : Option game_state :=
  let previous_y := s.data.ball_pos_y - s.data.ball_vel_y
  let previous_x := s.data.ball_pos_x - s.data.ball_vel_x
  if s.data.ball_pos_x < left_limit ∧ previous_x ≥ left_limit then
    match c_div s.data.ball_vel_y s.data.ball_vel_x with
    | none => none
    | some q =>
      let ball_dir : double := double.ofInt q
      let hit_y := (double.ofInt previous_y + double.ofInt (left_limit - previous_x) * ball_dir
        + double.half).toInt
      if paddle_hit s.data.paddle_left_pos hit_y then
        let s1 := on_hit_change_ball_vel_y s s.data.paddle_left_pos hit_y
          (left_limit - s.data.ball_pos_x)
        let s2 := { s1 with data :=
          { s1.data with
            ball_pos_x := 2 * left_limit - s1.data.ball_pos_x
            ball_vel_x := -s1.data.ball_vel_x } }
        let s3 := hit_blink s2 false
        if s3.score ≥ 0 ∧ s3.game_settings.left = PLAYER then
          some { s3 with score := s3.score + 1 }
        else some s3
      else some s
  else if s.data.ball_pos_x > right_limit ∧ previous_x ≤ right_limit then
    match c_div s.data.ball_vel_y s.data.ball_vel_x with
    | none => none
    | some q =>
      let ball_dir : double := double.ofInt q
      let hit_y := (double.ofInt previous_y + double.ofInt (previous_x - right_limit) * ball_dir
        + double.half).toInt
      if paddle_hit s.data.paddle_right_pos hit_y then
        let s1 := on_hit_change_ball_vel_y s s.data.paddle_right_pos hit_y
          (s.data.ball_pos_x - right_limit)
        let s2 := { s1 with data :=
          { s1.data with
            ball_pos_x := 2 * right_limit - s1.data.ball_pos_x
            ball_vel_x := -s1.data.ball_vel_x } }
        let s3 := hit_blink s2 true
        if s3.score ≥ 0 ∧ s3.game_settings.right = PLAYER then
          some { s3 with score := s3.score + 1 }
        else some s3
      else some s
  else some s

/-- Handling one side's paddle writes neither the other side's latch and
paddle, nor the settings, nor the knob readings. -/
def other_side_same (is_right : Bool) (s t : game_state) : Prop :=
  last_key t (!is_right) = last_key s (!is_right)
  ∧ (if is_right then t.data.paddle_left_pos = s.data.paddle_left_pos
      else t.data.paddle_right_pos = s.data.paddle_right_pos)
  ∧ t.game_settings = s.game_settings ∧ t.input_knobs = s.input_knobs

/-- The vertical-velocity bound: the ball speed is the configured one and the
vertical velocity is at most twice the ball speed in magnitude. -/
def vel_y_inv (s : game_state) : Prop :=
  configured_speed s.game_settings s.ball_speed
  ∧ -(2 * s.ball_speed) ≤ s.data.ball_vel_y ∧ s.data.ball_vel_y ≤ 2 * s.ball_speed

/-- `start_game` of `game.c` on a finite list of clock readings: the statics
`input_knobs` and `game_settings` are assigned, `init_game` and `update_loop`
run.  The result is the outcome of the loop, and the returned score when the
loop has ended within the readings; it is `none` while the match is still
running, where `start_game` has not returned.  (The LED settings, the view and
the result page are not part of the state.) -/
def start_game (s : game_state) (knobs : knobs_t) (settings : settings_t) (r1 r2 : Nat)
    (clocks_per_sec first_clock : Int) (readings : List (Int × tick_input)) :
    (loop_state × Nat) × Option Int :=
  let s1 := { s with input_knobs := knobs, game_settings := settings }
  let s2 := init_game s1 r1 r2
  let l := update_loop clocks_per_sec s2 first_clock readings
  (l, if l.1.game.game_running = 0 then some l.1.game.score else none)

/-- The ball rests at the centre of the court: position (230, 172), velocity
(0, 0), and the match is running. -/
def resting_ball (s : game_state) : Prop :=
  s.data.ball_pos_x = 230 ∧ s.data.ball_pos_y = 172
  ∧ s.data.ball_vel_x = 0 ∧ s.data.ball_vel_y = 0 ∧ s.game_running = 1

instance (s : game_state) : Decidable (resting_ball s) := by
  unfold resting_ball; infer_instance

/-- Settings with a difficulty that is none of EASY, MEDIUM, HARD, for a human
on the left against the simple AI. -/
def unknown_difficulty_settings : settings_t := ⟨7, DUMB_AI, PLAYER, BOT⟩

def idle_input : tick_input := ⟨[], 0, 0, 0, 0, 0⟩

/-- The integer nearest to a fraction (a half goes up): the floor of the value
plus one half. -/
def double.nearest (a : double) : Int := Int.fdiv (2 * a.num + a.den) (2 * a.den)

/-- The contact y on the left plane in the words of the specification:
`previous_y + (20 - previous_x) * vy / vx` with the exact ratio `vy / vx`,
rounded to the nearest integer. -/
def interpolated_left_contact_y (d : game_data) : Int :=
  let previous_y := d.ball_pos_y - d.ball_vel_y
  let previous_x := d.ball_pos_x - d.ball_vel_x
  (double.ofInt previous_y
    + double.ofInt (20 - previous_x) * (double.ofInt d.ball_vel_y / double.ofInt d.ball_vel_x)
    ).nearest

/-- The bounce value in the words of the specification, before rounding:
`BOUNCE_CONST * ((h + BALL_SIZE/2 - 1/2) - (p + PADDLE_HEIGHT/2 - 1/2)) /
((PADDLE_HEIGHT + BALL_SIZE - 1)/2) * s`. -/
def bounce_value (h p s : Int) : double :=
  double.ofInt BOUNCE_CONST
    * ((double.ofInt h + double.ofInt BALL_SIZE / double.ofInt 2 - double.half)
      - (double.ofInt p + double.ofInt PADDLE_HEIGHT / double.ofInt 2 - double.half))
    / (double.ofInt (PADDLE_HEIGHT + BALL_SIZE - 1) / double.ofInt 2)
    * double.ofInt s

/-- The mirror image of a state in the words of the specification: ball x
becomes 460 - x, vx becomes -vx, the two paddle positions are swapped; y and
vy stay. -/
def mirror (s : game_state) : game_state :=
  { s with data :=
    { s.data with
      ball_pos_x := 460 - s.data.ball_pos_x
      ball_vel_x := -s.data.ball_vel_x
      paddle_left_pos := s.data.paddle_right_pos
      paddle_right_pos := s.data.paddle_left_pos } }

/-- The start of a match between two humans at difficulty HARD; `r1` and `r2`
are the draws of the first `reset_ball`. -/
def diagonal_start (r1 r2 : Nat) : game_state :=
  update_loop_start (init_game
    (example_state ⟨0, 0, 0, 0, 0, 0, 0, 0⟩ 0 0 ⟨HARD, DUMB_AI, PLAYER, PLAYER⟩) r1 r2)

/-- The state 26 ticks without input after `diagonal_start 1 0`: the ball is
at (22, 220) and moves up and left with velocity (-8, -8), both paddles rest
at 142. -/
def left_approach_state : game_state :=
  update_loop_ticks (diagonal_start 1 0) (List.replicate 26 idle_input)

/-- A human-vs-human state with the ball in mid court and both paddles at
142; the knobs have not been read yet. -/
def keyboard_state : game_state :=
  example_state ⟨230, 172, 8, 8, 142, 142, 3, 3⟩ 8 (-1) ⟨HARD, DUMB_AI, PLAYER, PLAYER⟩

/-- The data of a ball with horizontal velocity -5 between two paddles at
100. -/
def leftward_ball : game_data := ⟨100, 100, -5, 3, 100, 100, 3, 3⟩

/-! ## 32-bit arithmetic, the message buffer, recorded matches -/

/-- The value that a 32-bit `int` holds after an arithmetic result `x` has been
stored in it: `x` reduced modulo 2^32 into [-2^31, 2^31). -/
def int32_wrap (x : Int) : Int := (x + 2147483648) % 4294967296 - 2147483648

/-- `move_paddle` of `game.c` with the 32-bit `int` addition
`paddle_pos += distance` made explicit. -/
def move_paddle_int32 (s : game_state) (is_right : Bool) (distance : Int) : game_state :=
  if is_right then
    let p1 := int32_wrap (s.data.paddle_right_pos + distance)
    let p2 := if p1 < LIVES_FONT_SIZE then LIVES_FONT_SIZE else p1
    let p3 := if p2 > LCD_HEIGHT - PADDLE_HEIGHT then LCD_HEIGHT - PADDLE_HEIGHT else p2
    { s with data := { s.data with paddle_right_pos := p3 } }
  else
    let p1 := int32_wrap (s.data.paddle_left_pos + distance)
    let p2 := if p1 < LIVES_FONT_SIZE then LIVES_FONT_SIZE else p1
    let p3 := if p2 > LCD_HEIGHT - PADDLE_HEIGHT then LCD_HEIGHT - PADDLE_HEIGHT else p2
    { s with data := { s.data with paddle_left_pos := p3 } }

/-- The body of the `while (1)` loop of `calculate_bounces` on 32-bit `int`s:
one reflection, or the value itself when it is in bounds. -/
def bounce_step_int32 (y : Int) : Int :=
  if y < LIVES_FONT_SIZE then int32_wrap (2 * LIVES_FONT_SIZE - y)
  else if y > LCD_HEIGHT - BALL_SIZE then int32_wrap (2 * (LCD_HEIGHT - BALL_SIZE) - y)
  else y

/-- `calculate_bounces` of `better_ai.c` on 32-bit `int`s, run for at most
`fuel` iterations of its `while (1)` loop: `none` when the loop has not
returned by then. -/
def calculate_bounces_int32 : Nat → Int → Option Int
  | 0, _ => none
  | fuel + 1, final_ball_y =>
    if final_ball_y < LIVES_FONT_SIZE then
      calculate_bounces_int32 fuel (int32_wrap (2 * LIVES_FONT_SIZE - final_ball_y))
    else if final_ball_y > LCD_HEIGHT - BALL_SIZE then
      calculate_bounces_int32 fuel (int32_wrap (2 * (LCD_HEIGHT - BALL_SIZE) - final_ball_y))
    else some final_ball_y

/-- Number of decimal digits of `n`, counted with at most `fuel` divisions by
ten (ten divisions are enough for a 32-bit `int`). -/
def decimal_digits : Nat → Nat → Nat
  | 0, _ => 1
  | fuel + 1, n => if n < 10 then 1 else 1 + decimal_digits fuel (n / 10)

/-- Number of characters that the conversion `%d` of `sprintf` prints for `n`:
its decimal digits and a minus sign when it is negative. -/
def printed_length (n : Int) : Nat :=
  (if n < 0 then 1 else 0) + decimal_digits 10 n.natAbs

/-- Number of bytes that `sprintf(str, "player lost: score %d", score)`
writes: the 19 characters of the text, the printed score and the
terminating zero byte. -/
def score_message_size (score : Int) : Nat := 19 + printed_length score + 1

/-- `on_ball_left_right_edge_collision` of `game.c` with the write into the
local buffer `char str[21]` made explicit: the result is `none` when `sprintf`
writes past the end of the buffer. -/
def on_ball_left_right_edge_collision_checked (s : game_state) (side : Int) (r1 r2 : Nat) :
    Option game_state :=
  if side ≠ 0 then
    let s1 := ball_loss_blink s (if side = -1 then false else true)
    if s1.data.lives_left ≥ 0 then
      let r := update_lives s1 side
      if r.2 ≠ 0 then some { r.1 with game_running := 0 }
      else some (reset_ball r.1 r1 r2)
    else
      if (side = -1 ∧ s1.game_settings.left = PLAYER)
          ∨ (side = 1 ∧ s1.game_settings.right = PLAYER) then
        let s2 := { s1 with game_running := 0 }
        if score_message_size s2.score ≤ 21 then some s2 else none
      else
        some (reset_ball { s1 with score := s1.score + BONUS_ON_AI_BALL_LOSS } r1 r2)
  else some s

/-- The inputs of a recorded mixed match: no input for 598 ticks, then the key
's' once, then no input for 45 ticks. -/
def mixed_match_inputs : List tick_input :=
  List.replicate 598 idle_input ++ ⟨['s'], 0, 0, 0, 0, 0⟩ :: List.replicate 45 idle_input

/-- The state of a match of a human on the left against the simple AI at
difficulty MEDIUM, both draws of the first `reset_ball` even, after the
644 ticks of `mixed_match_inputs`. -/
def mixed_match_state : game_state :=
  update_loop_ticks (update_loop_start (init_game
    (example_state ⟨0, 0, 0, 0, 0, 0, 0, 0⟩ 0 0 ⟨MEDIUM, DUMB_AI, PLAYER, BOT⟩) 0 0))
    mixed_match_inputs

/-- The state `mixed_match_state`, written out: the ball is at the left edge,
the human's paddle is at the lower border and the score is 10. -/
def score_ten_state : game_state :=
  { data := ⟨0, 146, -5, 5, 240, 94, -1, -1⟩, ball_speed := 5, score := 10,
    game_settings := ⟨MEDIUM, DUMB_AI, PLAYER, BOT⟩, game_running := 1,
    input_knobs := ⟨[0, 0, 0, 0, 0, 0], [0, 0, 0, 0, 0, 0]⟩,
    last_key_left := 1, last_key_right := 0,
    hit_blink_left_countdown := 0, hit_blink_right_countdown := 0,
    ball_loss_blink_left_countdown := 0, ball_loss_blink_right_countdown := 3,
    ai_ball_x_dir := 0, ai_target_paddle_y := 0 }

set_option maxRecDepth 1000000

/-! ## The fraction model is exact arithmetic -/

/-- Truncating division by a positive denominator, in terms of floor division. -/
theorem tdiv_pos_den (a d : Int) (hd : 0 < d) :
    Int.tdiv a d = if 0 ≤ a then a / d else -((-a) / d) := by
  split_ifs with h
  · exact Int.tdiv_eq_ediv h hd.le
  · have h2 : 0 ≤ -a := by omega
    have := Int.tdiv_eq_ediv h2 hd.le
    rw [Int.neg_tdiv] at this
    omega

theorem double.toRat_add (a b : double) (ha : a.den ≠ 0) (hb : b.den ≠ 0) :
    (a + b).toRat = a.toRat + b.toRat := by
  show double.toRat (double.add a b) = _
  have ha2 : (a.den : ℚ) ≠ 0 := by exact_mod_cast ha
  have hb2 : (b.den : ℚ) ≠ 0 := by exact_mod_cast hb
  simp only [double.toRat, double.add]
  push_cast
  field_simp

theorem double.toRat_sub (a b : double) (ha : a.den ≠ 0) (hb : b.den ≠ 0) :
    (a - b).toRat = a.toRat - b.toRat := by
  show double.toRat (double.sub a b) = _
  have ha2 : (a.den : ℚ) ≠ 0 := by exact_mod_cast ha
  have hb2 : (b.den : ℚ) ≠ 0 := by exact_mod_cast hb
  simp only [double.toRat, double.sub]
  push_cast
  field_simp
  ring

theorem double.toRat_mul (a b : double) : (a * b).toRat = a.toRat * b.toRat := by
  show double.toRat (double.mul a b) = _
  simp only [double.toRat, double.mul]
  push_cast
  rw [div_mul_div_comm]

theorem double.toRat_div (a b : double) : (a / b).toRat = a.toRat / b.toRat := by
  show double.toRat (double.div a b) = _
  simp only [double.toRat, double.div]
  push_cast
  rw [div_div_div_eq]

theorem double.toRat_ofInt (n : Int) : (double.ofInt n).toRat = n := by
  simp [double.toRat, double.ofInt]

theorem double.toRat_half : double.half.toRat = 1 / 2 := by
  simp [double.toRat, double.half]

/-- With a positive denominator `toInt` is the truncation toward zero of the
fraction: the floor of a non-negative value, the ceiling of a negative one. -/
theorem double.toInt_eq_trunc (a : double) (h : 0 < a.den) :
    a.toInt = if 0 ≤ a.toRat then ⌊a.toRat⌋ else ⌈a.toRat⌉ := by
  have hd : (0 : ℚ) < (a.den : ℚ) := by exact_mod_cast h
  have hfl : ∀ n : Int, ⌊(n : ℚ) / (a.den : ℚ)⌋ = n / a.den := by
    intro n
    have := Rat.floor_intCast_div_natCast n a.den.toNat
    rwa [show ((a.den.toNat : ℕ) : ℚ) = (a.den : ℚ) by
      exact_mod_cast Int.toNat_of_nonneg h.le, Int.toNat_of_nonneg h.le] at this
  simp only [double.toInt, double.toRat, tdiv_pos_den a.num a.den h]
  by_cases hn : 0 ≤ a.num
  · have : (0 : ℚ) ≤ (a.num : ℚ) / (a.den : ℚ) := div_nonneg (by exact_mod_cast hn) hd.le
    rw [if_pos hn, if_pos this, hfl]
  · have hneg : (a.num : ℚ) / (a.den : ℚ) < 0 :=
      div_neg_of_neg_of_pos (by exact_mod_cast (not_le.mp hn)) hd
    rw [if_neg hn, if_neg (not_le.mpr hneg)]
    have := hfl (-a.num)
    rw [← this, ← Int.ceil_neg]
    congr 1
    push_cast
    ring

/-! ## Frame lemmas -/

theorem hit_blink_data (s : game_state) (b : Bool) : (hit_blink s b).data = s.data := by
  unfold hit_blink; split_ifs <;> rfl

theorem hit_blink_score (s : game_state) (b : Bool) : (hit_blink s b).score = s.score := by
  unfold hit_blink; split_ifs <;> rfl

theorem hit_blink_settings (s : game_state) (b : Bool) :
    (hit_blink s b).game_settings = s.game_settings := by
  unfold hit_blink; split_ifs <;> rfl

/-- The state after a registered hit of the left paddle. -/
theorem paddle_collision_left_hit (s : game_state)
    (hc : s.data.ball_pos_x < 20 ∧ s.data.ball_pos_x - s.data.ball_vel_x ≥ 20)
    (hh : paddle_hit s.data.paddle_left_pos (left_hit_y s.data)) :
    (check_ball_paddle_collision s).data =
      { (on_hit_change_ball_vel_y s s.data.paddle_left_pos (left_hit_y s.data)
          (20 - s.data.ball_pos_x)).data with
        ball_pos_x := 2 * 20 - s.data.ball_pos_x, ball_vel_x := -s.data.ball_vel_x }
    ∧ (check_ball_paddle_collision s).score =
      (if s.score ≥ 0 ∧ s.game_settings.left = PLAYER then s.score + 1 else s.score) := by
  have hc2 : s.data.ball_pos_x < left_limit
      ∧ s.data.ball_pos_x - s.data.ball_vel_x ≥ left_limit := by simpa using hc
  simp only [check_ball_paddle_collision, if_pos hc2, if_pos hh]
  split_ifs <;>
    simp_all [hit_blink_data, hit_blink_score, hit_blink_settings, on_hit_change_ball_vel_y]

/-- The state after a registered hit of the right paddle. -/
theorem paddle_collision_right_hit (s : game_state)
    (hc : s.data.ball_pos_x > 440 ∧ s.data.ball_pos_x - s.data.ball_vel_x ≤ 440)
    (hh : paddle_hit s.data.paddle_right_pos (right_hit_y s.data)) :
    (check_ball_paddle_collision s).data =
      { (on_hit_change_ball_vel_y s s.data.paddle_right_pos (right_hit_y s.data)
          (s.data.ball_pos_x - 440)).data with
        ball_pos_x := 2 * 440 - s.data.ball_pos_x, ball_vel_x := -s.data.ball_vel_x }
    ∧ (check_ball_paddle_collision s).score =
      (if s.score ≥ 0 ∧ s.game_settings.right = PLAYER then s.score + 1 else s.score) := by
  have hl : ¬ (s.data.ball_pos_x < left_limit
      ∧ s.data.ball_pos_x - s.data.ball_vel_x ≥ left_limit) := by
    simp only [left_limit, PADDLE_WIDTH]; omega
  have hc2 : s.data.ball_pos_x > right_limit
      ∧ s.data.ball_pos_x - s.data.ball_vel_x ≤ right_limit := by simpa using hc
  simp only [check_ball_paddle_collision, if_neg hl, if_pos hc2, if_pos hh]
  split_ifs <;>
    simp_all [hit_blink_data, hit_blink_score, hit_blink_settings, on_hit_change_ball_vel_y]

/-- Without a registered hit the function returns its argument. -/
theorem paddle_collision_no_hit (s : game_state)
    (hl : ¬ ((s.data.ball_pos_x < 20 ∧ s.data.ball_pos_x - s.data.ball_vel_x ≥ 20)
      ∧ paddle_hit s.data.paddle_left_pos (left_hit_y s.data)))
    (hr : ¬ ((s.data.ball_pos_x > 440 ∧ s.data.ball_pos_x - s.data.ball_vel_x ≤ 440)
      ∧ paddle_hit s.data.paddle_right_pos (right_hit_y s.data))) :
    check_ball_paddle_collision s = s := by
  simp only [check_ball_paddle_collision, left_limit, right_limit, PADDLE_WIDTH, LCD_WIDTH,
    BALL_SIZE]
  norm_num at *
  split_ifs <;> first | rfl | (exfalso; tauto)

theorem on_hit_frame (s : game_state) (p h o : Int) :
    (on_hit_change_ball_vel_y s p h o).data.ball_pos_x = s.data.ball_pos_x
    ∧ (on_hit_change_ball_vel_y s p h o).data.ball_vel_x = s.data.ball_vel_x := by
  simp [on_hit_change_ball_vel_y]

theorem reset_ball_pos (s : game_state) (r1 r2 : Nat) :
    (reset_ball s r1 r2).data.ball_pos_x = 230 ∧ (reset_ball s r1 r2).data.ball_pos_y = 172 :=
  ⟨rfl, rfl⟩

theorem reset_ball_frame (s : game_state) (r1 r2 : Nat) :
    (reset_ball s r1 r2).data.lives_left = s.data.lives_left
    ∧ (reset_ball s r1 r2).data.lives_right = s.data.lives_right
    ∧ (reset_ball s r1 r2).data.paddle_left_pos = s.data.paddle_left_pos
    ∧ (reset_ball s r1 r2).data.paddle_right_pos = s.data.paddle_right_pos
    ∧ (reset_ball s r1 r2).game_running = s.game_running
    ∧ (reset_ball s r1 r2).score = s.score
    ∧ (reset_ball s r1 r2).game_settings = s.game_settings
    ∧ (reset_ball s r1 r2).ball_speed = s.ball_speed :=
  ⟨rfl, rfl, rfl, rfl, rfl, rfl, rfl, rfl⟩

theorem same_match_refl (s : game_state) : same_match s s := ⟨rfl, rfl, rfl, rfl⟩

theorem same_match_trans {s t u : game_state} (h1 : same_match s t) (h2 : same_match t u) :
    same_match s u := by
  obtain ⟨a1, a2, a3, a4⟩ := h1
  obtain ⟨b1, b2, b3, b4⟩ := h2
  exact ⟨b1.trans a1, b2.trans a2, b3.trans a3, b4.trans a4⟩

theorem move_paddle_same (s : game_state) (b : Bool) (d : Int) :
    same_match s (move_paddle s b d) := by
  unfold move_paddle; split_ifs <;> exact ⟨rfl, rfl, rfl, rfl⟩

theorem move_ai_paddle_same (s : game_state) (b : Bool) (d : Int) :
    same_match s (move_ai_paddle s b d) := by
  unfold move_ai_paddle
  split_ifs
  · exact move_paddle_same _ _ _
  · exact move_paddle_same _ _ _
  · exact same_match_refl _

theorem set_last_key_same (s : game_state) (b : Bool) (v : Int) :
    same_match s (set_last_key s b v) := by
  unfold set_last_key; split_ifs <;> exact ⟨rfl, rfl, rfl, rfl⟩

theorem update_player_paddle_same (s : game_state) (b : Bool) (k d : Int) :
    same_match s (update_player_paddle s b k d) := by
  unfold update_player_paddle
  simp only
  split_ifs
  all_goals
    first
    | exact same_match_refl _
    | exact set_last_key_same _ _ _
    | exact move_paddle_same _ _ _
    | exact same_match_trans (set_last_key_same _ _ _) (move_paddle_same _ _ _)

theorem better_ai_move_same (s : game_state) (b : Bool) (d : game_data) (r : Nat) :
    same_match s (better_ai_move s b d r).1 := by
  unfold better_ai_move
  simp only
  split_ifs <;> exact ⟨rfl, rfl, rfl, rfl⟩

theorem update_ai_paddle_same (s : game_state) (b : Bool) (r : Nat) :
    same_match s (update_ai_paddle s b r) := by
  unfold update_ai_paddle
  split_ifs
  · exact move_ai_paddle_same _ _ _
  · exact same_match_trans (better_ai_move_same _ _ _ _) (move_ai_paddle_same _ _ _)
  · exact same_match_refl _

theorem update_paddles_same (s : game_state) (i : tick_input) :
    same_match s (update_paddles s i) := by
  unfold update_paddles
  have h0 : same_match s { s with input_knobs := get_knob_value s.input_knobs i.knob_register } :=
    ⟨rfl, rfl, rfl, rfl⟩
  simp only
  split_ifs
  all_goals
    first
    | exact same_match_trans h0 (same_match_trans (update_player_paddle_same _ _ _ _)
        (update_player_paddle_same _ _ _ _))
    | exact same_match_trans h0 (same_match_trans (update_player_paddle_same _ _ _ _)
        (update_ai_paddle_same _ _ _))
    | exact same_match_trans h0 (same_match_trans (update_ai_paddle_same _ _ _)
        (update_player_paddle_same _ _ _ _))
    | exact same_match_trans h0 (same_match_trans (update_ai_paddle_same _ _ _)
        (update_ai_paddle_same _ _ _))

theorem hit_blink_same (s : game_state) (b : Bool) : same_match s (hit_blink s b) := by
  unfold hit_blink; split_ifs <;> exact ⟨rfl, rfl, rfl, rfl⟩

theorem check_ball_top_bot_same (s : game_state) :
    same_match s (check_ball_top_bot_edge_collision s) := by
  unfold check_ball_top_bot_edge_collision
  simp only
  split_ifs <;> exact ⟨rfl, rfl, rfl, rfl⟩

theorem check_ball_paddle_same (s : game_state) :
    same_match s (check_ball_paddle_collision s) := by
  unfold check_ball_paddle_collision
  simp only
  split_ifs
  all_goals
    first
    | exact same_match_refl _
    | exact same_match_trans (s := s) ⟨rfl, rfl, rfl, rfl⟩ (hit_blink_same _ _)

theorem check_ball_left_right_same (s : game_state) :
    same_match s (check_ball_left_right_edge_collision s).1 := by
  unfold check_ball_left_right_edge_collision
  split_ifs <;> exact ⟨rfl, rfl, rfl, rfl⟩

theorem update_ball_same (s : game_state) : same_match s (update_ball s).1 := by
  unfold update_ball
  simp only
  refine same_match_trans ?_ (check_ball_left_right_same _)
  refine same_match_trans ?_ (check_ball_paddle_same _)
  refine same_match_trans ?_ (check_ball_top_bot_same _)
  exact ⟨rfl, rfl, rfl, rfl⟩

theorem update_diodes_same (s : game_state) : same_match s (update_diodes s) := by
  unfold update_diodes
  simp only
  split_ifs <;> exact ⟨rfl, rfl, rfl, rfl⟩

theorem ball_loss_blink_frame (s : game_state) (b : Bool) :
    (ball_loss_blink s b).data = s.data
    ∧ (ball_loss_blink s b).game_settings = s.game_settings
    ∧ (ball_loss_blink s b).game_running = s.game_running
    ∧ (ball_loss_blink s b).score = s.score
    ∧ (ball_loss_blink s b).ball_speed = s.ball_speed := by
  unfold ball_loss_blink; split_ifs <;> exact ⟨rfl, rfl, rfl, rfl, rfl⟩

theorem update_lives_spec (s : game_state) (looser : Int) :
    (update_lives s looser).1.game_settings = s.game_settings
    ∧ (update_lives s looser).1.game_running = s.game_running
    ∧ (((update_lives s looser).2 = 0
          ∧ (update_lives s looser).1.data.lives_left = s.data.lives_left
          ∧ (update_lives s looser).1.data.lives_right = s.data.lives_right)
      ∨ ((update_lives s looser).1.data.lives_left = s.data.lives_left - 1
          ∧ (update_lives s looser).1.data.lives_right = s.data.lives_right
          ∧ (((update_lives s looser).2 = -1 ∧ s.data.lives_left - 1 ≤ 0)
            ∨ ((update_lives s looser).2 = 0 ∧ ¬ s.data.lives_left - 1 ≤ 0)))
      ∨ ((update_lives s looser).1.data.lives_right = s.data.lives_right - 1
          ∧ (update_lives s looser).1.data.lives_left = s.data.lives_left
          ∧ (((update_lives s looser).2 = 1 ∧ s.data.lives_right - 1 ≤ 0)
            ∨ ((update_lives s looser).2 = 0 ∧ ¬ s.data.lives_right - 1 ≤ 0)))) := by
  unfold update_lives
  simp only
  split_ifs <;> simp <;> omega

theorem edge_collision_lives_inv (s : game_state) (side : Int) (r1 r2 : Nat)
    (hi : lives_inv s) (hr : s.game_running ≠ 0) :
    lives_inv (on_ball_left_right_edge_collision s side r1 r2)
    ∧ (on_ball_left_right_edge_collision s side r1 r2).game_settings = s.game_settings := by
  have hi0 := hi
  obtain ⟨⟨a1, a2⟩, ⟨b1, b2⟩, hrun⟩ := hi
  have ha : s.data.lives_left ≠ 0 := fun h => hr (hrun.mpr (Or.inl h))
  have hb2 : s.data.lives_right ≠ 0 := fun h => hr (hrun.mpr (Or.inr h))
  unfold on_ball_left_right_edge_collision
  simp only
  generalize (if side = -1 then false else true) = b
  have hb := ball_loss_blink_frame s b
  have hu := update_lives_spec (ball_loss_blink s b) side
  rw [hb.1, hb.2.1, hb.2.2.1] at hu
  obtain ⟨hu1, hu2, hu3⟩ := hu
  split_ifs with h1 h2 h3 h4
  · simp only [lives_inv, true_iff]
    refine ⟨?_, hu1⟩
    omega
  · simp only [lives_inv, reset_ball_frame]
    refine ⟨?_, hu1⟩
    omega
  · rw [hb.1] at h2; omega
  · rw [hb.1] at h2; omega
  · exact ⟨hi0, rfl⟩

theorem update_lives_inv (s : game_state) (i : tick_input)
    (hi : lives_inv s) (hr : s.game_running ≠ 0) :
    lives_inv (update s i) ∧ (update s i).game_settings = s.game_settings := by
  have h1 : same_match s (update_ball (update_paddles s i)).1 :=
    same_match_trans (update_paddles_same s i) (update_ball_same _)
  obtain ⟨e1, e2, e3, e4⟩ := h1
  have hi1 : lives_inv (update_ball (update_paddles s i)).1 := by
    simp only [lives_inv, e1, e2, e3]; exact hi
  have hr1 : (update_ball (update_paddles s i)).1.game_running ≠ 0 := by rw [e3]; exact hr
  have h2 := edge_collision_lives_inv _ (update_ball (update_paddles s i)).2
    i.rand_reset_y i.rand_reset_x hi1 hr1
  obtain ⟨d1, d2, d3, d4⟩ := update_diodes_same
    (on_ball_left_right_edge_collision (update_ball (update_paddles s i)).1
      (update_ball (update_paddles s i)).2 i.rand_reset_y i.rand_reset_x)
  simp only [update]
  refine ⟨?_, ?_⟩
  · simp only [lives_inv, d1, d2, d3]; exact h2.1
  · rw [d4, h2.2, e4]

/-! ## Claims -/

/-- C1 (no tunneling): in a state where the advanced ball has crossed the left
plane (x < 20 ≤ x - vx) with |vx| ≤ 8 and the left paddle satisfies the hit
predicate for the computed contact y, `check_ball_paddle_collision` sets x to
2*20 - x and vx to -vx, so that x > 20, vx > 0 and the edge check that follows
returns 0; symmetrically at the right plane 440 (x > 440 ≥ x - vx), giving
x < 440 and vx < 0. -/
theorem C1_no_tunneling (s : game_state) (hv : |s.data.ball_vel_x| ≤ 8) :
    (s.data.ball_pos_x < 20 → s.data.ball_pos_x - s.data.ball_vel_x ≥ 20 →
      paddle_hit s.data.paddle_left_pos (left_hit_y s.data) →
      (check_ball_paddle_collision s).data.ball_pos_x = 2 * 20 - s.data.ball_pos_x
      ∧ (check_ball_paddle_collision s).data.ball_vel_x = -s.data.ball_vel_x
      ∧ (check_ball_paddle_collision s).data.ball_pos_x > 20
      ∧ (check_ball_paddle_collision s).data.ball_vel_x > 0
      ∧ (check_ball_left_right_edge_collision (check_ball_paddle_collision s)).2 = 0)
    ∧ (s.data.ball_pos_x > 440 → 440 ≥ s.data.ball_pos_x - s.data.ball_vel_x →
      paddle_hit s.data.paddle_right_pos (right_hit_y s.data) →
      (check_ball_paddle_collision s).data.ball_pos_x = 2 * 440 - s.data.ball_pos_x
      ∧ (check_ball_paddle_collision s).data.ball_vel_x = -s.data.ball_vel_x
      ∧ (check_ball_paddle_collision s).data.ball_pos_x < 440
      ∧ (check_ball_paddle_collision s).data.ball_vel_x < 0
      ∧ (check_ball_left_right_edge_collision (check_ball_paddle_collision s)).2 = 0)
    ∧ LCD_WIDTH - PADDLE_WIDTH - BALL_SIZE = 440 ∧ PADDLE_WIDTH = 20 := by
  obtain ⟨h1, h2⟩ := abs_le.mp hv
  refine ⟨?_, ?_, by decide, by decide⟩
  · intro hx hp hh
    have h := (paddle_collision_left_hit s ⟨hx, hp⟩ hh).1
    simp only [check_ball_left_right_edge_collision, h]
    split_ifs <;> simp_all <;> omega
  · intro hx hp hh
    have h := (paddle_collision_right_hit s ⟨hx, hp⟩ hh).1
    simp only [check_ball_left_right_edge_collision, h]
    split_ifs <;> simp_all <;> omega

/-- Witness of C1: a hit at the left plane (x = 16 becomes 24, vx = -8 becomes
8) and one at the right plane (x = 445 becomes 435, vx = 5 becomes -5). -/
theorem C1_no_tunneling_witness :
    (|left_crossing_state.data.ball_vel_x| ≤ 8
      ∧ paddle_hit left_crossing_state.data.paddle_left_pos
          (left_hit_y left_crossing_state.data)
      ∧ (check_ball_paddle_collision left_crossing_state).data.ball_pos_x = 24
      ∧ (check_ball_paddle_collision left_crossing_state).data.ball_vel_x = 8)
    ∧ (|right_crossing_state.data.ball_vel_x| ≤ 8
      ∧ paddle_hit right_crossing_state.data.paddle_right_pos
          (right_hit_y right_crossing_state.data)
      ∧ (check_ball_paddle_collision right_crossing_state).data.ball_pos_x = 435
      ∧ (check_ball_paddle_collision right_crossing_state).data.ball_vel_x = -5) := by
  have hl := (C1_no_tunneling left_crossing_state (by decide)).1
    (by decide) (by decide) (by decide)
  have hr := (C1_no_tunneling right_crossing_state (by decide)).2.1
    (by decide) (by decide) (by decide)
  exact ⟨⟨by decide, by decide, hl.1, hl.2.1⟩, ⟨by decide, by decide, hr.1, hr.2.1⟩⟩

/-- C2 (hit predicate): on a crossing of a collision plane the function inverts
vx exactly when paddle_y > hit_y - PADDLE_HEIGHT and paddle_y < hit_y + BALL_SIZE
(both strict) for that side; when the predicate is false the whole state, so in
particular ball position, ball velocity and score, is returned unchanged. -/
theorem C2_hit_predicate (s : game_state) :
    (s.data.ball_pos_x < 20 ∧ s.data.ball_pos_x - s.data.ball_vel_x ≥ 20 →
      ((check_ball_paddle_collision s).data.ball_vel_x = -s.data.ball_vel_x ↔
        (s.data.paddle_left_pos > left_hit_y s.data - PADDLE_HEIGHT
          ∧ s.data.paddle_left_pos < left_hit_y s.data + BALL_SIZE))
      ∧ (¬ (s.data.paddle_left_pos > left_hit_y s.data - PADDLE_HEIGHT
          ∧ s.data.paddle_left_pos < left_hit_y s.data + BALL_SIZE) →
        check_ball_paddle_collision s = s))
    ∧ (s.data.ball_pos_x > 440 ∧ s.data.ball_pos_x - s.data.ball_vel_x ≤ 440 →
      ((check_ball_paddle_collision s).data.ball_vel_x = -s.data.ball_vel_x ↔
        (s.data.paddle_right_pos > right_hit_y s.data - PADDLE_HEIGHT
          ∧ s.data.paddle_right_pos < right_hit_y s.data + BALL_SIZE))
      ∧ (¬ (s.data.paddle_right_pos > right_hit_y s.data - PADDLE_HEIGHT
          ∧ s.data.paddle_right_pos < right_hit_y s.data + BALL_SIZE) →
        check_ball_paddle_collision s = s)) := by
  constructor
  · intro hc
    have hno : ¬ (s.data.paddle_left_pos > left_hit_y s.data - PADDLE_HEIGHT
          ∧ s.data.paddle_left_pos < left_hit_y s.data + BALL_SIZE) →
        check_ball_paddle_collision s = s := by
      intro hn
      apply paddle_collision_no_hit
      · exact fun h => hn h.2
      · intro h; omega
    refine ⟨⟨?_, ?_⟩, hno⟩
    · intro hv
      by_contra hn
      rw [hno hn] at hv
      omega
    · intro hh
      rw [(paddle_collision_left_hit s hc hh).1]
  · intro hc
    have hno : ¬ (s.data.paddle_right_pos > right_hit_y s.data - PADDLE_HEIGHT
          ∧ s.data.paddle_right_pos < right_hit_y s.data + BALL_SIZE) →
        check_ball_paddle_collision s = s := by
      intro hn
      apply paddle_collision_no_hit
      · intro h; omega
      · exact fun h => hn h.2
    refine ⟨⟨?_, ?_⟩, hno⟩
    · intro hv
      by_contra hn
      rw [hno hn] at hv
      omega
    · intro hh
      rw [(paddle_collision_right_hit s hc hh).1]

/-- Witness of C2: at the left plane a paddle at 44 meets contact y 44 (vx is
inverted), while contact y 250 is a miss (the state is unchanged). -/
theorem C2_hit_predicate_witness :
    (left_crossing_state.data.ball_pos_x < 20
      ∧ left_crossing_state.data.ball_pos_x - left_crossing_state.data.ball_vel_x ≥ 20
      ∧ (check_ball_paddle_collision left_crossing_state).data.ball_vel_x
          = -left_crossing_state.data.ball_vel_x)
    ∧ (left_miss_state.data.ball_pos_x < 20
      ∧ left_miss_state.data.ball_pos_x - left_miss_state.data.ball_vel_x ≥ 20
      ∧ check_ball_paddle_collision left_miss_state = left_miss_state) :=
  ⟨⟨by decide, by decide,
      (((C2_hit_predicate left_crossing_state).1 ⟨by decide, by decide⟩).1).mpr (by decide)⟩,
    ⟨by decide, by decide,
      ((C2_hit_predicate left_miss_state).1 ⟨by decide, by decide⟩).2 (by decide)⟩⟩

/-- C3 (wall reflection): for ball y in [44, 300] and |vy| ≤ 256, advancing y
by vy and applying `check_ball_top_bot_edge_collision` gives 2*44 - (y+vy) and
-vy when y+vy < 44, gives 2*300 - (y+vy) and -vy when y+vy > 300, and leaves
y+vy and vy otherwise; the new y is in [44, 300] in every case. -/
theorem C3_wall_reflection (s : game_state)
    (hy : 44 ≤ s.data.ball_pos_y ∧ s.data.ball_pos_y ≤ 300)
    (hv : |s.data.ball_vel_y| ≤ 256) :
    let y1 := s.data.ball_pos_y + s.data.ball_vel_y
    let t := check_ball_top_bot_edge_collision
      { s with data := { s.data with ball_pos_y := s.data.ball_pos_y + s.data.ball_vel_y } }
    (y1 < 44 → t.data.ball_pos_y = 2 * 44 - y1 ∧ t.data.ball_vel_y = -s.data.ball_vel_y)
    ∧ (y1 > 300 → t.data.ball_pos_y = 2 * 300 - y1 ∧ t.data.ball_vel_y = -s.data.ball_vel_y)
    ∧ (44 ≤ y1 ∧ y1 ≤ 300 → t.data.ball_pos_y = y1 ∧ t.data.ball_vel_y = s.data.ball_vel_y)
    ∧ 44 ≤ t.data.ball_pos_y ∧ t.data.ball_pos_y ≤ 300 := by
  obtain ⟨h1, h2⟩ := abs_le.mp hv
  simp only [check_ball_top_bot_edge_collision]
  split_ifs <;> simp_all <;> omega

/-- Witness of C3: from y = 50 with vy = -16 the ball is reflected to y = 54
with vy = 16. -/
theorem C3_wall_reflection_witness :
    (44 ≤ (50 : Int) ∧ (50 : Int) ≤ 300) ∧ |(-16 : Int)| ≤ 256
    ∧ (check_ball_top_bot_edge_collision
        (example_state ⟨100, 50 + -16, 8, -16, 142, 142, 3, 3⟩ 8 (-1)
          ⟨HARD, DUMB_AI, PLAYER, PLAYER⟩)).data.ball_pos_y = 2 * 44 - (50 + -16) :=
  ⟨by decide, by decide,
    ((C3_wall_reflection
      (example_state ⟨100, 50, 8, -16, 142, 142, 3, 3⟩ 8 (-1) ⟨HARD, DUMB_AI, PLAYER, PLAYER⟩)
      (by decide) (by decide)).1 (by decide)).1⟩

/-- C4 fails on the code: 126 ticks after `init_game` the recorded match is in
a state with the ball in the court at (440, 294), velocity (5, 2), speed 5 and
the paddles at 85 and 217, all inside the ranges of the claim; one more
`update_ball` registers a hit of the right paddle whose y correction puts the
ball at y = 303, below the court (y ≤ 300), while x = 435 stays inside. -/
theorem C4_ball_leaves_court :
    (update_loop_ticks recorded_start recorded_inputs).data
        = ⟨440, 294, 5, 2, 85, 217, 3, 3⟩
    ∧ (update_loop_ticks recorded_start recorded_inputs).ball_speed = 5
    ∧ (update_loop_ticks recorded_start recorded_inputs).game_running = 1
    ∧ (update_ball (update_loop_ticks recorded_start recorded_inputs)).1.data.ball_pos_x = 435
    ∧ (update_ball (update_loop_ticks recorded_start recorded_inputs)).1.data.ball_pos_y = 303
    ∧ ¬ ((update_ball (update_loop_ticks recorded_start recorded_inputs)).1.data.ball_pos_y
          ≤ LCD_HEIGHT - BALL_SIZE)
    ∧ (update_ball (example_state ⟨440, 294, 5, 2, 85, 217, 3, 3⟩ 5 (-1)
          ⟨MEDIUM, DUMB_AI, PLAYER, PLAYER⟩)).1.data.ball_pos_y = 303 := by
  decide

/-- C5 (edge check): `check_ball_left_right_edge_collision` returns -1 exactly
when x < 0 (and then sets x to 0), returns 1 exactly when x > 460 (and then
sets x to LCD_WIDTH - BALL_SIZE = 460), and otherwise returns 0 with x
unchanged; the resulting x is in [0, 460] and y, vx, vy are unchanged. -/
theorem C5_edge_check (s : game_state) :
    let r := check_ball_left_right_edge_collision s
    (r.2 = -1 ↔ s.data.ball_pos_x < 0)
    ∧ (s.data.ball_pos_x < 0 → r.1.data.ball_pos_x = 0)
    ∧ (r.2 = 1 ↔ s.data.ball_pos_x > 460)
    ∧ (s.data.ball_pos_x > 460 → r.1.data.ball_pos_x = LCD_WIDTH - BALL_SIZE
        ∧ LCD_WIDTH - BALL_SIZE = 460)
    ∧ (¬ s.data.ball_pos_x < 0 ∧ ¬ s.data.ball_pos_x > 460 →
        r.2 = 0 ∧ r.1.data.ball_pos_x = s.data.ball_pos_x)
    ∧ (0 ≤ r.1.data.ball_pos_x ∧ r.1.data.ball_pos_x ≤ 460)
    ∧ r.1.data.ball_pos_y = s.data.ball_pos_y
    ∧ r.1.data.ball_vel_x = s.data.ball_vel_x
    ∧ r.1.data.ball_vel_y = s.data.ball_vel_y := by
  simp only [check_ball_left_right_edge_collision]
  split_ifs <;> simp_all <;> omega

/-- On exact integers `move_paddle` leaves the moved paddle at
max(44, min(240, p + d)), which lies in [LIVES_FONT_SIZE, LCD_HEIGHT -
PADDLE_HEIGHT] and equals p + d when p + d is in that range; the other paddle,
the ball and the life counters are unchanged. -/
theorem move_paddle_clamp (s : game_state) (is_right : Bool) (d : Int) :
    let p := if is_right then s.data.paddle_right_pos else s.data.paddle_left_pos
    let t := move_paddle s is_right d
    let q := if is_right then t.data.paddle_right_pos else t.data.paddle_left_pos
    q = max 44 (min 240 (p + d))
    ∧ (LIVES_FONT_SIZE ≤ q ∧ q ≤ LCD_HEIGHT - PADDLE_HEIGHT)
    ∧ (LIVES_FONT_SIZE ≤ p + d ∧ p + d ≤ LCD_HEIGHT - PADDLE_HEIGHT → q = p + d)
    ∧ (if is_right then t.data.paddle_left_pos = s.data.paddle_left_pos
        else t.data.paddle_right_pos = s.data.paddle_right_pos)
    ∧ t.data.ball_pos_x = s.data.ball_pos_x ∧ t.data.ball_pos_y = s.data.ball_pos_y
    ∧ t.data.ball_vel_x = s.data.ball_vel_x ∧ t.data.ball_vel_y = s.data.ball_vel_y
    ∧ t.data.lives_left = s.data.lives_left ∧ t.data.lives_right = s.data.lives_right := by
  cases is_right <;> simp only [move_paddle] <;> split_ifs <;> simp_all <;> omega

/-- A value that fits a 32-bit `int` is stored unchanged. -/
theorem int32_wrap_of_fits (x : Int) (h : -2147483648 ≤ x ∧ x ≤ 2147483647) :
    int32_wrap x = x := by
  unfold int32_wrap
  omega

/-- Where the sum fits a 32-bit `int`, the 32-bit `move_paddle` is the
embedded one. -/
theorem move_paddle_int32_eq (s : game_state) (is_right : Bool) (d : Int)
    (hfit : -2147483648 ≤ (if is_right then s.data.paddle_right_pos
        else s.data.paddle_left_pos) + d
      ∧ (if is_right then s.data.paddle_right_pos else s.data.paddle_left_pos) + d
        ≤ 2147483647) :
    move_paddle_int32 s is_right d = move_paddle s is_right d := by
  cases is_right
  · simp only [Bool.false_eq_true, if_false] at hfit
    simp only [move_paddle_int32, move_paddle, Bool.false_eq_true, if_false,
      int32_wrap_of_fits _ hfit]
  · simp only [if_true] at hfit
    simp only [move_paddle_int32, move_paddle, if_true, int32_wrap_of_fits _ hfit]

/-- C6, as stated, fails: the addition is a 32-bit `int` addition; with the
left paddle at 142 and distance 2147483647 the sum wraps to -2147483507 and the
paddle is clamped to 44, while max(44, min(240, p + d)) is 240. -/
theorem C6_counterexample :
    (move_paddle_int32
      (example_state ⟨230, 172, 5, 5, 142, 142, 3, 3⟩ 5 (-1) ⟨MEDIUM, DUMB_AI, PLAYER, PLAYER⟩)
      false 2147483647).data.paddle_left_pos = 44
    ∧ int32_wrap (142 + 2147483647) = -2147483507
    ∧ max (44 : Int) (min 240 (142 + 2147483647)) = 240 := by
  decide

/-- C6 as amended (paddle clamp): for every paddle position p, side and
distance d whose sum p + d fits a 32-bit `int`, `move_paddle` leaves the moved
paddle at max(44, min(240, p + d)), which lies in [LIVES_FONT_SIZE,
LCD_HEIGHT - PADDLE_HEIGHT] and equals p + d when p + d is in that range; the
other paddle, the ball and the life counters are unchanged. -/
theorem C6_move_paddle (s : game_state) (is_right : Bool) (d : Int)
    (hfit : -2147483648 ≤ (if is_right then s.data.paddle_right_pos
        else s.data.paddle_left_pos) + d
      ∧ (if is_right then s.data.paddle_right_pos else s.data.paddle_left_pos) + d
        ≤ 2147483647) :
    let p := if is_right then s.data.paddle_right_pos else s.data.paddle_left_pos
    let t := move_paddle_int32 s is_right d
    let q := if is_right then t.data.paddle_right_pos else t.data.paddle_left_pos
    t = move_paddle s is_right d
    ∧ q = max 44 (min 240 (p + d))
    ∧ (LIVES_FONT_SIZE ≤ q ∧ q ≤ LCD_HEIGHT - PADDLE_HEIGHT)
    ∧ (LIVES_FONT_SIZE ≤ p + d ∧ p + d ≤ LCD_HEIGHT - PADDLE_HEIGHT → q = p + d)
    ∧ (if is_right then t.data.paddle_left_pos = s.data.paddle_left_pos
        else t.data.paddle_right_pos = s.data.paddle_right_pos)
    ∧ t.data.ball_pos_x = s.data.ball_pos_x ∧ t.data.ball_pos_y = s.data.ball_pos_y
    ∧ t.data.ball_vel_x = s.data.ball_vel_x ∧ t.data.ball_vel_y = s.data.ball_vel_y
    ∧ t.data.lives_left = s.data.lives_left ∧ t.data.lives_right = s.data.lives_right := by
  have heq := move_paddle_int32_eq s is_right d hfit
  simp only
  rw [heq]
  refine ⟨rfl, ?_⟩
  clear heq hfit
  cases is_right <;> simp only [move_paddle] <;> split_ifs <;> simp_all <;> omega

/-- Witness of C6: the right paddle at 230 moved by 25 stops at the lower
border 240. -/
theorem C6_move_paddle_witness :
    (-2147483648 ≤ (230 : Int) + 25 ∧ (230 : Int) + 25 ≤ 2147483647)
    ∧ (move_paddle_int32
        (example_state ⟨230, 172, 5, 5, 142, 230, 3, 3⟩ 5 (-1) ⟨MEDIUM, DUMB_AI, PLAYER, PLAYER⟩)
        true 25).data.paddle_right_pos = max 44 (min 240 (230 + 25)) :=
  ⟨by decide,
    (C6_move_paddle
      (example_state ⟨230, 172, 5, 5, 142, 230, 3, 3⟩ 5 (-1) ⟨MEDIUM, DUMB_AI, PLAYER, PLAYER⟩)
      true 25 (by decide)).2.1⟩

/-- C7, as stated, fails: in an AI-vs-AI match (lives 3 and 3) a lost round of
the left side leaves lives_left at 3; and in a human-vs-human state whose left
counter is 0 the counter becomes -1, not zero, yet the match is over. -/
theorem C7_counterexample :
    lives_based (⟨MEDIUM, DUMB_AI, BOT, BOT⟩ : settings_t)
    ∧ (on_ball_left_right_edge_collision
        (example_state ⟨0, 100, -5, 5, 142, 142, 3, 3⟩ 5 (-1) ⟨MEDIUM, DUMB_AI, BOT, BOT⟩)
        (-1) 0 0).data.lives_left = 3
    ∧ lives_based (⟨MEDIUM, DUMB_AI, PLAYER, PLAYER⟩ : settings_t)
    ∧ (on_ball_left_right_edge_collision
        (example_state ⟨0, 100, -5, 5, 142, 142, 0, 3⟩ 5 (-1) ⟨MEDIUM, DUMB_AI, PLAYER, PLAYER⟩)
        (-1) 0 0).data.lives_left = -1
    ∧ (on_ball_left_right_edge_collision
        (example_state ⟨0, 100, -5, 5, 142, 142, 0, 3⟩ 5 (-1) ⟨MEDIUM, DUMB_AI, PLAYER, PLAYER⟩)
        (-1) 0 0).game_running = 0 := by
  decide

/-- C7 (amended): in a lives-based match with counters ≥ 0 and a reported side
of -1 or 1: when both sides are human the losing side loses exactly one life and
the other counter is unchanged, the match is over if the decremented counter is
≤ 0 and otherwise the ball is reset to the centre (230, 172) and the running
flag is unchanged; when both sides are AI neither counter changes, the ball is
reset to the centre and the running flag is unchanged. -/
theorem C7_lives_update (s : game_state) (side : Int) (r1 r2 : Nat)
    (hm : lives_based s.game_settings)
    (hl : 0 ≤ s.data.lives_left ∧ 0 ≤ s.data.lives_right)
    (hs : side = -1 ∨ side = 1) :
    let t := on_ball_left_right_edge_collision s side r1 r2
    (s.game_settings.left = PLAYER ∧ s.game_settings.right = PLAYER →
      (side = -1 →
        t.data.lives_left = s.data.lives_left - 1 ∧ t.data.lives_right = s.data.lives_right
        ∧ (t.data.lives_left ≤ 0 → t.game_running = 0)
        ∧ (¬ t.data.lives_left ≤ 0 → t.data.ball_pos_x = 230 ∧ t.data.ball_pos_y = 172
            ∧ t.game_running = s.game_running))
      ∧ (side = 1 →
        t.data.lives_right = s.data.lives_right - 1 ∧ t.data.lives_left = s.data.lives_left
        ∧ (t.data.lives_right ≤ 0 → t.game_running = 0)
        ∧ (¬ t.data.lives_right ≤ 0 → t.data.ball_pos_x = 230 ∧ t.data.ball_pos_y = 172
            ∧ t.game_running = s.game_running)))
    ∧ (s.game_settings.left = BOT ∧ s.game_settings.right = BOT →
      t.data.lives_left = s.data.lives_left ∧ t.data.lives_right = s.data.lives_right
      ∧ t.data.ball_pos_x = 230 ∧ t.data.ball_pos_y = 172
      ∧ t.game_running = s.game_running) := by
  obtain ⟨hl1, hl2⟩ := hl
  simp only [lives_based] at hm
  have hb0 : ∀ b, (ball_loss_blink s b).data = s.data := fun b => (ball_loss_blink_frame s b).1
  have hb1 : ∀ b, (ball_loss_blink s b).game_settings = s.game_settings :=
    fun b => (ball_loss_blink_frame s b).2.1
  have hb2 : ∀ b, (ball_loss_blink s b).game_running = s.game_running :=
    fun b => (ball_loss_blink_frame s b).2.2.1
  rcases hs with rfl | rfl <;> rcases hm with ⟨hL, hR⟩ | ⟨hL, hR⟩
  all_goals
    simp only [on_ball_left_right_edge_collision, update_lives, hb0, hb1, hb2, hL, hR]
    simp
    split_ifs <;> simp_all [reset_ball_pos, reset_ball_frame]

/-- Witness of C7 (amended): human vs human, 3 lives each, the left side loses
a round, leaving 2 and 3 and a centred ball. -/
theorem C7_lives_update_witness :
    lives_based (⟨MEDIUM, DUMB_AI, PLAYER, PLAYER⟩ : settings_t)
    ∧ (on_ball_left_right_edge_collision
        (example_state ⟨0, 100, -5, 5, 142, 142, 3, 3⟩ 5 (-1) ⟨MEDIUM, DUMB_AI, PLAYER, PLAYER⟩)
        (-1) 0 1).data.lives_left = 3 - 1 :=
  ⟨by decide,
    (((C7_lives_update
      (example_state ⟨0, 100, -5, 5, 142, 142, 3, 3⟩ 5 (-1) ⟨MEDIUM, DUMB_AI, PLAYER, PLAYER⟩)
      (-1) 0 1 (by decide) (by decide) (by decide)).1 ⟨by decide, by decide⟩).1 (by decide)).1⟩

/-- After `init_game` and the start of `update_loop` in a lives-based match
both sides have 3 lives and the match runs. -/
theorem init_game_lives (s0 : game_state) (r1 r2 : Nat) (hm : lives_based s0.game_settings) :
    (update_loop_start (init_game s0 r1 r2)).data.lives_left = 3
    ∧ (update_loop_start (init_game s0 r1 r2)).data.lives_right = 3
    ∧ (update_loop_start (init_game s0 r1 r2)).game_running = 1
    ∧ (update_loop_start (init_game s0 r1 r2)).game_settings = s0.game_settings := by
  simp only [lives_based, PLAYER, BOT] at hm
  simp only [update_loop_start, init_game, init_data, reset_ball, PLAYER, BOT, INITIAL_LIVES]
  rw [if_pos hm]
  split_ifs <;> simp

/-- The lives invariant holds after any number of ticks of the update loop. -/
theorem update_loop_ticks_lives_inv (inputs : List tick_input) :
    ∀ s : game_state, lives_inv s → lives_inv (update_loop_ticks s inputs) := by
  induction inputs with
  | nil => intro s hs; exact hs
  | cons i rest ih =>
    intro s hs
    simp only [update_loop_ticks]
    split_ifs with hr
    · exact ih _ (update_lives_inv s i hs hr).1
    · exact hs

/-- C8 (lives invariant): in a lives-based match the predicate
0 ≤ lives_left ≤ 3, 0 ≤ lives_right ≤ 3 and (game_running = 0 iff a counter is
0) holds after `init_game` and the start of `update_loop` (3 lives each,
running), is preserved by every tick applied to a running state, and therefore
holds after any sequence of ticks of the loop. -/
theorem C8_lives_invariant (s0 : game_state) (r1 r2 : Nat)
    (hm : lives_based s0.game_settings) :
    ((update_loop_start (init_game s0 r1 r2)).data.lives_left = 3
      ∧ (update_loop_start (init_game s0 r1 r2)).data.lives_right = 3
      ∧ (update_loop_start (init_game s0 r1 r2)).game_running = 1
      ∧ lives_inv (update_loop_start (init_game s0 r1 r2)))
    ∧ (∀ (s : game_state) (i : tick_input), lives_based s.game_settings → lives_inv s →
        s.game_running ≠ 0 →
        lives_inv (update s i) ∧ lives_based (update s i).game_settings)
    ∧ (∀ inputs : List tick_input,
        lives_inv (update_loop_ticks (update_loop_start (init_game s0 r1 r2)) inputs)) := by
  obtain ⟨h1, h2, h3, _⟩ := init_game_lives s0 r1 r2 hm
  have hinit : lives_inv (update_loop_start (init_game s0 r1 r2)) := by
    simp only [lives_inv, h1, h2, h3]; decide
  refine ⟨⟨h1, h2, h3, hinit⟩, ?_, ?_⟩
  · intro s i hs hi hr
    obtain ⟨g1, g2⟩ := update_lives_inv s i hi hr
    exact ⟨g1, by rw [g2]; exact hs⟩
  · intro inputs
    exact update_loop_ticks_lives_inv inputs _ hinit

/-- Witness of C8: a human-vs-human match after initialisation and two ticks
in which the left player presses the up key. -/
theorem C8_lives_invariant_witness :
    lives_based (⟨MEDIUM, DUMB_AI, PLAYER, PLAYER⟩ : settings_t)
    ∧ lives_inv (update_loop_ticks
        (update_loop_start (init_game
          (example_state ⟨0, 0, 0, 0, 0, 0, 0, 0⟩ 0 0 ⟨MEDIUM, DUMB_AI, PLAYER, PLAYER⟩) 0 1))
        [⟨['w'], 0, 0, 0, 0, 0⟩, ⟨[], 0, 0, 0, 0, 0⟩]) :=
  ⟨by decide,
    (C8_lives_invariant
      (example_state ⟨0, 0, 0, 0, 0, 0, 0, 0⟩ 0 0 ⟨MEDIUM, DUMB_AI, PLAYER, PLAYER⟩) 0 1
      (by decide)).2.2 [⟨['w'], 0, 0, 0, 0, 0⟩, ⟨[], 0, 0, 0, 0, 0⟩]⟩

/-- The round end of a mixed match, the log message apart: with both life
counters at the sentinel -1, when a lost round is reported (side -1 or 1): if
the losing side is the human one, game_running becomes 0 and score and ball
data are unchanged; if it is the AI side, the score grows by
BONUS_ON_AI_BALL_LOSS = 3, the ball is reset to the centre (230, 172) and the
running flag is unchanged. -/
theorem edge_collision_mixed (s : game_state) (side : Int) (r1 r2 : Nat)
    (hm : mixed_match s.game_settings)
    (hl : s.data.lives_left = -1 ∧ s.data.lives_right = -1)
    (_hsc : s.score ≥ 0)
    (hs : side = -1 ∨ side = 1) :
    let t := on_ball_left_right_edge_collision s side r1 r2
    ((side = -1 ∧ s.game_settings.left = PLAYER) ∨ (side = 1 ∧ s.game_settings.right = PLAYER) →
      t.game_running = 0 ∧ t.score = s.score ∧ t.data = s.data)
    ∧ ((side = -1 ∧ s.game_settings.left = BOT) ∨ (side = 1 ∧ s.game_settings.right = BOT) →
      t.score = s.score + 3 ∧ BONUS_ON_AI_BALL_LOSS = 3
      ∧ t.data.ball_pos_x = 230 ∧ t.data.ball_pos_y = 172
      ∧ t.game_running = s.game_running) := by
  obtain ⟨hl1, hl2⟩ := hl
  simp only [mixed_match] at hm
  have hb0 : ∀ b, (ball_loss_blink s b).data = s.data := fun b => (ball_loss_blink_frame s b).1
  have hb1 : ∀ b, (ball_loss_blink s b).game_settings = s.game_settings :=
    fun b => (ball_loss_blink_frame s b).2.1
  have hb2 : ∀ b, (ball_loss_blink s b).game_running = s.game_running :=
    fun b => (ball_loss_blink_frame s b).2.2.1
  have hb3 : ∀ b, (ball_loss_blink s b).score = s.score :=
    fun b => (ball_loss_blink_frame s b).2.2.2.1
  rcases hs with rfl | rfl <;> rcases hm with ⟨hL, hR⟩ | ⟨hL, hR⟩
  all_goals
    simp only [on_ball_left_right_edge_collision, hb0, hb1, hb2, hb3, hL, hR, hl1]
    simp [reset_ball_pos, reset_ball_frame, hb0, hb1, hb2, hb3]

/-- An instance of `edge_collision_mixed`: human on the left, AI on the right,
score 4; the AI side loses the round and the score becomes 7. -/
theorem edge_collision_mixed_example :
    mixed_match (⟨MEDIUM, DUMB_AI, PLAYER, BOT⟩ : settings_t)
    ∧ (on_ball_left_right_edge_collision
        (example_state ⟨460, 100, 5, 5, 142, 142, -1, -1⟩ 5 4 ⟨MEDIUM, DUMB_AI, PLAYER, BOT⟩)
        1 0 1).score = 4 + 3 :=
  ⟨by decide,
    ((edge_collision_mixed
      (example_state ⟨460, 100, 5, 5, 142, 142, -1, -1⟩ 5 4 ⟨MEDIUM, DUMB_AI, PLAYER, BOT⟩)
      1 0 1 (by decide) (by decide) (by decide) (by decide)).2
        (Or.inr ⟨by decide, by decide⟩)).1⟩

/-- Every number has at least one decimal digit. -/
theorem decimal_digits_pos (fuel n : Nat) : 1 ≤ decimal_digits fuel n := by
  cases fuel with
  | zero => exact Nat.le_refl 1
  | succ f =>
    show 1 ≤ (if n < 10 then 1 else 1 + decimal_digits f (n / 10))
    split_ifs <;> omega

/-- The message fits the buffer exactly for the scores 0 to 9. -/
theorem score_message_size_fits (score : Int) (h : 0 ≤ score) :
    score_message_size score ≤ 21 ↔ score ≤ 9 := by
  have hneg : ¬ score < 0 := by omega
  have hdigits : decimal_digits 10 score.natAbs
      = (if score.natAbs < 10 then 1 else 1 + decimal_digits 9 (score.natAbs / 10)) := rfl
  have hpos := decimal_digits_pos 9 (score.natAbs / 10)
  simp only [score_message_size, printed_length, if_neg hneg, hdigits]
  split_ifs <;> omega

/-- The function with the buffer write made explicit agrees with the embedded
one except where the message does not fit the buffer. -/
theorem edge_collision_checked_spec (s : game_state) (side : Int) (r1 r2 : Nat) :
    on_ball_left_right_edge_collision_checked s side r1 r2
      = (if side ≠ 0 ∧ ¬ s.data.lives_left ≥ 0
            ∧ ((side = -1 ∧ s.game_settings.left = PLAYER)
              ∨ (side = 1 ∧ s.game_settings.right = PLAYER))
            ∧ ¬ score_message_size s.score ≤ 21 then none
         else some (on_ball_left_right_edge_collision s side r1 r2)) := by
  unfold on_ball_left_right_edge_collision_checked on_ball_left_right_edge_collision
  by_cases hside : side ≠ 0
  · simp only [if_pos hside]
    generalize (if side = -1 then false else true) = b
    obtain ⟨blink_data, blink_settings, _, blink_score, _⟩ := ball_loss_blink_frame s b
    have lives_eq : (ball_loss_blink s b).data.lives_left = s.data.lives_left := by
      rw [blink_data]
    have left_eq : (ball_loss_blink s b).game_settings.left = s.game_settings.left := by
      rw [blink_settings]
    have right_eq : (ball_loss_blink s b).game_settings.right = s.game_settings.right := by
      rw [blink_settings]
    simp only [lives_eq, left_eq, right_eq, blink_score]
    by_cases hl : s.data.lives_left ≥ 0
    · have hcond : ¬ (side ≠ 0 ∧ ¬ s.data.lives_left ≥ 0
          ∧ ((side = -1 ∧ s.game_settings.left = PLAYER)
            ∨ (side = 1 ∧ s.game_settings.right = PLAYER))
          ∧ ¬ score_message_size s.score ≤ 21) := fun c => c.2.1 hl
      rw [if_pos hl, if_pos hl, if_neg hcond]
      split_ifs <;> rfl
    · rw [if_neg hl, if_neg hl]
      by_cases hp : (side = -1 ∧ s.game_settings.left = PLAYER)
          ∨ (side = 1 ∧ s.game_settings.right = PLAYER)
      · rw [if_pos hp, if_pos hp]
        by_cases hfit : score_message_size s.score ≤ 21
        · have hcond : ¬ (side ≠ 0 ∧ ¬ s.data.lives_left ≥ 0
              ∧ ((side = -1 ∧ s.game_settings.left = PLAYER)
                ∨ (side = 1 ∧ s.game_settings.right = PLAYER))
              ∧ ¬ score_message_size s.score ≤ 21) := fun c => c.2.2.2 hfit
          rw [if_pos hfit, if_neg hcond]
        · rw [if_neg hfit, if_pos ⟨hside, hl, hp, hfit⟩]
      · have hcond : ¬ (side ≠ 0 ∧ ¬ s.data.lives_left ≥ 0
            ∧ ((side = -1 ∧ s.game_settings.left = PLAYER)
              ∨ (side = 1 ∧ s.game_settings.right = PLAYER))
            ∧ ¬ score_message_size s.score ≤ 21) := fun c => hp c.2.2.1
        rw [if_neg hp, if_neg hp, if_neg hcond]
  · have hcond : ¬ (side ≠ 0 ∧ ¬ s.data.lives_left ≥ 0
        ∧ ((side = -1 ∧ s.game_settings.left = PLAYER)
          ∨ (side = 1 ∧ s.game_settings.right = PLAYER))
        ∧ ¬ score_message_size s.score ≤ 21) := fun c => hside c.1
    rw [if_neg hside, if_neg hside, if_neg hcond]

/-- C9 fails on the code: a human (left) plays the simple AI at difficulty
MEDIUM; after 598 ticks without input the score is 10, the key 's' then sends
the human's paddle to the lower border and 45 ticks later the ball is at the
left edge.  In the next tick the edge check reports the human's loss (-1) and
`sprintf(str, "player lost: score %d", score)` writes 22 bytes into
`char str[21]`: the function writes past its buffer instead of ending the match
with the score unchanged.  With a one-digit score (9) the message takes 21
bytes and the match ends as the claim says. -/
theorem C9_score_message_overflow :
    mixed_match_state = score_ten_state
    ∧ mixed_match score_ten_state.game_settings
    ∧ (update_ball (update_paddles score_ten_state idle_input)).2 = -1
    ∧ (update_ball (update_paddles score_ten_state idle_input)).1.game_settings.left = PLAYER
    ∧ (update_ball (update_paddles score_ten_state idle_input)).1.score = 10
    ∧ score_message_size 10 = 22
    ∧ on_ball_left_right_edge_collision_checked
        (update_ball (update_paddles score_ten_state idle_input)).1
        (update_ball (update_paddles score_ten_state idle_input)).2 0 0 = none
    ∧ score_message_size 9 = 21
    ∧ (on_ball_left_right_edge_collision_checked
        { (update_ball (update_paddles score_ten_state idle_input)).1 with score := 9 }
        (-1) 0 0).map (fun t => (t.game_running, t.score)) = some (0, 9) := by
  decide

/-- C10 (score on hit): when `check_ball_paddle_collision` registers a hit on a
side, the score grows by exactly 1 if score ≥ 0 and that side is PLAYER and is
unchanged otherwise; without a registered hit the score is unchanged. -/
theorem C10_score_on_hit (s : game_state) :
    (s.data.ball_pos_x < 20 ∧ s.data.ball_pos_x - s.data.ball_vel_x ≥ 20 →
      paddle_hit s.data.paddle_left_pos (left_hit_y s.data) →
      (s.score ≥ 0 ∧ s.game_settings.left = PLAYER →
        (check_ball_paddle_collision s).score = s.score + 1)
      ∧ (¬ (s.score ≥ 0 ∧ s.game_settings.left = PLAYER) →
        (check_ball_paddle_collision s).score = s.score))
    ∧ (s.data.ball_pos_x > 440 ∧ s.data.ball_pos_x - s.data.ball_vel_x ≤ 440 →
      paddle_hit s.data.paddle_right_pos (right_hit_y s.data) →
      (s.score ≥ 0 ∧ s.game_settings.right = PLAYER →
        (check_ball_paddle_collision s).score = s.score + 1)
      ∧ (¬ (s.score ≥ 0 ∧ s.game_settings.right = PLAYER) →
        (check_ball_paddle_collision s).score = s.score))
    ∧ (¬ ((s.data.ball_pos_x < 20 ∧ s.data.ball_pos_x - s.data.ball_vel_x ≥ 20)
          ∧ paddle_hit s.data.paddle_left_pos (left_hit_y s.data)) →
       ¬ ((s.data.ball_pos_x > 440 ∧ s.data.ball_pos_x - s.data.ball_vel_x ≤ 440)
          ∧ paddle_hit s.data.paddle_right_pos (right_hit_y s.data)) →
      (check_ball_paddle_collision s).score = s.score) := by
  refine ⟨?_, ?_, ?_⟩
  · intro hc hh
    rw [(paddle_collision_left_hit s hc hh).2]
    exact ⟨fun h => if_pos h, fun h => if_neg h⟩
  · intro hc hh
    rw [(paddle_collision_right_hit s hc hh).2]
    exact ⟨fun h => if_pos h, fun h => if_neg h⟩
  · intro hl hr
    rw [paddle_collision_no_hit s hl hr]

/-- Witness of C10: the human left paddle hits the ball at score 0, which
becomes 1. -/
theorem C10_score_on_hit_witness :
    left_crossing_state.score = 0
    ∧ (check_ball_paddle_collision left_crossing_state).score
        = left_crossing_state.score + 1 :=
  ⟨by decide,
    (((C10_score_on_hit left_crossing_state).1 ⟨by decide, by decide⟩ (by decide)).1
      ⟨by decide, by decide⟩)⟩

/-! ## Lemmas for the second group of claims -/

/-- Unfolding of `+` on fractions. -/
theorem double.add_def (a b : double) :
    a + b = ⟨a.num * b.den + b.num * a.den, a.den * b.den⟩ := rfl

/-- Unfolding of `-` on fractions. -/
theorem double.sub_def (a b : double) :
    a - b = ⟨a.num * b.den - b.num * a.den, a.den * b.den⟩ := rfl

/-- Unfolding of `*` on fractions. -/
theorem double.mul_def (a b : double) : a * b = ⟨a.num * b.num, a.den * b.den⟩ := rfl

/-- Unfolding of `/` on fractions. -/
theorem double.div_def (a b : double) : a / b = ⟨a.num * b.den, a.den * b.num⟩ := rfl

/-- The vertical velocity that `on_hit_change_ball_vel_y` assigns, as one
truncating division: `(int)(4 * (h - p - 30) * speed / 99 + 1/2)`. -/
theorem on_hit_vel_y (s : game_state) (p h o : Int) :
    (on_hit_change_ball_vel_y s p h o).data.ball_vel_y
      = Int.tdiv (128 * ((h - p - 30) * s.ball_speed) + 1584) 3168 := by
  simp only [on_hit_change_ball_vel_y, double.toInt, double.ofInt, double.half,
    double.add_def, double.sub_def, double.mul_def, double.div_def,
    PADDLE_HEIGHT, BALL_SIZE, BOUNCE_CONST]
  congr 1
  ring

/-- The y position that `on_hit_change_ball_vel_y` assigns, as one truncating
division: `h + (int)(o * 4 * (h - p - 30) / 99 + 1/2)`. -/
theorem on_hit_pos_y (s : game_state) (p h o : Int) :
    (on_hit_change_ball_vel_y s p h o).data.ball_pos_y
      = h + Int.tdiv (128 * (o * (h - p - 30)) + 1584) 3168 := by
  simp only [on_hit_change_ball_vel_y, double.toInt, double.ofInt, double.half,
    double.add_def, double.sub_def, double.mul_def, double.div_def,
    PADDLE_HEIGHT, BALL_SIZE, BOUNCE_CONST]
  congr 2
  ring

/-- The contact y of the right branch as one truncating division. -/
theorem right_hit_y_eq (d : game_data) :
    right_hit_y d = Int.tdiv
      (2 * (d.ball_pos_y - d.ball_vel_y
        + (d.ball_pos_x - d.ball_vel_x - 440) * Int.tdiv d.ball_vel_y d.ball_vel_x) + 1) 2 := by
  simp only [right_hit_y, double.toInt, double.ofInt, double.half, double.add_def,
    double.mul_def, right_limit, LCD_WIDTH, PADDLE_WIDTH, BALL_SIZE]
  congr 1
  ring

/-- The contact y of the left branch as one truncating division. -/
theorem left_hit_y_eq (d : game_data) :
    left_hit_y d = Int.tdiv
      (2 * (d.ball_pos_y - d.ball_vel_y
        + (20 - (d.ball_pos_x - d.ball_vel_x)) * Int.tdiv d.ball_vel_y d.ball_vel_x) + 1) 2 := by
  simp only [left_hit_y, double.toInt, double.ofInt, double.half, double.add_def,
    double.mul_def, left_limit, PADDLE_WIDTH]
  congr 1
  ring

theorem calculate_bounces_in_bounds (y : Int) (h : 44 ≤ y ∧ y ≤ 300) :
    calculate_bounces y = y := by
  rw [calculate_bounces]
  simp only [LIVES_FONT_SIZE, LCD_HEIGHT, BALL_SIZE]
  split_ifs <;> omega

theorem calculate_bounces_step (y : Int) :
    calculate_bounces y = calculate_bounces (bounce_step y) := by
  by_cases h : 44 ≤ y ∧ y ≤ 300
  · have : bounce_step y = y := by
      simp only [bounce_step, LIVES_FONT_SIZE, LCD_HEIGHT, BALL_SIZE]
      split_ifs <;> omega
    rw [this]
  · conv_lhs => rw [calculate_bounces]
    simp only [bounce_step, LIVES_FONT_SIZE, LCD_HEIGHT, BALL_SIZE]
    split_ifs <;> first | rfl | omega

theorem bounce_step_distance (y : Int) (h : ¬ (44 ≤ y ∧ y ≤ 300)) :
    bounce_distance (bounce_step y) < bounce_distance y
    ∧ bounce_distance (bounce_step y) = max 0 (bounce_distance y - 256) := by
  simp only [bounce_step, bounce_distance, LIVES_FONT_SIZE, LCD_HEIGHT, BALL_SIZE]
  split_ifs <;> omega

theorem calculate_bounces_iterate (n : Nat) :
    ∀ y : Int, bounce_distance y ≤ 256 * n →
      calculate_bounces y = bounce_step^[n] y ∧ 44 ≤ calculate_bounces y
        ∧ calculate_bounces y ≤ 300 := by
  induction n with
  | zero =>
    intro y hy
    have hb : 44 ≤ y ∧ y ≤ 300 := by
      simp only [bounce_distance, LIVES_FONT_SIZE, LCD_HEIGHT, BALL_SIZE] at hy
      split_ifs at hy <;> omega
    rw [calculate_bounces_in_bounds y hb]
    exact ⟨rfl, hb⟩
  | succ n ih =>
    intro y hy
    have hstep : bounce_distance (bounce_step y) ≤ 256 * n := by
      by_cases hb : 44 ≤ y ∧ y ≤ 300
      · have : bounce_step y = y := by
          simp only [bounce_step, LIVES_FONT_SIZE, LCD_HEIGHT, BALL_SIZE]
          split_ifs <;> omega
        rw [this]
        simp only [bounce_distance, LIVES_FONT_SIZE, LCD_HEIGHT, BALL_SIZE]
        split_ifs <;> omega
      · have := (bounce_step_distance y hb).2
        push_cast at hy
        omega
    obtain ⟨h1, h2, h3⟩ := ih (bounce_step y) hstep
    rw [calculate_bounces_step y, Function.iterate_succ_apply]
    exact ⟨h1, h2, h3⟩

/-- The random offset is the remainder of the draw modulo 99, a value in
`[0, 98]`. -/
theorem random_bounce_range (r : Nat) :
    random_bounce r = ((r % 99 : Nat) : Int) ∧ 0 ≤ random_bounce r ∧ random_bounce r ≤ 98 := by
  have h : random_bounce r = ((r % 99 : Nat) : Int) := by
    simp only [random_bounce, PADDLE_HEIGHT, BALL_SIZE]
    rw [show (80 : Int) + 20 - 1 = 99 by decide,
      Int.tmod_eq_emod (Int.ofNat_nonneg r) (by decide)]
    rfl
  rw [h]
  omega

/-- The returned direction steers the paddle toward the target that the call
leaves in the static variable. -/
theorem better_ai_move_dir (s : game_state) (is_right : Bool) (d : game_data) (r : Nat) :
    (better_ai_move s is_right d r).2 =
      (if (better_ai_move s is_right d r).1.ai_target_paddle_y
          < (if is_right then d.paddle_right_pos else d.paddle_left_pos) then -1
       else if (better_ai_move s is_right d r).1.ai_target_paddle_y
          > (if is_right then d.paddle_right_pos else d.paddle_left_pos) then 1
       else 0) := by
  have key : ∀ (s1 : game_state) (cur : Int),
      (if s1.ai_target_paddle_y < cur then (s1, (-1 : Int))
        else if s1.ai_target_paddle_y > cur then (s1, 1) else (s1, 0)).2 =
      (if (if s1.ai_target_paddle_y < cur then (s1, (-1 : Int))
        else if s1.ai_target_paddle_y > cur then (s1, 1) else (s1, 0)).1.ai_target_paddle_y
          < cur then -1
       else if (if s1.ai_target_paddle_y < cur then (s1, (-1 : Int))
        else if s1.ai_target_paddle_y > cur then (s1, 1) else (s1, 0)).1.ai_target_paddle_y
          > cur then 1
       else 0) := by
    intro s1 cur
    split_ifs <;> simp_all
  exact key _ _

theorem same_ball_refl (s : game_state) : same_ball s s := ⟨rfl, rfl, rfl, rfl, rfl, rfl⟩

theorem same_ball_trans {s t u : game_state} (h1 : same_ball s t) (h2 : same_ball t u) :
    same_ball s u := by
  obtain ⟨px, py, vx, vy, speed, settings⟩ := h1
  obtain ⟨qx, qy, wx, wy, speed2, settings2⟩ := h2
  exact ⟨qx.trans px, qy.trans py, wx.trans vx, wy.trans vy, speed2.trans speed,
    settings2.trans settings⟩

theorem move_paddle_ball (s : game_state) (b : Bool) (d : Int) :
    same_ball s (move_paddle s b d) := by
  unfold move_paddle; split_ifs <;> exact ⟨rfl, rfl, rfl, rfl, rfl, rfl⟩

theorem move_ai_paddle_ball (s : game_state) (b : Bool) (d : Int) :
    same_ball s (move_ai_paddle s b d) := by
  unfold move_ai_paddle
  split_ifs
  · exact move_paddle_ball _ _ _
  · exact move_paddle_ball _ _ _
  · exact same_ball_refl _

theorem set_last_key_ball (s : game_state) (b : Bool) (v : Int) :
    same_ball s (set_last_key s b v) := by
  unfold set_last_key; split_ifs <;> exact ⟨rfl, rfl, rfl, rfl, rfl, rfl⟩

theorem update_player_paddle_ball (s : game_state) (b : Bool) (k d : Int) :
    same_ball s (update_player_paddle s b k d) := by
  unfold update_player_paddle
  simp only
  split_ifs
  all_goals
    first
    | exact same_ball_refl _
    | exact set_last_key_ball _ _ _
    | exact move_paddle_ball _ _ _
    | exact same_ball_trans (set_last_key_ball _ _ _) (move_paddle_ball _ _ _)

theorem better_ai_move_ball (s : game_state) (b : Bool) (d : game_data) (r : Nat) :
    same_ball s (better_ai_move s b d r).1 := by
  unfold better_ai_move
  simp only
  split_ifs <;> exact ⟨rfl, rfl, rfl, rfl, rfl, rfl⟩

theorem update_ai_paddle_ball (s : game_state) (b : Bool) (r : Nat) :
    same_ball s (update_ai_paddle s b r) := by
  unfold update_ai_paddle
  split_ifs
  · exact move_ai_paddle_ball _ _ _
  · exact same_ball_trans (better_ai_move_ball _ _ _ _) (move_ai_paddle_ball _ _ _)
  · exact same_ball_refl _

theorem update_paddles_ball (s : game_state) (i : tick_input) :
    same_ball s (update_paddles s i) := by
  unfold update_paddles
  have h0 : same_ball s { s with input_knobs := get_knob_value s.input_knobs i.knob_register } :=
    ⟨rfl, rfl, rfl, rfl, rfl, rfl⟩
  simp only
  split_ifs
  all_goals
    first
    | exact same_ball_trans h0 (same_ball_trans (update_player_paddle_ball _ _ _ _)
        (update_player_paddle_ball _ _ _ _))
    | exact same_ball_trans h0 (same_ball_trans (update_player_paddle_ball _ _ _ _)
        (update_ai_paddle_ball _ _ _))
    | exact same_ball_trans h0 (same_ball_trans (update_ai_paddle_ball _ _ _)
        (update_player_paddle_ball _ _ _ _))
    | exact same_ball_trans h0 (same_ball_trans (update_ai_paddle_ball _ _ _)
        (update_ai_paddle_ball _ _ _))

theorem update_diodes_ball (s : game_state) : same_ball s (update_diodes s) := by
  unfold update_diodes
  simp only
  split_ifs <;> exact ⟨rfl, rfl, rfl, rfl, rfl, rfl⟩

/-- The paddle check keeps or negates the horizontal velocity and writes
neither the ball speed nor the settings. -/
theorem check_ball_paddle_vel_x (s : game_state) :
    ((check_ball_paddle_collision s).data.ball_vel_x = s.data.ball_vel_x
      ∨ (check_ball_paddle_collision s).data.ball_vel_x = -s.data.ball_vel_x)
    ∧ (check_ball_paddle_collision s).ball_speed = s.ball_speed
    ∧ (check_ball_paddle_collision s).game_settings = s.game_settings := by
  unfold check_ball_paddle_collision
  simp only
  split_ifs <;>
    simp [hit_blink_data, hit_blink_settings, on_hit_change_ball_vel_y, hit_blink]
  all_goals split_ifs <;> simp

/-- One `update_ball` keeps or negates the horizontal velocity and writes
neither the ball speed nor the settings. -/
theorem update_ball_vel_x (s : game_state) :
    ((update_ball s).1.data.ball_vel_x = s.data.ball_vel_x
      ∨ (update_ball s).1.data.ball_vel_x = -s.data.ball_vel_x)
    ∧ (update_ball s).1.ball_speed = s.ball_speed
    ∧ (update_ball s).1.game_settings = s.game_settings := by
  have hw : ∀ t : game_state,
      (check_ball_top_bot_edge_collision t).data.ball_vel_x = t.data.ball_vel_x
      ∧ (check_ball_top_bot_edge_collision t).ball_speed = t.ball_speed
      ∧ (check_ball_top_bot_edge_collision t).game_settings = t.game_settings := by
    intro t
    unfold check_ball_top_bot_edge_collision
    simp only
    split_ifs <;> exact ⟨rfl, rfl, rfl⟩
  have he : ∀ t : game_state,
      (check_ball_left_right_edge_collision t).1.data.ball_vel_x = t.data.ball_vel_x
      ∧ (check_ball_left_right_edge_collision t).1.ball_speed = t.ball_speed
      ∧ (check_ball_left_right_edge_collision t).1.game_settings = t.game_settings := by
    intro t
    unfold check_ball_left_right_edge_collision
    split_ifs <;> exact ⟨rfl, rfl, rfl⟩
  unfold update_ball
  simp only
  obtain ⟨e1, e2, e3⟩ := he (check_ball_paddle_collision (check_ball_top_bot_edge_collision
    { s with data := { s.data with
        ball_pos_x := s.data.ball_pos_x + s.data.ball_vel_x,
        ball_pos_y := s.data.ball_pos_y + s.data.ball_vel_y } }))
  obtain ⟨p1, p2, p3⟩ := check_ball_paddle_vel_x (check_ball_top_bot_edge_collision
    { s with data := { s.data with
        ball_pos_x := s.data.ball_pos_x + s.data.ball_vel_x,
        ball_pos_y := s.data.ball_pos_y + s.data.ball_vel_y } })
  obtain ⟨w1, w2, w3⟩ := hw
    { s with data := { s.data with
        ball_pos_x := s.data.ball_pos_x + s.data.ball_vel_x,
        ball_pos_y := s.data.ball_pos_y + s.data.ball_vel_y } }
  rw [w1] at p1
  exact ⟨by rw [e1]; exact p1, by rw [e2, p2, w2], by rw [e3, p3, w3]⟩

/-- The round-end handler keeps the horizontal velocity or resets it to plus
or minus the ball speed; it writes neither the ball speed nor the settings. -/
theorem edge_collision_vel_x (s : game_state) (side : Int) (r1 r2 : Nat) :
    ((on_ball_left_right_edge_collision s side r1 r2).data.ball_vel_x = s.data.ball_vel_x
      ∨ (on_ball_left_right_edge_collision s side r1 r2).data.ball_vel_x = s.ball_speed
      ∨ (on_ball_left_right_edge_collision s side r1 r2).data.ball_vel_x = -s.ball_speed)
    ∧ (on_ball_left_right_edge_collision s side r1 r2).ball_speed = s.ball_speed
    ∧ (on_ball_left_right_edge_collision s side r1 r2).game_settings = s.game_settings := by
  have hr : ∀ t : game_state,
      ((reset_ball t r1 r2).data.ball_vel_x = t.ball_speed
        ∨ (reset_ball t r1 r2).data.ball_vel_x = -t.ball_speed) := by
    intro t
    simp only [reset_ball]
    split_ifs
    · exact Or.inr rfl
    · exact Or.inl rfl
  unfold on_ball_left_right_edge_collision
  simp only
  generalize (if side = -1 then false else true) = b
  obtain ⟨hb0, hb1, _, _, hb4⟩ := ball_loss_blink_frame s b
  obtain ⟨hu1, hu2, _⟩ := update_lives_spec (ball_loss_blink s b) side
  have hu3 : (update_lives (ball_loss_blink s b) side).1.data.ball_vel_x = s.data.ball_vel_x
      ∧ (update_lives (ball_loss_blink s b) side).1.ball_speed = s.ball_speed := by
    rw [← hb0, ← hb4]
    unfold update_lives
    simp only
    split_ifs <;> exact ⟨rfl, rfl⟩
  split_ifs with h1 h2 h3 h4
  · exact ⟨Or.inl hu3.1, hu3.2, by rw [← hb1]; exact hu1⟩
  · refine ⟨Or.inr ?_, ?_, ?_⟩
    · have := hr (update_lives (ball_loss_blink s b) side).1
      rw [hu3.2] at this
      exact this
    · exact (reset_ball_frame _ r1 r2).2.2.2.2.2.2.2.trans hu3.2
    · rw [(reset_ball_frame _ r1 r2).2.2.2.2.2.2.1, ← hb1]; exact hu1
  · exact ⟨Or.inl (by rw [← hb0]), hb4, hb1⟩
  · refine ⟨Or.inr ?_, ?_, ?_⟩
    · have := hr { ball_loss_blink s b with
        score := (ball_loss_blink s b).score + BONUS_ON_AI_BALL_LOSS }
      rw [show ({ ball_loss_blink s b with
        score := (ball_loss_blink s b).score + BONUS_ON_AI_BALL_LOSS } : game_state).ball_speed
          = s.ball_speed from hb4] at this
      exact this
    · exact (reset_ball_frame _ r1 r2).2.2.2.2.2.2.2.trans hb4
    · rw [(reset_ball_frame _ r1 r2).2.2.2.2.2.2.1]; exact hb1
  · exact ⟨Or.inl rfl, rfl, rfl⟩

theorem velocity_inv_of (s t : game_state) (hs : velocity_inv s)
    (hv : t.data.ball_vel_x = s.data.ball_vel_x ∨ t.data.ball_vel_x = -s.data.ball_vel_x
      ∨ t.data.ball_vel_x = s.ball_speed ∨ t.data.ball_vel_x = -s.ball_speed)
    (hsp : t.ball_speed = s.ball_speed) (hst : t.game_settings = s.game_settings) :
    velocity_inv t := by
  obtain ⟨hc, ha⟩ := hs
  have hpos : 0 ≤ s.ball_speed := by
    simp only [configured_speed, BALL_SPEED_EASY, BALL_SPEED_MEDIUM, BALL_SPEED_HARD] at hc
    omega
  refine ⟨by rw [hst, hsp]; exact hc, ?_⟩
  rw [hsp]
  rcases hv with h | h | h | h <;> rw [h]
  · exact ha
  · rw [abs_neg]; exact ha
  · exact abs_of_nonneg hpos
  · rw [abs_neg]; exact abs_of_nonneg hpos

theorem update_velocity_inv (s : game_state) (i : tick_input) (hs : velocity_inv s) :
    velocity_inv (update s i) := by
  obtain ⟨_, _, a3, _, a5, a6⟩ := update_paddles_ball s i
  obtain ⟨b1, b2, b3⟩ := update_ball_vel_x (update_paddles s i)
  obtain ⟨c1, c2, c3⟩ := edge_collision_vel_x (update_ball (update_paddles s i)).1
    (update_ball (update_paddles s i)).2 i.rand_reset_y i.rand_reset_x
  obtain ⟨_, _, d3, _, d5, d6⟩ := update_diodes_ball
    (on_ball_left_right_edge_collision (update_ball (update_paddles s i)).1
      (update_ball (update_paddles s i)).2 i.rand_reset_y i.rand_reset_x)
  apply velocity_inv_of s _ hs
  · simp only [update]
    rw [d3]
    rw [b2, a5] at c1
    rw [a3] at b1
    rcases c1 with h | h | h
    · rw [h]; rcases b1 with g | g
      · exact Or.inl g
      · exact Or.inr (Or.inl g)
    · exact Or.inr (Or.inr (Or.inl h))
    · exact Or.inr (Or.inr (Or.inr h))
  · simp only [update]; rw [d5, c2, b2, a5]
  · simp only [update]; rw [d6, c3, b3, a6]

theorem reset_ball_vel_x (t : game_state) (r1 r2 : Nat) :
    (reset_ball t r1 r2).data.ball_vel_x
      = (if r2 % 2 = 0 then -(reset_ball t r1 r2).ball_speed
          else (reset_ball t r1 r2).ball_speed) := rfl

theorem init_data_frame (s0 : game_state) (r1 r2 : Nat) :
    (init_data s0 r1 r2).game_settings = s0.game_settings
    ∧ (init_data s0 r1 r2).data.ball_vel_x
      = (if r2 % 2 = 0 then -(init_data s0 r1 r2).ball_speed
          else (init_data s0 r1 r2).ball_speed) := by
  unfold init_data
  simp only
  refine ⟨?_, reset_ball_vel_x _ r1 r2⟩
  rw [(reset_ball_frame _ r1 r2).2.2.2.2.2.2.1]
  split_ifs <;> rfl

theorem init_game_frame (s0 : game_state) (r1 r2 : Nat) :
    (init_game s0 r1 r2).game_settings = (init_data s0 r1 r2).game_settings
    ∧ (init_game s0 r1 r2).ball_speed = (init_data s0 r1 r2).ball_speed
    ∧ (init_game s0 r1 r2).data = (init_data s0 r1 r2).data := by
  unfold init_game
  simp only
  split_ifs <;> exact ⟨rfl, rfl, rfl⟩

theorem init_data_speed (s0 : game_state) (r1 r2 : Nat)
    (hd : s0.game_settings.difficulty = EASY ∨ s0.game_settings.difficulty = MEDIUM
      ∨ s0.game_settings.difficulty = HARD) :
    configured_speed s0.game_settings (init_data s0 r1 r2).ball_speed := by
  have h : (init_data s0 r1 r2).ball_speed =
      (if s0.game_settings.difficulty = EASY then BALL_SPEED_EASY
        else if s0.game_settings.difficulty = MEDIUM then BALL_SPEED_MEDIUM
        else if s0.game_settings.difficulty = HARD then BALL_SPEED_HARD
        else 0) := by
    unfold init_data
    simp only
    rw [(reset_ball_frame _ r1 r2).2.2.2.2.2.2.2]
    split_ifs <;> rfl
  rw [h]
  simp only [configured_speed, EASY, MEDIUM, HARD, BALL_SPEED_EASY, BALL_SPEED_MEDIUM,
    BALL_SPEED_HARD] at hd ⊢
  rcases hd with h | h | h <;> simp [h]

theorem init_game_velocity_inv (s0 : game_state) (r1 r2 : Nat)
    (hd : s0.game_settings.difficulty = EASY ∨ s0.game_settings.difficulty = MEDIUM
      ∨ s0.game_settings.difficulty = HARD) :
    velocity_inv (init_game s0 r1 r2) := by
  obtain ⟨g1, g2, g3⟩ := init_game_frame s0 r1 r2
  obtain ⟨f1, f2⟩ := init_data_frame s0 r1 r2
  have h4 := init_data_speed s0 r1 r2 hd
  have hpos : 0 ≤ (init_data s0 r1 r2).ball_speed := by
    simp only [configured_speed, BALL_SPEED_EASY, BALL_SPEED_MEDIUM, BALL_SPEED_HARD] at h4
    omega
  refine ⟨by rw [g1, g2, f1]; exact h4, ?_⟩
  rw [g2, g3, f2]
  split_ifs
  · rw [abs_neg]; exact abs_of_nonneg hpos
  · exact abs_of_nonneg hpos

theorem reachable_velocity_inv (s : game_state) (h : reachable s) : velocity_inv s := by
  induction h with
  | init s0 r1 r2 hd => exact init_game_velocity_inv s0 r1 r2 hd
  | start s _ ih => exact ih
  | tick s i _ ih => exact update_velocity_inv s i ih
  | reset s r1 r2 _ ih =>
    apply velocity_inv_of s _ ih
    · simp only [reset_ball]
      split_ifs
      · exact Or.inr (Or.inr (Or.inr rfl))
      · exact Or.inr (Or.inr (Or.inl rfl))
    · rfl
    · rfl

/-- One iteration: the new `last` is the clock reading, an update is performed
exactly when the accumulated debt reaches the tick length, and the debt is
accounted for. -/
theorem update_loop_iteration_spec (cpu : Int) (st : loop_state) (now : Int) (i : tick_input) :
    (update_loop_iteration cpu st now i).1.last = now
    ∧ ((update_loop_iteration cpu st now i).2 = true ↔ st.delta + (now - st.last) ≥ cpu)
    ∧ ((update_loop_iteration cpu st now i).2 = true →
        (update_loop_iteration cpu st now i).1.delta = st.delta + (now - st.last) - cpu
        ∧ (update_loop_iteration cpu st now i).1.game = update st.game i)
    ∧ ((update_loop_iteration cpu st now i).2 = false →
        (update_loop_iteration cpu st now i).1.delta = st.delta + (now - st.last)
        ∧ (update_loop_iteration cpu st now i).1.game = st.game) := by
  by_cases hdue : st.delta + (now - st.last) ≥ cpu
  · simp [update_loop_iteration, if_pos hdue]
    exact hdue
  · simp [update_loop_iteration, if_neg hdue]
    omega

theorem update_loop_iterations_account (cpu : Int) (readings : List (Int × tick_input)) :
    ∀ st : loop_state, List.Chain (fun a b => a ≤ b) st.last (readings.map Prod.fst) →
      0 ≤ st.delta →
      ((update_loop_iterations cpu st readings).1.last - st.last) + st.delta
          = (update_loop_iterations cpu st readings).1.delta
            + cpu * ((update_loop_iterations cpu st readings).2 : Int)
      ∧ 0 ≤ (update_loop_iterations cpu st readings).1.delta := by
  induction readings with
  | nil =>
    intro st _ hd
    simp only [update_loop_iterations]
    constructor
    · push_cast; ring
    · exact hd
  | cons x rest ih =>
    intro st hc hd
    obtain ⟨now, i⟩ := x
    simp only [List.map_cons, List.chain_cons] at hc
    obtain ⟨hle, hrest⟩ := hc
    by_cases hrun : st.game.game_running ≠ 0
    · obtain ⟨s1, s2, s3, s4⟩ := update_loop_iteration_spec cpu st now i
      simp only [update_loop_iterations, if_pos hrun]
      cases hflag : (update_loop_iteration cpu st now i).2
      · obtain ⟨e1, _⟩ := s4 hflag
        obtain ⟨h1, h2⟩ := ih (update_loop_iteration cpu st now i).1
          (by rw [s1]; exact hrest) (by rw [e1]; omega)
        rw [s1, e1] at h1
        refine ⟨?_, h2⟩
        simp only [Bool.false_eq_true, if_false, Nat.add_zero]
        linarith
      · obtain ⟨e1, _⟩ := s3 hflag
        have hdue := s2.mp hflag
        obtain ⟨h1, h2⟩ := ih (update_loop_iteration cpu st now i).1
          (by rw [s1]; exact hrest) (by rw [e1]; omega)
        rw [s1, e1] at h1
        refine ⟨?_, h2⟩
        simp only [if_true]
        push_cast
        linarith
    · simp only [update_loop_iterations, if_neg hrun]
      constructor
      · push_cast; ring
      · exact hd

/-! ## Claims C11 to C20 -/

/-- C11 (ball reset): `init_data` configures speed 3, 5, 8 for Easy, Medium,
Hard; in every state with that ball speed and for every pair of draws
`reset_ball` puts the ball at (230, 172), sets vy to -speed if r1 is even and
+speed otherwise, vx likewise from r2, so |vx| = |vy| = speed; every one of the
four sign combinations comes from some pair of draws; paddles, life counters
and score are unchanged. -/
theorem C11_reset_ball (s0 : game_state) (speed : Int)
    (hd : (s0.game_settings.difficulty = EASY ∧ speed = 3)
      ∨ (s0.game_settings.difficulty = MEDIUM ∧ speed = 5)
      ∨ (s0.game_settings.difficulty = HARD ∧ speed = 8)) :
    (∀ a b : Nat, (init_data s0 a b).ball_speed = speed)
    ∧ (∀ (t : game_state) (r1 r2 : Nat), t.ball_speed = speed →
        (reset_ball t r1 r2).data.ball_pos_x = 230
        ∧ (reset_ball t r1 r2).data.ball_pos_y = 172
        ∧ (reset_ball t r1 r2).data.ball_vel_y = (if r1 % 2 = 0 then -speed else speed)
        ∧ (reset_ball t r1 r2).data.ball_vel_x = (if r2 % 2 = 0 then -speed else speed)
        ∧ |(reset_ball t r1 r2).data.ball_vel_x| = speed
        ∧ |(reset_ball t r1 r2).data.ball_vel_y| = speed
        ∧ (reset_ball t r1 r2).data.paddle_left_pos = t.data.paddle_left_pos
        ∧ (reset_ball t r1 r2).data.paddle_right_pos = t.data.paddle_right_pos
        ∧ (reset_ball t r1 r2).data.lives_left = t.data.lives_left
        ∧ (reset_ball t r1 r2).data.lives_right = t.data.lives_right
        ∧ (reset_ball t r1 r2).score = t.score)
    ∧ (∀ t : game_state, t.ball_speed = speed →
        ∀ sx sy : Int, (sx = 1 ∨ sx = -1) → (sy = 1 ∨ sy = -1) →
          ∃ r1 r2 : Nat, (reset_ball t r1 r2).data.ball_vel_x = sx * speed
            ∧ (reset_ball t r1 r2).data.ball_vel_y = sy * speed)
    ∧ (LCD_WIDTH - BALL_SIZE) / 2 = 230
    ∧ LIVES_FONT_SIZE + (LCD_HEIGHT - LIVES_FONT_SIZE - BALL_SIZE) / 2 = 172 := by
  have hpos : 0 ≤ speed := by rcases hd with ⟨_, h⟩ | ⟨_, h⟩ | ⟨_, h⟩ <;> omega
  refine ⟨?_, ?_, ?_, by decide, by decide⟩
  · intro a b
    simp only [init_data, reset_ball, EASY, MEDIUM, HARD, BALL_SPEED_EASY, BALL_SPEED_MEDIUM,
      BALL_SPEED_HARD] at hd ⊢
    rcases hd with ⟨h1, h2⟩ | ⟨h1, h2⟩ | ⟨h1, h2⟩ <;> simp [h1, h2] <;> split_ifs <;> rfl
  · intro t r1 r2 ht
    have hx : (reset_ball t r1 r2).data.ball_vel_x = (if r2 % 2 = 0 then -speed else speed) := by
      simp only [reset_ball, ht]
    have hy : (reset_ball t r1 r2).data.ball_vel_y = (if r1 % 2 = 0 then -speed else speed) := by
      simp only [reset_ball, ht]
    refine ⟨rfl, rfl, hy, hx, ?_, ?_, rfl, rfl, rfl, rfl, rfl⟩
    · rw [hx]; split_ifs
      · rw [abs_neg, abs_of_nonneg hpos]
      · exact abs_of_nonneg hpos
    · rw [hy]; split_ifs
      · rw [abs_neg, abs_of_nonneg hpos]
      · exact abs_of_nonneg hpos
  · intro t ht sx sy hsx hsy
    rcases hsx with rfl | rfl <;> rcases hsy with rfl | rfl
    · exact ⟨1, 1, by simp [reset_ball, ht], by simp [reset_ball, ht]⟩
    · exact ⟨0, 1, by simp [reset_ball, ht], by simp [reset_ball, ht]⟩
    · exact ⟨1, 0, by simp [reset_ball, ht], by simp [reset_ball, ht]⟩
    · exact ⟨0, 0, by simp [reset_ball, ht], by simp [reset_ball, ht]⟩

/-- Witness of C11: difficulty Medium, draws 4 and 7 give vy = -5 and vx = 5. -/
theorem C11_reset_ball_witness :
    ((example_state ⟨0, 0, 0, 0, 0, 0, 0, 0⟩ 0 0
        ⟨MEDIUM, DUMB_AI, PLAYER, BOT⟩).game_settings.difficulty = MEDIUM)
    ∧ (reset_ball (init_data (example_state ⟨0, 0, 0, 0, 0, 0, 0, 0⟩ 0 0
        ⟨MEDIUM, DUMB_AI, PLAYER, BOT⟩) 0 0) 4 7).data.ball_vel_y
        = (if 4 % 2 = 0 then -5 else 5)
    ∧ (reset_ball (init_data (example_state ⟨0, 0, 0, 0, 0, 0, 0, 0⟩ 0 0
        ⟨MEDIUM, DUMB_AI, PLAYER, BOT⟩) 0 0) 4 7).data.ball_vel_x
        = (if 7 % 2 = 0 then -5 else 5) :=
  ⟨by decide,
    ((C11_reset_ball (example_state ⟨0, 0, 0, 0, 0, 0, 0, 0⟩ 0 0
        ⟨MEDIUM, DUMB_AI, PLAYER, BOT⟩) 5 (Or.inr (Or.inl ⟨by decide, by decide⟩))).2.1
      _ 4 7 (by decide)).2.2.1,
    ((C11_reset_ball (example_state ⟨0, 0, 0, 0, 0, 0, 0, 0⟩ 0 0
        ⟨MEDIUM, DUMB_AI, PLAYER, BOT⟩) 5 (Or.inr (Or.inl ⟨by decide, by decide⟩))).2.1
      _ 4 7 (by decide)).2.2.2.1⟩

/-- C12 (reactive AI): `basic_ai_move` returns 1 iff ball_y + BALL_SIZE/2 - 1 is
greater than paddle_y + PADDLE_HEIGHT/2 - 1, returns -1 iff it is smaller and 0
iff they are equal (ball_y = paddle_y + 30), for the controlled side's paddle;
two game states with the same ball y and the same controlled paddle give the
same result. -/
theorem C12_basic_ai (is_right : Bool) (d : game_data) :
    (basic_ai_move is_right d = 1 ↔
      d.ball_pos_y + BALL_SIZE / 2 - 1
        > (if is_right then d.paddle_right_pos else d.paddle_left_pos) + PADDLE_HEIGHT / 2 - 1)
    ∧ (basic_ai_move is_right d = -1 ↔
      d.ball_pos_y + BALL_SIZE / 2 - 1
        < (if is_right then d.paddle_right_pos else d.paddle_left_pos) + PADDLE_HEIGHT / 2 - 1)
    ∧ (basic_ai_move is_right d = 0 ↔
      d.ball_pos_y + BALL_SIZE / 2 - 1
        = (if is_right then d.paddle_right_pos else d.paddle_left_pos) + PADDLE_HEIGHT / 2 - 1)
    ∧ (basic_ai_move is_right d = 0 ↔
      d.ball_pos_y = (if is_right then d.paddle_right_pos else d.paddle_left_pos) + 30)
    ∧ (∀ e : game_data, e.ball_pos_y = d.ball_pos_y →
        (if is_right then e.paddle_right_pos else e.paddle_left_pos)
          = (if is_right then d.paddle_right_pos else d.paddle_left_pos) →
        basic_ai_move is_right e = basic_ai_move is_right d) := by
  have h40 : Int.tdiv 80 2 = 40 := by decide
  have h10 : Int.tdiv 20 2 = 10 := by decide
  refine ⟨?_, ?_, ?_, ?_, ?_⟩
  · cases is_right <;> simp only [basic_ai_move, PADDLE_HEIGHT, BALL_SIZE, h40, h10] <;>
      split_ifs <;> constructor <;> intro h <;> simp at * <;> omega
  · cases is_right <;> simp only [basic_ai_move, PADDLE_HEIGHT, BALL_SIZE, h40, h10] <;>
      split_ifs <;> constructor <;> intro h <;> simp at * <;> omega
  · cases is_right <;> simp only [basic_ai_move, PADDLE_HEIGHT, BALL_SIZE, h40, h10] <;>
      split_ifs <;> constructor <;> intro h <;> simp at * <;> omega
  · cases is_right <;> simp only [basic_ai_move, PADDLE_HEIGHT, BALL_SIZE, h40, h10] <;>
      split_ifs <;> constructor <;> intro h <;> simp at * <;> omega
  · intro e h1 h2
    simp only [basic_ai_move, h1, h2]

/-- On exact integers the recursion `calculate_bounces` is total and returns a
value in [44, 300] for every integer; a reflection of an out-of-bounds value
strictly decreases its distance from [44, 300]; an input in [44, 300] is
returned unchanged; the result is reached after at most (distance + 255) / 256
runs of the loop body. -/
theorem calculate_bounces_total :
    (∀ y : Int, LIVES_FONT_SIZE ≤ calculate_bounces y
        ∧ calculate_bounces y ≤ LCD_HEIGHT - BALL_SIZE)
    ∧ (LIVES_FONT_SIZE = 44 ∧ LCD_HEIGHT - BALL_SIZE = 300)
    ∧ (∀ y : Int, ¬ (44 ≤ y ∧ y ≤ 300) →
        bounce_distance (bounce_step y) < bounce_distance y)
    ∧ (∀ y : Int, 44 ≤ y ∧ y ≤ 300 → calculate_bounces y = y)
    ∧ (∀ y : Int, calculate_bounces y = calculate_bounces (bounce_step y))
    ∧ (∀ y : Int, ∃ n : Nat, (n : Int) ≤ (bounce_distance y + 255) / 256
        ∧ calculate_bounces y = bounce_step^[n] y) := by
  have hd : ∀ y : Int, 0 ≤ bounce_distance y := by
    intro y
    simp only [bounce_distance, LIVES_FONT_SIZE, LCD_HEIGHT, BALL_SIZE]
    split_ifs <;> omega
  have hn : ∀ y : Int,
      bounce_distance y ≤ 256 * (((bounce_distance y + 255) / 256).toNat : Int) := by
    intro y
    have := hd y
    rw [Int.toNat_of_nonneg (by omega)]
    omega
  refine ⟨?_, by decide, fun y h => (bounce_step_distance y h).1,
    calculate_bounces_in_bounds, calculate_bounces_step, ?_⟩
  · intro y
    obtain ⟨_, h2, h3⟩ := calculate_bounces_iterate _ y (hn y)
    simp only [LIVES_FONT_SIZE, LCD_HEIGHT, BALL_SIZE]
    omega
  · intro y
    refine ⟨((bounce_distance y + 255) / 256).toNat, ?_,
      (calculate_bounces_iterate _ y (hn y)).1⟩
    have := hd y
    rw [Int.toNat_of_nonneg (by omega)]

/-- Outside [44, 300] and above -2147483560 the 32-bit reflection is the exact
one and its result is again above -2147483560. -/
theorem bounce_step_int32_eq (y : Int) (hy : -2147483560 < y ∧ y ≤ 2147483647) :
    bounce_step_int32 y = bounce_step y
    ∧ -2147483560 < bounce_step y ∧ bounce_step y ≤ 2147483647 := by
  simp only [bounce_step_int32, bounce_step, int32_wrap, LIVES_FONT_SIZE, LCD_HEIGHT, BALL_SIZE]
  split_ifs <;> omega

/-- With enough fuel the 32-bit loop returns what the exact recursion
returns. -/
theorem calculate_bounces_int32_eq (fuel : Nat) :
    ∀ y : Int, -2147483560 < y ∧ y ≤ 2147483647 →
      bounce_distance y + 256 ≤ 256 * fuel →
      calculate_bounces_int32 fuel y = some (calculate_bounces y) := by
  induction fuel with
  | zero =>
    intro y _ hd
    have : 0 ≤ bounce_distance y := by
      simp only [bounce_distance, LIVES_FONT_SIZE, LCD_HEIGHT, BALL_SIZE]
      split_ifs <;> omega
    omega
  | succ n ih =>
    intro y hy hd
    by_cases hb : 44 ≤ y ∧ y ≤ 300
    · rw [calculate_bounces_in_bounds y hb]
      simp only [calculate_bounces_int32, LIVES_FONT_SIZE, LCD_HEIGHT, BALL_SIZE]
      rw [if_neg (by omega), if_neg (by omega)]
    · obtain ⟨hstep, hlo, hhi⟩ := bounce_step_int32_eq y hy
      obtain ⟨_, hdist⟩ := bounce_step_distance y hb
      have hpos : 0 < bounce_distance y := by
        simp only [bounce_distance, LIVES_FONT_SIZE, LCD_HEIGHT, BALL_SIZE]
        split_ifs <;> omega
      have hrec := ih (bounce_step y) ⟨hlo, hhi⟩ (by push_cast at hd; omega)
      have hunfold : calculate_bounces_int32 (n + 1) y
          = calculate_bounces_int32 n (bounce_step_int32 y) := by
        simp only [calculate_bounces_int32, bounce_step_int32, LIVES_FONT_SIZE, LCD_HEIGHT,
          BALL_SIZE]
        split_ifs <;> first | rfl | omega
      rw [hunfold, hstep, hrec, ← calculate_bounces_step y]

/-- From -2147483560 the 32-bit loop alternates between two values outside
[44, 300] and never returns. -/
theorem calculate_bounces_int32_cycle (fuel : Nat) :
    calculate_bounces_int32 fuel (-2147483560) = none
    ∧ calculate_bounces_int32 fuel (-2147483648) = none := by
  induction fuel with
  | zero => exact ⟨rfl, rfl⟩
  | succ n ih =>
    obtain ⟨h1, h2⟩ := ih
    have e1 : calculate_bounces_int32 (n + 1) (-2147483560)
        = calculate_bounces_int32 n (-2147483648) := by
      simp only [calculate_bounces_int32, LIVES_FONT_SIZE]
      rw [if_pos (by decide)]
      rfl
    have e2 : calculate_bounces_int32 (n + 1) (-2147483648)
        = calculate_bounces_int32 n (-2147483560) := by
      simp only [calculate_bounces_int32, LIVES_FONT_SIZE]
      rw [if_pos (by decide)]
      rfl
    exact ⟨e1.trans h2, e2.trans h1⟩

/-- C13, as stated, fails: the loop runs on 32-bit `int`s; for the input
-2147483560 the reflection 2 * 44 - y = 2147483648 wraps to -2147483648, whose
reflection wraps back to -2147483560, so the loop alternates between two values
outside [44, 300] and never returns. -/
theorem C13_counterexample :
    bounce_step_int32 (-2147483560) = -2147483648
    ∧ bounce_step_int32 (-2147483648) = -2147483560
    ∧ ¬ (44 ≤ (-2147483560 : Int) ∧ (-2147483560 : Int) ≤ 300)
    ∧ ¬ (44 ≤ (-2147483648 : Int) ∧ (-2147483648 : Int) ≤ 300)
    ∧ calculate_bounces_int32 1000 (-2147483560) = none
    ∧ (∀ fuel : Nat, calculate_bounces_int32 fuel (-2147483560) = none) :=
  ⟨by decide, by decide, by decide, by decide, by decide,
    fun fuel => (calculate_bounces_int32_cycle fuel).1⟩

/-- C13 as amended (projection loop): for every `int` input above -2147483560
(where 2 * 44 - y does not overflow) `calculate_bounces` returns, after at most
(distance + 255) / 256 reflections, a value in [44, 300]; a reflection of an
out-of-bounds value is exact and strictly decreases its distance from
[44, 300]; an input in [44, 300] is returned unchanged by the first
iteration. -/
theorem C13_calculate_bounces (y : Int) (hy : -2147483560 < y ∧ y ≤ 2147483647) :
    (∀ fuel : Nat, bounce_distance y + 256 ≤ 256 * fuel →
      calculate_bounces_int32 fuel y = some (calculate_bounces y))
    ∧ calculate_bounces_int32 (((bounce_distance y + 255) / 256).toNat + 1) y
        = some (calculate_bounces y)
    ∧ (LIVES_FONT_SIZE ≤ calculate_bounces y ∧ calculate_bounces y ≤ LCD_HEIGHT - BALL_SIZE)
    ∧ (LIVES_FONT_SIZE = 44 ∧ LCD_HEIGHT - BALL_SIZE = 300)
    ∧ (¬ (44 ≤ y ∧ y ≤ 300) →
        bounce_step_int32 y = bounce_step y
        ∧ bounce_distance (bounce_step_int32 y) < bounce_distance y
        ∧ (-2147483560 < bounce_step_int32 y ∧ bounce_step_int32 y ≤ 2147483647))
    ∧ (44 ≤ y ∧ y ≤ 300 → calculate_bounces_int32 1 y = some y)
    ∧ calculate_bounces y = bounce_step^[((bounce_distance y + 255) / 256).toNat] y := by
  have hd : 0 ≤ bounce_distance y := by
    simp only [bounce_distance, LIVES_FONT_SIZE, LCD_HEIGHT, BALL_SIZE]
    split_ifs <;> omega
  have hn : bounce_distance y ≤ 256 * (((bounce_distance y + 255) / 256).toNat : Int) := by
    rw [Int.toNat_of_nonneg (by omega)]
    omega
  obtain ⟨hiter, hlo, hhi⟩ := calculate_bounces_iterate _ y hn
  obtain ⟨hstep, hslo, hshi⟩ := bounce_step_int32_eq y hy
  refine ⟨fun fuel hf => calculate_bounces_int32_eq fuel y hy hf,
    calculate_bounces_int32_eq _ y hy (by push_cast; omega),
    ⟨by simp only [LIVES_FONT_SIZE]; omega, by simp only [LCD_HEIGHT, BALL_SIZE]; omega⟩,
    by decide, ?_, ?_, hiter⟩
  · intro hb
    rw [hstep]
    exact ⟨rfl, (bounce_step_distance y hb).1, hslo, hshi⟩
  · intro hb
    have := calculate_bounces_int32_eq 1 y hy (by
      simp only [bounce_distance, LIVES_FONT_SIZE, LCD_HEIGHT, BALL_SIZE]
      split_ifs <;> omega)
    rw [this, calculate_bounces_in_bounds y hb]

/-- Witness of C13: the input -300 needs two reflections and comes back as
212. -/
theorem C13_calculate_bounces_witness :
    (-2147483560 < (-300 : Int) ∧ (-300 : Int) ≤ 2147483647)
    ∧ calculate_bounces_int32 3 (-300) = some 212
    ∧ calculate_bounces_int32 (((bounce_distance (-300) + 255) / 256).toNat + 1) (-300)
        = some (calculate_bounces (-300)) :=
  ⟨by decide, by decide, (C13_calculate_bounces (-300) (by decide)).2.1⟩

/-- The recomputation of `better_ai_move`: when the remembered direction differs
from the ball's direction and the ball heads toward the side of the call,
the target becomes final_y - PADDLE_HEIGHT + 1 + r with r = rand() mod 99 in
[0, 98]; final_y - PADDLE_HEIGHT + 1 satisfies the hit predicate for
hit_y = final_y and is the smallest value that does; the predicate also holds
for every offset in [0, 98] and so for the target. -/
theorem better_ai_move_aim (s : game_state) (is_right : Bool) (d : game_data) (r : Nat)
    (hchg : s.ai_ball_x_dir ≠ get_ball_x_dir d)
    (htow : ball_is_coming_towards_ai is_right (get_ball_x_dir d) = 1) :
    (better_ai_move s is_right d r).1.ai_target_paddle_y
        = calculate_final_ball_y d - PADDLE_HEIGHT + 1 + ((r % 99 : Nat) : Int)
    ∧ random_bounce r = ((r % 99 : Nat) : Int)
    ∧ PADDLE_HEIGHT + BALL_SIZE - 1 = 99
    ∧ (0 ≤ random_bounce r ∧ random_bounce r ≤ 98)
    ∧ (calculate_final_ball_y d - PADDLE_HEIGHT + 1
          > calculate_final_ball_y d - PADDLE_HEIGHT
        ∧ calculate_final_ball_y d - PADDLE_HEIGHT + 1
          < calculate_final_ball_y d + BALL_SIZE)
    ∧ (∀ p : Int, p > calculate_final_ball_y d - PADDLE_HEIGHT
          ∧ p < calculate_final_ball_y d + BALL_SIZE →
        calculate_final_ball_y d - PADDLE_HEIGHT + 1 ≤ p)
    ∧ (∀ k : Int, 0 ≤ k ∧ k ≤ 98 →
        calculate_final_ball_y d - PADDLE_HEIGHT + 1 + k
          > calculate_final_ball_y d - PADDLE_HEIGHT
        ∧ calculate_final_ball_y d - PADDLE_HEIGHT + 1 + k
          < calculate_final_ball_y d + BALL_SIZE)
    ∧ paddle_hit (better_ai_move s is_right d r).1.ai_target_paddle_y
        (calculate_final_ball_y d) := by
  obtain ⟨hr1, hr2, hr3⟩ := random_bounce_range r
  have ht : (better_ai_move s is_right d r).1.ai_target_paddle_y
      = calculate_final_ball_y d - PADDLE_HEIGHT + 1 + random_bounce r := by
    have htow2 : ball_is_coming_towards_ai is_right (get_ball_x_dir d) ≠ 0 := by
      rw [htow]; decide
    simp only [better_ai_move, if_pos hchg, if_pos htow2]
    split_ifs <;> rfl
  refine ⟨by rw [ht, hr1], hr1, by decide, ⟨hr2, hr3⟩, ?_, ?_, ?_, ?_⟩
  · simp only [PADDLE_HEIGHT, BALL_SIZE]; omega
  · intro p hp; simp only [PADDLE_HEIGHT, BALL_SIZE] at *; omega
  · intro k hk; simp only [PADDLE_HEIGHT, BALL_SIZE]; omega
  · rw [ht]; simp only [paddle_hit, PADDLE_HEIGHT, BALL_SIZE]; omega

/-- An instance of `better_ai_move_aim`: the ball starts moving left toward a
left-hand AI; with the draw 150 the offset is 150 mod 99 = 51. -/
theorem better_ai_move_aim_example :
    incoming_ai_state.ai_ball_x_dir ≠ get_ball_x_dir incoming_ai_state.data
    ∧ ball_is_coming_towards_ai false (get_ball_x_dir incoming_ai_state.data) = 1
    ∧ (better_ai_move incoming_ai_state false incoming_ai_state.data 150).1.ai_target_paddle_y
        = calculate_final_ball_y incoming_ai_state.data - PADDLE_HEIGHT + 1
          + ((150 % 99 : Nat) : Int) :=
  ⟨by decide, by decide,
    (better_ai_move_aim incoming_ai_state false incoming_ai_state.data 150
      (by decide) (by decide)).1⟩

/-- C15, as stated, fails: at a fresh program start (remembered direction 0,
cached target 0) a call with horizontal velocity 0 keeps the target 0 and
returns -1 for a paddle at 100, steering it away from 142. -/
theorem C15_counterexample :
    fresh_ai_state.ai_ball_x_dir = 0 ∧ fresh_ai_state.ai_target_paddle_y = 0
    ∧ fresh_ai_state.data.ball_vel_x = 0
    ∧ fresh_ai_state.data.paddle_left_pos = 100
    ∧ (better_ai_move fresh_ai_state false fresh_ai_state.data 0).1.ai_target_paddle_y = 0
    ∧ (better_ai_move fresh_ai_state false fresh_ai_state.data 0).2 = -1 := by
  decide

/-- C15 (amended): in a call of `better_ai_move` with horizontal velocity 0 and
a remembered direction other than 0, the target becomes the vertical-centre
target 142 = LIVES_FONT_SIZE + (LCD_HEIGHT - LIVES_FONT_SIZE)/2 -
PADDLE_HEIGHT/2, the remembered direction becomes 0, and the returned direction
is -1, 1 or 0 as 142 is above, below or at the controlled paddle. -/
theorem C15_zero_velocity (s : game_state) (is_right : Bool) (d : game_data) (r : Nat)
    (hv : d.ball_vel_x = 0) (hmem : s.ai_ball_x_dir ≠ 0) :
    (better_ai_move s is_right d r).1.ai_target_paddle_y = 142
    ∧ (better_ai_move s is_right d r).1.ai_ball_x_dir = 0
    ∧ (better_ai_move s is_right d r).2 =
      (if 142 < (if is_right then d.paddle_right_pos else d.paddle_left_pos) then -1
       else if 142 > (if is_right then d.paddle_right_pos else d.paddle_left_pos) then 1
       else 0)
    ∧ LIVES_FONT_SIZE + (LCD_HEIGHT - LIVES_FONT_SIZE) / 2 - PADDLE_HEIGHT / 2 = 142 := by
  have hdir : get_ball_x_dir d = 0 := by simp [get_ball_x_dir, hv]
  have hnot : ball_is_coming_towards_ai is_right 0 = 0 := by
    cases is_right <;> decide
  have h142 : LIVES_FONT_SIZE + Int.tdiv (LCD_HEIGHT - LIVES_FONT_SIZE) 2
      - Int.tdiv PADDLE_HEIGHT 2 = 142 := by decide
  have ht : (better_ai_move s is_right d r).1.ai_target_paddle_y = 142
      ∧ (better_ai_move s is_right d r).1.ai_ball_x_dir = 0 := by
    simp only [better_ai_move, hdir, hnot, h142]
    split_ifs <;> simp_all
  have hd := better_ai_move_dir s is_right d r
  rw [ht.1] at hd
  exact ⟨ht.1, ht.2, hd, by decide⟩

/-- Witness of C15 (amended): the AI remembered a ball moving left; with
velocity 0 the target becomes 142. -/
theorem C15_zero_velocity_witness :
    moving_ai_state.data.ball_vel_x = 0 ∧ moving_ai_state.ai_ball_x_dir ≠ 0
    ∧ (better_ai_move moving_ai_state false moving_ai_state.data 0).1.ai_target_paddle_y
        = 142 :=
  ⟨by decide, by decide,
    (C15_zero_velocity moving_ai_state false moving_ai_state.data 0 (by decide)
      (by decide)).1⟩

/-- C16, as stated, fails: with speed 3 a registered hit one pixel above the
paddle centre (hit_y - paddle_y = 29) gives vertical velocity 0, not a negative
one, and one pixel below (31) gives 0, not a positive one. -/
theorem C16_counterexample :
    paddle_hit 100 129
    ∧ (129 : Int) - 100 < 30
    ∧ (on_hit_change_ball_vel_y
        (example_state ⟨16, 129, -3, 3, 100, 142, -1, -1⟩ 3 0 ⟨EASY, DUMB_AI, PLAYER, BOT⟩)
        100 129 4).data.ball_vel_y = 0
    ∧ (on_hit_change_ball_vel_y
        (example_state ⟨16, 131, -3, 3, 100, 142, -1, -1⟩ 3 0 ⟨EASY, DUMB_AI, PLAYER, BOT⟩)
        100 131 4).data.ball_vel_y = 0 := by
  decide

/-- C16 as amended (bounce-angle sign): for a registered paddle hit and ball
speed 3, 5 or 8, with offset = hit_y - paddle_y - 30 (ball centre minus paddle
centre): the new vertical velocity is strictly positive exactly when
offset * speed ≥ 13, so for every offset ≥ 5 at each speed; it is strictly
negative whenever offset * speed ≤ -38, so for every offset ≤ -13 at each
speed; for every hit above the centre it is ≤ 0, for every hit below the centre
it is ≥ 0, and for a centred hit it is 0. -/
theorem C16_bounce_sign (s : game_state) (paddle_y hit_y overshoot : Int)
    (hh : paddle_hit paddle_y hit_y)
    (hs : s.ball_speed = 3 ∨ s.ball_speed = 5 ∨ s.ball_speed = 8) :
    (hit_y - paddle_y - 30 ≥ 5 →
      (on_hit_change_ball_vel_y s paddle_y hit_y overshoot).data.ball_vel_y > 0)
    ∧ (hit_y - paddle_y - 30 ≤ -13 →
      (on_hit_change_ball_vel_y s paddle_y hit_y overshoot).data.ball_vel_y < 0)
    ∧ ((on_hit_change_ball_vel_y s paddle_y hit_y overshoot).data.ball_vel_y > 0
        ↔ (hit_y - paddle_y - 30) * s.ball_speed ≥ 13)
    ∧ ((hit_y - paddle_y - 30) * s.ball_speed ≤ -38 →
      (on_hit_change_ball_vel_y s paddle_y hit_y overshoot).data.ball_vel_y < 0)
    ∧ (hit_y - paddle_y < 30 →
      (on_hit_change_ball_vel_y s paddle_y hit_y overshoot).data.ball_vel_y ≤ 0)
    ∧ (hit_y - paddle_y > 30 →
      (on_hit_change_ball_vel_y s paddle_y hit_y overshoot).data.ball_vel_y ≥ 0)
    ∧ (hit_y - paddle_y = 30 →
      (on_hit_change_ball_vel_y s paddle_y hit_y overshoot).data.ball_vel_y = 0) := by
  rw [on_hit_vel_y, tdiv_pos_den _ _ (by decide)]
  simp only [paddle_hit, PADDLE_HEIGHT, BALL_SIZE] at hh
  rcases hs with h | h | h <;> rw [h] <;> refine ⟨?_, ?_, ?_, ?_, ?_, ?_, ?_⟩ <;>
    split_ifs <;> omega

/-- Witness of C16 (amended): speed 8, a hit 30 above the centre
(hit_y - paddle_y = 0) gives a strictly negative velocity, a hit 5 below the
centre a strictly positive one. -/
theorem C16_bounce_sign_witness :
    paddle_hit 100 100
    ∧ (on_hit_change_ball_vel_y left_crossing_state 100 100 4).data.ball_vel_y < 0
    ∧ paddle_hit 100 135
    ∧ (on_hit_change_ball_vel_y left_crossing_state 100 135 4).data.ball_vel_y > 0 :=
  ⟨by decide,
    (C16_bounce_sign left_crossing_state 100 100 4 (by decide)
      (Or.inr (Or.inr (by decide)))).2.1 (by decide),
    by decide,
    (C16_bounce_sign left_crossing_state 100 135 4 (by decide)
      (Or.inr (Or.inr (by decide)))).1 (by decide)⟩

/-- C17, as stated, fails: with velocity (5, 3) the ball crosses x = 440 with
contact y 150; the right paddle at 100 registers the hit (vx becomes -5, the
score grows), yet 150 is outside [paddle_y - 79, paddle_y + 19] = [21, 119]. -/
theorem C17_counterexample :
    scenario_state.data.ball_vel_x = 5 ∧ scenario_state.data.ball_vel_y = 3
    ∧ scenario_state.data.ball_pos_x > 440
    ∧ scenario_state.data.ball_pos_x - scenario_state.data.ball_vel_x ≤ 440
    ∧ right_hit_y scenario_state.data = 150
    ∧ (check_ball_paddle_collision scenario_state).data.ball_vel_x = -5
    ∧ (check_ball_paddle_collision scenario_state).score = scenario_state.score + 1
    ∧ ¬ (scenario_state.data.paddle_right_pos - 79 ≤ right_hit_y scenario_state.data
        ∧ right_hit_y scenario_state.data ≤ scenario_state.data.paddle_right_pos + 19) := by
  decide

/-- C17 (amended): with vx = 5 and vy = 3, on the tick where x crosses 440 a
hit is registered exactly when the contact y computed by
`check_ball_paddle_collision` lies within [paddle_y - 19, paddle_y + 79]
(otherwise the state is unchanged); for a ball y of at least 3 that contact y
is the previous y, ball_pos_y - 3. -/
theorem C17_scenario (s : game_state)
    (hvx : s.data.ball_vel_x = 5) (hvy : s.data.ball_vel_y = 3)
    (hx : s.data.ball_pos_x > 440) (hp : s.data.ball_pos_x - s.data.ball_vel_x ≤ 440) :
    ((check_ball_paddle_collision s).data.ball_vel_x = -s.data.ball_vel_x ↔
      (s.data.paddle_right_pos - 19 ≤ right_hit_y s.data
        ∧ right_hit_y s.data ≤ s.data.paddle_right_pos + 79))
    ∧ (¬ (s.data.paddle_right_pos - 19 ≤ right_hit_y s.data
        ∧ right_hit_y s.data ≤ s.data.paddle_right_pos + 79) →
      check_ball_paddle_collision s = s)
    ∧ (3 ≤ s.data.ball_pos_y → right_hit_y s.data = s.data.ball_pos_y - 3) := by
  have hno : ¬ paddle_hit s.data.paddle_right_pos (right_hit_y s.data) →
      check_ball_paddle_collision s = s := by
    intro hn
    apply paddle_collision_no_hit
    · intro h; omega
    · exact fun h => hn h.2
  have hiff : paddle_hit s.data.paddle_right_pos (right_hit_y s.data) ↔
      (s.data.paddle_right_pos - 19 ≤ right_hit_y s.data
        ∧ right_hit_y s.data ≤ s.data.paddle_right_pos + 79) := by
    simp only [paddle_hit, PADDLE_HEIGHT, BALL_SIZE]
    constructor <;> intro h <;> omega
  refine ⟨?_, ?_, ?_⟩
  · rw [← hiff]
    constructor
    · intro hv
      by_contra hn
      rw [hno hn] at hv
      omega
    · intro hh
      rw [(paddle_collision_right_hit s ⟨hx, hp⟩ hh).1]
  · intro h
    exact hno (fun hh => h (hiff.mp hh))
  · intro hy
    rw [right_hit_y_eq, hvx, hvy, show Int.tdiv 3 5 = 0 by decide,
      tdiv_pos_den _ _ (by decide)]
    split_ifs <;> omega

/-- Witness of C17 (amended): the scenario state registers its hit, contact y
150 being within [100 - 19, 100 + 79]. -/
theorem C17_scenario_witness :
    (scenario_state.data.ball_vel_x = 5 ∧ scenario_state.data.ball_vel_y = 3)
    ∧ (scenario_state.data.ball_pos_x > 440
      ∧ scenario_state.data.ball_pos_x - scenario_state.data.ball_vel_x ≤ 440)
    ∧ (check_ball_paddle_collision scenario_state).data.ball_vel_x
        = -scenario_state.data.ball_vel_x :=
  ⟨⟨by decide, by decide⟩, ⟨by decide, by decide⟩,
    (C17_scenario scenario_state (by decide) (by decide) (by decide) (by decide)).1.mpr
      (by decide)⟩

/-- C18 (velocity invariant): in every state reachable from `init_game` with a
recognised difficulty by the loop start, ticks and ball resets, the ball speed
is the configured 3, 5 or 8 and |ball_vel_x| equals it, so the two velocity
components are never both zero; the paddle check only keeps or negates vx. -/
theorem C18_velocity_invariant (s : game_state) (h : reachable s) :
    (s.ball_speed = 3 ∨ s.ball_speed = 5 ∨ s.ball_speed = 8)
    ∧ ((s.game_settings.difficulty = EASY ∧ s.ball_speed = 3)
      ∨ (s.game_settings.difficulty = MEDIUM ∧ s.ball_speed = 5)
      ∨ (s.game_settings.difficulty = HARD ∧ s.ball_speed = 8))
    ∧ |s.data.ball_vel_x| = s.ball_speed
    ∧ ¬ (s.data.ball_vel_x = 0 ∧ s.data.ball_vel_y = 0)
    ∧ (∀ t : game_state,
        (check_ball_paddle_collision t).data.ball_vel_x = t.data.ball_vel_x
        ∨ (check_ball_paddle_collision t).data.ball_vel_x = -t.data.ball_vel_x) := by
  obtain ⟨hc, ha⟩ := reachable_velocity_inv s h
  simp only [configured_speed, BALL_SPEED_EASY, BALL_SPEED_MEDIUM, BALL_SPEED_HARD] at hc
  refine ⟨by omega, hc, ha, ?_, fun t => (check_ball_paddle_vel_x t).1⟩
  rintro ⟨h0, _⟩
  rw [h0, abs_zero] at ha
  omega

/-- Witness of C18: difficulty Hard, one tick after the start of the loop. -/
theorem C18_velocity_invariant_witness :
    |(update (update_loop_start (init_game
        (example_state ⟨0, 0, 0, 0, 0, 0, 0, 0⟩ 0 0 ⟨HARD, DUMB_AI, PLAYER, BOT⟩) 0 1))
        ⟨['w'], 0, 0, 0, 0, 0⟩).data.ball_vel_x|
      = (update (update_loop_start (init_game
        (example_state ⟨0, 0, 0, 0, 0, 0, 0, 0⟩ 0 0 ⟨HARD, DUMB_AI, PLAYER, BOT⟩) 0 1))
        ⟨['w'], 0, 0, 0, 0, 0⟩).ball_speed
    ∧ (update (update_loop_start (init_game
        (example_state ⟨0, 0, 0, 0, 0, 0, 0, 0⟩ 0 0 ⟨HARD, DUMB_AI, PLAYER, BOT⟩) 0 1))
        ⟨['w'], 0, 0, 0, 0, 0⟩).ball_speed = 8 :=
  ⟨(C18_velocity_invariant _
      (reachable.tick _ _ (reachable.start _ (reachable.init _ 0 1 (by decide))))).2.2.1,
    by decide⟩

/-- C19 (fixed-timestep accounting): an iteration of the loop performs one
update exactly when debt + elapsed ≥ T = CLOCKS_PER_SEC / 50 (the debt then
drops by T, the state is that of one `update`), and none otherwise; for clock
readings that never decrease, starting from debt 0, the time elapsed up to the
last reading taken equals the final debt plus T times the number of updates
performed, and the final debt is ≥ 0. -/
theorem C19_fixed_timestep (clocks_per_sec : Int) (s : game_state) (first_clock : Int)
    (readings : List (Int × tick_input))
    (hmono : List.Chain (fun a b => a ≤ b) first_clock (readings.map Prod.fst)) :
    (∀ (st : loop_state) (now : Int) (i : tick_input),
      ((update_loop_iteration (Int.tdiv clocks_per_sec 50) st now i).2 = true
        ↔ st.delta + (now - st.last) ≥ Int.tdiv clocks_per_sec 50)
      ∧ ((update_loop_iteration (Int.tdiv clocks_per_sec 50) st now i).2 = true →
        (update_loop_iteration (Int.tdiv clocks_per_sec 50) st now i).1.delta
          = st.delta + (now - st.last) - Int.tdiv clocks_per_sec 50
        ∧ (update_loop_iteration (Int.tdiv clocks_per_sec 50) st now i).1.game
          = update st.game i)
      ∧ ((update_loop_iteration (Int.tdiv clocks_per_sec 50) st now i).2 = false →
        (update_loop_iteration (Int.tdiv clocks_per_sec 50) st now i).1.delta
          = st.delta + (now - st.last)
        ∧ (update_loop_iteration (Int.tdiv clocks_per_sec 50) st now i).1.game = st.game))
    ∧ (update_loop clocks_per_sec s first_clock readings).1.last - first_clock
        = (update_loop clocks_per_sec s first_clock readings).1.delta
          + Int.tdiv clocks_per_sec 50
            * ((update_loop clocks_per_sec s first_clock readings).2 : Int)
    ∧ 0 ≤ (update_loop clocks_per_sec s first_clock readings).1.delta := by
  refine ⟨?_, ?_⟩
  · intro st now i
    exact (update_loop_iteration_spec _ st now i).2
  · have h := update_loop_iterations_account (Int.tdiv clocks_per_sec UPDATES_PER_SECOND)
      readings { last := first_clock, delta := 0, game := update_loop_start s } hmono
      (le_refl 0)
    simp only [add_zero] at h
    exact h

/-- Witness of C19: with T = 20000 and the readings 15000, 25000, 30000 after
a first reading of 0, one update is performed and the debt left is 10000. -/
theorem C19_fixed_timestep_witness :
    List.Chain (fun a b => a ≤ b) (0 : Int) (sample_readings.map Prod.fst)
    ∧ (update_loop 1000000 recorded_start 0 sample_readings).1.last - 0
        = (update_loop 1000000 recorded_start 0 sample_readings).1.delta
          + Int.tdiv 1000000 50
            * ((update_loop 1000000 recorded_start 0 sample_readings).2 : Int)
    ∧ (update_loop 1000000 recorded_start 0 sample_readings).2 = 1
    ∧ (update_loop 1000000 recorded_start 0 sample_readings).1.delta = 10000 :=
  ⟨by simp [sample_readings],
    (C19_fixed_timestep 1000000 recorded_start 0 sample_readings
      (by simp [sample_readings])).2.1,
    by decide, by decide⟩

/-- C20 (encoder priority): for knob_diff ≠ 0 `update_player_paddle` sets the
side's key latch to 0 and moves the side's paddle by s * knob_diff *
PADDLE_SPEED_KNOB (s = 1 left, -1 right) clamped to [44, 240]; the result is
the same for every key and every previous latch value; the other side's latch
and paddle are unchanged. -/
theorem C20_encoder_priority (s : game_state) (is_right : Bool) (key knob_diff : Int)
    (hk : knob_diff ≠ 0) :
    update_player_paddle s is_right key knob_diff
        = move_paddle (set_last_key s is_right 0) is_right
            ((if is_right then -1 else 1) * knob_diff * PADDLE_SPEED_KNOB)
    ∧ last_key (update_player_paddle s is_right key knob_diff) is_right = 0
    ∧ (if is_right then (update_player_paddle s is_right key knob_diff).data.paddle_right_pos
        else (update_player_paddle s is_right key knob_diff).data.paddle_left_pos)
      = max 44 (min 240
          ((if is_right then s.data.paddle_right_pos else s.data.paddle_left_pos)
            + (if is_right then -1 else 1) * knob_diff * 3))
    ∧ last_key (update_player_paddle s is_right key knob_diff) (!is_right)
        = last_key s (!is_right)
    ∧ (if is_right then (update_player_paddle s is_right key knob_diff).data.paddle_left_pos
        else (update_player_paddle s is_right key knob_diff).data.paddle_right_pos)
      = (if is_right then s.data.paddle_left_pos else s.data.paddle_right_pos)
    ∧ (∀ key2 latch : Int,
        update_player_paddle (set_last_key s is_right latch) is_right key2 knob_diff
          = update_player_paddle s is_right key knob_diff) := by
  have h0 : ∀ (t : game_state) (k : Int), update_player_paddle t is_right k knob_diff
      = move_paddle (set_last_key t is_right 0) is_right
          ((if is_right then -1 else 1) * knob_diff * PADDLE_SPEED_KNOB) := by
    intro t k
    simp only [update_player_paddle, if_pos hk]
  refine ⟨h0 s key, ?_, ?_, ?_, ?_, ?_⟩
  · rw [h0]
    cases is_right <;> simp only [move_paddle, set_last_key, last_key] <;> rfl
  · rw [h0]
    cases is_right <;> simp [move_paddle, set_last_key] <;> split_ifs <;> omega
  · rw [h0]
    cases is_right <;> simp only [move_paddle, set_last_key, last_key] <;> rfl
  · rw [h0]
    cases is_right <;> simp [move_paddle, set_last_key]
  · intro key2 latch
    rw [h0, h0]
    cases is_right <;> rfl

/-- Witness of C20: the right knob moved by -4, so the right paddle goes from
142 to 154 and the latch is cleared. -/
theorem C20_encoder_priority_witness :
    (-4 : Int) ≠ 0
    ∧ last_key (update_player_paddle right_crossing_state true 1 (-4)) true = 0
    ∧ (update_player_paddle right_crossing_state true 1 (-4)).data.paddle_right_pos
        = 60 + 12 :=
  ⟨by decide,
    (C20_encoder_priority right_crossing_state true 1 (-4) (by decide)).2.1,
    by decide⟩

/-! ## Lemmas for the third group of claims -/

/-- The flags of `get_input` record which control keys occur among the
characters read, not their order. -/
theorem get_input_flags (keys : List Char) :
    (get_input keys).left_up = (if LEFT_PLAYER_UP ∈ keys then 1 else 0)
    ∧ (get_input keys).left_down = (if LEFT_PLAYER_DOWN ∈ keys then 1 else 0)
    ∧ (get_input keys).right_up = (if RIGHT_PLAYER_UP ∈ keys then 1 else 0)
    ∧ (get_input keys).right_down = (if RIGHT_PLAYER_DOWN ∈ keys then 1 else 0) := by
  have gen : ∀ (ks : List Char) (acc : input),
      (ks.foldl (fun i c => check_char c i) acc).left_up
        = (if LEFT_PLAYER_UP ∈ ks then 1 else acc.left_up)
      ∧ (ks.foldl (fun i c => check_char c i) acc).left_down
        = (if LEFT_PLAYER_DOWN ∈ ks then 1 else acc.left_down)
      ∧ (ks.foldl (fun i c => check_char c i) acc).right_up
        = (if RIGHT_PLAYER_UP ∈ ks then 1 else acc.right_up)
      ∧ (ks.foldl (fun i c => check_char c i) acc).right_down
        = (if RIGHT_PLAYER_DOWN ∈ ks then 1 else acc.right_down) := by
    intro ks
    induction ks with
    | nil => intro acc; simp
    | cons c rest ih =>
      intro acc
      simp only [List.foldl_cons, List.mem_cons]
      obtain ⟨i1, i2, i3, i4⟩ := ih (check_char c acc)
      rw [i1, i2, i3, i4]
      simp only [check_char, LEFT_PLAYER_UP, LEFT_PLAYER_DOWN, RIGHT_PLAYER_UP,
        RIGHT_PLAYER_DOWN]
      by_cases h1 : c = 'w'
      · subst h1; simp
      · by_cases h2 : c = 's'
        · subst h2; simp
        · by_cases h3 : c = 'o'
          · subst h3; simp
          · by_cases h4 : c = 'l'
            · subst h4; simp
            · have e1 : ¬ 'w' = c := fun h => h1 h.symm
              have e2 : ¬ 's' = c := fun h => h2 h.symm
              have e3 : ¬ 'o' = c := fun h => h3 h.symm
              have e4 : ¬ 'l' = c := fun h => h4 h.symm
              simp [h1, h2, h3, h4, e1, e2, e3, e4]
  exact gen keys init_input_data

/-- The frame `other_side_same` composes. -/
theorem other_side_trans {b : Bool} {s t u : game_state} (h1 : other_side_same b s t)
    (h2 : other_side_same b t u) : other_side_same b s u := by
  obtain ⟨latch1, paddle1, settings1, knobs1⟩ := h1
  obtain ⟨latch2, paddle2, settings2, knobs2⟩ := h2
  refine ⟨latch2.trans latch1, ?_, settings2.trans settings1, knobs2.trans knobs1⟩
  cases b
  · exact Eq.trans paddle2 paddle1
  · exact Eq.trans paddle2 paddle1

/-- Moving one paddle leaves the other side alone. -/
theorem move_paddle_other (s : game_state) (b : Bool) (d : Int) :
    other_side_same b s (move_paddle s b d) := by
  cases b <;> simp [other_side_same, move_paddle, last_key]

/-- Writing one latch leaves the other side alone. -/
theorem set_last_key_other (s : game_state) (b : Bool) (v : Int) :
    other_side_same b s (set_last_key s b v) := by
  cases b <;> simp [other_side_same, set_last_key, last_key]

/-- Handling a human side leaves the other side alone. -/
theorem update_player_paddle_other (s : game_state) (b : Bool) (k d : Int) :
    other_side_same b s (update_player_paddle s b k d) := by
  have hrefl : ∀ t : game_state, other_side_same b t t := by
    intro t; cases b <;> simp [other_side_same]
  unfold update_player_paddle
  simp only
  split_ifs
  all_goals
    first
    | exact hrefl _
    | exact set_last_key_other _ _ _
    | exact move_paddle_other _ _ _
    | exact other_side_trans (set_last_key_other _ _ _) (move_paddle_other _ _ _)

/-- Handling an AI side leaves the other side alone. -/
theorem update_ai_paddle_other (s : game_state) (b : Bool) (r : Nat) :
    other_side_same b s (update_ai_paddle s b r) := by
  have hrefl : ∀ t : game_state, other_side_same b t t := by
    intro t; cases b <;> simp [other_side_same]
  have hmove : ∀ (t : game_state) (dir : Int), other_side_same b t (move_ai_paddle t b dir) := by
    intro t dir
    unfold move_ai_paddle
    split_ifs
    · exact move_paddle_other _ _ _
    · exact move_paddle_other _ _ _
    · exact hrefl _
  have hai : other_side_same b s (better_ai_move s b s.data r).1 := by
    unfold better_ai_move
    simp only
    split_ifs <;> cases b <;> simp [other_side_same, last_key]
  unfold update_ai_paddle
  split_ifs
  · exact hmove _ _
  · exact other_side_trans hai (hmove _ _)
  · exact hrefl _

/-- The paddle that `move_paddle` moves ends at the clamped sum; the latches
are not written. -/
theorem move_paddle_pos (s : game_state) (b : Bool) (d : Int) :
    (if b then (move_paddle s b d).data.paddle_right_pos
      else (move_paddle s b d).data.paddle_left_pos)
      = max 44 (min 240 ((if b then s.data.paddle_right_pos else s.data.paddle_left_pos) + d))
    ∧ last_key (move_paddle s b d) b = last_key s b := by
  cases b <;> simp only [move_paddle, last_key] <;> split_ifs <;> simp_all <;> omega

/-- Setting a latch stores the value and leaves the paddles alone. -/
theorem set_last_key_latch (s : game_state) (b : Bool) (v : Int) :
    last_key (set_last_key s b v) b = v
    ∧ (if b then (set_last_key s b v).data.paddle_right_pos
        else (set_last_key s b v).data.paddle_left_pos)
      = (if b then s.data.paddle_right_pos else s.data.paddle_left_pos) := by
  cases b <;> simp [set_last_key, last_key]

/-- With no knob movement `update_player_paddle` latches a non-zero key and
moves the paddle three pixels in the latched direction. -/
theorem update_player_paddle_keys (s : game_state) (b : Bool) (key : Int) :
    last_key (update_player_paddle s b key 0) b = (if key ≠ 0 then key else last_key s b)
    ∧ (if b then (update_player_paddle s b key 0).data.paddle_right_pos
        else (update_player_paddle s b key 0).data.paddle_left_pos)
      = (if (if key ≠ 0 then key else last_key s b) = -1 then
          max 44 (min 240 ((if b then s.data.paddle_right_pos else s.data.paddle_left_pos) + -3))
         else if (if key ≠ 0 then key else last_key s b) = 1 then
          max 44 (min 240 ((if b then s.data.paddle_right_pos else s.data.paddle_left_pos) + 3))
         else (if b then s.data.paddle_right_pos else s.data.paddle_left_pos)) := by
  have hstep : ∀ t : game_state,
      last_key (if last_key t b = -1 then move_paddle t b (-PADDLE_SPEED_KEY)
          else if last_key t b = 1 then move_paddle t b PADDLE_SPEED_KEY else t) b
        = last_key t b
      ∧ (if b then (if last_key t b = -1 then move_paddle t b (-PADDLE_SPEED_KEY)
            else if last_key t b = 1 then move_paddle t b PADDLE_SPEED_KEY
            else t).data.paddle_right_pos
          else (if last_key t b = -1 then move_paddle t b (-PADDLE_SPEED_KEY)
            else if last_key t b = 1 then move_paddle t b PADDLE_SPEED_KEY
            else t).data.paddle_left_pos)
        = (if last_key t b = -1 then
            max 44 (min 240 ((if b then t.data.paddle_right_pos else t.data.paddle_left_pos) + -3))
           else if last_key t b = 1 then
            max 44 (min 240 ((if b then t.data.paddle_right_pos else t.data.paddle_left_pos) + 3))
           else (if b then t.data.paddle_right_pos else t.data.paddle_left_pos)) := by
    intro t
    by_cases h1 : last_key t b = -1
    · simp only [if_pos h1]
      exact ⟨(move_paddle_pos t b _).2, (move_paddle_pos t b _).1⟩
    · by_cases h2 : last_key t b = 1
      · simp only [if_neg h1, if_pos h2]
        exact ⟨(move_paddle_pos t b _).2, (move_paddle_pos t b _).1⟩
      · simp only [if_neg h1, if_neg h2]
        exact ⟨trivial, trivial⟩
  by_cases hk : key ≠ 0
  · have h := hstep (set_last_key s b key)
    rw [(set_last_key_latch s b key).1, (set_last_key_latch s b key).2] at h
    simp only [update_player_paddle, ne_eq, not_true_eq_false, if_false, if_pos hk]
    simp only [(set_last_key_latch s b key).1]
    exact h
  · have h := hstep s
    simp only [update_player_paddle, ne_eq, not_true_eq_false, if_false, if_neg hk]
    exact h

/-- The key direction that `update_paddles` derives from two flags. -/
theorem paddle_dir_of_flags (up down : Prop) [Decidable up] [Decidable down] :
    (if (if down then (1 : Int) else 0) ≠ 0 ∧ (if up then (1 : Int) else 0) = 0 then (1 : Int)
      else if (if up then (1 : Int) else 0) ≠ 0 ∧ (if down then (1 : Int) else 0) = 0 then -1
      else 0)
    = (if up ∧ ¬ down then -1 else if down ∧ ¬ up then 1 else 0) := by
  by_cases hu : up <;> by_cases hd : down <;> simp [hu, hd]

/-- A non-zero key direction replaces the latch, a zero one keeps it. -/
theorem latch_of_dir (up down : Prop) [Decidable up] [Decidable down] (old : Int) :
    (if (if up then (-1 : Int) else if down then 1 else 0) ≠ 0 then
        (if up then (-1 : Int) else if down then 1 else 0)
      else old)
    = (if up then -1 else if down then 1 else old) := by
  by_cases hu : up <;> by_cases hd : down <;> simp [hu, hd]

/-- The y coordinate after the wall check, as a function of the one before. -/
theorem wall_step_y (t : game_state) :
    (check_ball_top_bot_edge_collision t).data.ball_pos_y
      = (if t.data.ball_pos_y < 44 then
          (if 88 - t.data.ball_pos_y > 300 then 600 - (88 - t.data.ball_pos_y)
            else 88 - t.data.ball_pos_y)
         else if t.data.ball_pos_y > 300 then 600 - t.data.ball_pos_y
         else t.data.ball_pos_y) := by
  simp only [check_ball_top_bot_edge_collision, LIVES_FONT_SIZE, LCD_HEIGHT, BALL_SIZE]
  split_ifs <;> simp_all

/-- A registered hit assigns a vertical velocity of magnitude at most twice
the ball speed. -/
theorem on_hit_vel_y_bound (s : game_state) (p h o : Int) (hh : paddle_hit p h)
    (hs : s.ball_speed = 3 ∨ s.ball_speed = 5 ∨ s.ball_speed = 8) :
    -(2 * s.ball_speed) ≤ (on_hit_change_ball_vel_y s p h o).data.ball_vel_y
    ∧ (on_hit_change_ball_vel_y s p h o).data.ball_vel_y ≤ 2 * s.ball_speed := by
  rw [on_hit_vel_y, tdiv_pos_den _ _ (by decide)]
  simp only [paddle_hit, PADDLE_HEIGHT, BALL_SIZE] at hh
  rcases hs with e | e | e <;> rw [e] <;> split_ifs <;> omega

/-- The paddle check keeps the vertical velocity or assigns the one of a
registered hit. -/
theorem check_ball_paddle_vel_y (s : game_state) :
    (check_ball_paddle_collision s).data.ball_vel_y = s.data.ball_vel_y
    ∨ (∃ p h o : Int, paddle_hit p h
        ∧ (check_ball_paddle_collision s).data.ball_vel_y
          = (on_hit_change_ball_vel_y s p h o).data.ball_vel_y) := by
  by_cases hl : (s.data.ball_pos_x < 20 ∧ s.data.ball_pos_x - s.data.ball_vel_x ≥ 20)
      ∧ paddle_hit s.data.paddle_left_pos (left_hit_y s.data)
  · right
    exact ⟨_, _, _, hl.2, by rw [(paddle_collision_left_hit s hl.1 hl.2).1]⟩
  · by_cases hr : (s.data.ball_pos_x > 440 ∧ s.data.ball_pos_x - s.data.ball_vel_x ≤ 440)
        ∧ paddle_hit s.data.paddle_right_pos (right_hit_y s.data)
    · right
      exact ⟨_, _, _, hr.2, by rw [(paddle_collision_right_hit s hr.1 hr.2).1]⟩
    · left
      rw [paddle_collision_no_hit s hl hr]

/-- One `update_ball` keeps the vertical-velocity bound. -/
theorem update_ball_vel_y (s : game_state)
    (hs : s.ball_speed = 3 ∨ s.ball_speed = 5 ∨ s.ball_speed = 8)
    (hv : -(2 * s.ball_speed) ≤ s.data.ball_vel_y ∧ s.data.ball_vel_y ≤ 2 * s.ball_speed) :
    -(2 * s.ball_speed) ≤ (update_ball s).1.data.ball_vel_y
    ∧ (update_ball s).1.data.ball_vel_y ≤ 2 * s.ball_speed := by
  have hwall : ∀ t : game_state,
      ((check_ball_top_bot_edge_collision t).data.ball_vel_y = t.data.ball_vel_y
        ∨ (check_ball_top_bot_edge_collision t).data.ball_vel_y = -t.data.ball_vel_y)
      ∧ (check_ball_top_bot_edge_collision t).ball_speed = t.ball_speed := by
    intro t
    unfold check_ball_top_bot_edge_collision
    simp only
    split_ifs <;> simp
  have hedge : ∀ t : game_state,
      (check_ball_left_right_edge_collision t).1.data.ball_vel_y = t.data.ball_vel_y := by
    intro t
    unfold check_ball_left_right_edge_collision
    split_ifs <;> rfl
  unfold update_ball
  simp only
  rw [hedge]
  obtain ⟨wall_vel, wall_speed⟩ := hwall
    { s with data := { s.data with
        ball_pos_x := s.data.ball_pos_x + s.data.ball_vel_x,
        ball_pos_y := s.data.ball_pos_y + s.data.ball_vel_y } }
  simp only at wall_vel wall_speed
  rcases check_ball_paddle_vel_y (check_ball_top_bot_edge_collision
    { s with data := { s.data with
        ball_pos_x := s.data.ball_pos_x + s.data.ball_vel_x,
        ball_pos_y := s.data.ball_pos_y + s.data.ball_vel_y } }) with keep | ⟨p, h, o, hit, eq⟩
  · rw [keep]
    rcases wall_vel with e | e <;> rw [e] <;> omega
  · rw [eq]
    have := on_hit_vel_y_bound _ p h o hit (by rw [wall_speed]; exact hs)
    rw [wall_speed] at this
    exact this

/-- The round-end handler keeps the vertical velocity or resets it to plus or
minus the ball speed. -/
theorem edge_collision_vel_y (s : game_state) (side : Int) (r1 r2 : Nat) :
    (on_ball_left_right_edge_collision s side r1 r2).data.ball_vel_y = s.data.ball_vel_y
    ∨ (on_ball_left_right_edge_collision s side r1 r2).data.ball_vel_y = s.ball_speed
    ∨ (on_ball_left_right_edge_collision s side r1 r2).data.ball_vel_y = -s.ball_speed := by
  have hreset : ∀ t : game_state,
      ((reset_ball t r1 r2).data.ball_vel_y = t.ball_speed
        ∨ (reset_ball t r1 r2).data.ball_vel_y = -t.ball_speed) := by
    intro t
    simp only [reset_ball]
    split_ifs
    · exact Or.inr rfl
    · exact Or.inl rfl
  unfold on_ball_left_right_edge_collision
  simp only
  generalize (if side = -1 then false else true) = b
  obtain ⟨blink_data, _, _, _, blink_speed⟩ := ball_loss_blink_frame s b
  have lives_frame : (update_lives (ball_loss_blink s b) side).1.data.ball_vel_y
        = s.data.ball_vel_y
      ∧ (update_lives (ball_loss_blink s b) side).1.ball_speed = s.ball_speed := by
    rw [← blink_data, ← blink_speed]
    unfold update_lives
    simp only
    split_ifs <;> exact ⟨rfl, rfl⟩
  split_ifs
  · exact Or.inl lives_frame.1
  · right
    have := hreset (update_lives (ball_loss_blink s b) side).1
    rw [lives_frame.2] at this
    exact this
  · exact Or.inl (by rw [← blink_data])
  · right
    have := hreset { ball_loss_blink s b with
      score := (ball_loss_blink s b).score + BONUS_ON_AI_BALL_LOSS }
    rw [show ({ ball_loss_blink s b with
      score := (ball_loss_blink s b).score + BONUS_ON_AI_BALL_LOSS } : game_state).ball_speed
        = s.ball_speed from blink_speed] at this
    exact this
  · exact Or.inl rfl

/-- A configured ball speed is 3, 5 or 8. -/
theorem configured_speed_values (st : settings_t) (v : Int) (h : configured_speed st v) :
    v = 3 ∨ v = 5 ∨ v = 8 := by
  simp only [configured_speed, BALL_SPEED_EASY, BALL_SPEED_MEDIUM, BALL_SPEED_HARD] at h
  omega

/-- One tick keeps the vertical-velocity bound. -/
theorem update_vel_y_inv (s : game_state) (i : tick_input) (hs : vel_y_inv s) :
    vel_y_inv (update s i) := by
  obtain ⟨hconf, hlo, hhi⟩ := hs
  have hval := configured_speed_values _ _ hconf
  obtain ⟨_, _, _, pad_vy, pad_speed, pad_settings⟩ := update_paddles_ball s i
  obtain ⟨_, ball_speed_eq, ball_settings⟩ := update_ball_vel_x (update_paddles s i)
  have ball_vy := update_ball_vel_y (update_paddles s i) (by rw [pad_speed]; exact hval)
    (by rw [pad_speed, pad_vy]; exact ⟨hlo, hhi⟩)
  rw [pad_speed] at ball_vy
  obtain ⟨_, edge_speed, edge_settings⟩ := edge_collision_vel_x
    (update_ball (update_paddles s i)).1 (update_ball (update_paddles s i)).2
    i.rand_reset_y i.rand_reset_x
  have edge_vy := edge_collision_vel_y
    (update_ball (update_paddles s i)).1 (update_ball (update_paddles s i)).2
    i.rand_reset_y i.rand_reset_x
  rw [ball_speed_eq, pad_speed] at edge_vy edge_speed
  obtain ⟨_, _, _, dio_vy, dio_speed, dio_settings⟩ := update_diodes_ball
    (on_ball_left_right_edge_collision (update_ball (update_paddles s i)).1
      (update_ball (update_paddles s i)).2 i.rand_reset_y i.rand_reset_x)
  have hspeed : (update s i).ball_speed = s.ball_speed := by
    simp only [update]; rw [dio_speed, edge_speed]
  have hsettings : (update s i).game_settings = s.game_settings := by
    simp only [update]; rw [dio_settings, edge_settings, ball_settings, pad_settings]
  have hvy : (update s i).data.ball_vel_y
      = (on_ball_left_right_edge_collision (update_ball (update_paddles s i)).1
        (update_ball (update_paddles s i)).2 i.rand_reset_y i.rand_reset_x).data.ball_vel_y := by
    simp only [update]; rw [dio_vy]
  refine ⟨by rw [hsettings, hspeed]; exact hconf, ?_⟩
  rw [hspeed, hvy]
  rcases edge_vy with e | e | e <;> rw [e] <;> omega

/-- Every reachable state satisfies the vertical-velocity bound. -/
theorem reachable_vel_y_inv (s : game_state) (h : reachable s) : vel_y_inv s := by
  induction h with
  | init s0 r1 r2 hd =>
    obtain ⟨game_settings_eq, game_speed, game_data_eq⟩ := init_game_frame s0 r1 r2
    obtain ⟨data_settings, _⟩ := init_data_frame s0 r1 r2
    have hconf := init_data_speed s0 r1 r2 hd
    have hval := configured_speed_values _ _ hconf
    have hvy : (init_data s0 r1 r2).data.ball_vel_y
        = (if r1 % 2 = 0 then -(init_data s0 r1 r2).ball_speed
            else (init_data s0 r1 r2).ball_speed) := by
      unfold init_data
      simp only
      rfl
    refine ⟨by rw [game_settings_eq, game_speed, data_settings]; exact hconf, ?_⟩
    rw [game_speed, game_data_eq, hvy]
    split_ifs <;> omega
  | start s _ ih => exact ih
  | tick s i _ ih => exact update_vel_y_inv s i ih
  | reset s r1 r2 _ ih =>
    obtain ⟨hconf, _, _⟩ := ih
    have hval := configured_speed_values _ _ hconf
    refine ⟨hconf, ?_⟩
    show -(2 * s.ball_speed) ≤ (reset_ball s r1 r2).data.ball_vel_y
      ∧ (reset_ball s r1 r2).data.ball_vel_y ≤ 2 * s.ball_speed
    simp only [reset_ball]
    split_ifs <;> omega

/-- With a resting ball `update_ball` changes nothing and reports no lost
round. -/
theorem update_ball_resting (s : game_state) (h : resting_ball s) :
    update_ball s = (s, 0) := by
  obtain ⟨px, py, vx, vy, _⟩ := h
  have hadv : ({ s with data := { s.data with
      ball_pos_x := s.data.ball_pos_x + s.data.ball_vel_x,
      ball_pos_y := s.data.ball_pos_y + s.data.ball_vel_y } } : game_state) = s := by
    rw [vx, vy, add_zero, add_zero]
  have hwall : check_ball_top_bot_edge_collision s = s := by
    unfold check_ball_top_bot_edge_collision
    simp only [LIVES_FONT_SIZE, LCD_HEIGHT, BALL_SIZE]
    rw [if_neg (by omega : ¬ s.data.ball_pos_y < 44), if_neg (by omega)]
  have hpad : check_ball_paddle_collision s = s := by
    apply paddle_collision_no_hit
    · rintro ⟨⟨c1, _⟩, _⟩; omega
    · rintro ⟨⟨c1, _⟩, _⟩; omega
  have hedge : check_ball_left_right_edge_collision s = (s, 0) := by
    unfold check_ball_left_right_edge_collision
    simp only [LCD_WIDTH, BALL_SIZE]
    rw [if_neg (by omega : ¬ s.data.ball_pos_x < 0), if_neg (by omega)]
  show check_ball_left_right_edge_collision (check_ball_paddle_collision
    (check_ball_top_bot_edge_collision { s with data := { s.data with
      ball_pos_x := s.data.ball_pos_x + s.data.ball_vel_x,
      ball_pos_y := s.data.ball_pos_y + s.data.ball_vel_y } })) = (s, 0)
  rw [hadv, hwall, hpad, hedge]

/-- A tick keeps a resting ball at rest and the match running. -/
theorem update_resting (s : game_state) (i : tick_input) (h : resting_ball s) :
    resting_ball (update s i) := by
  obtain ⟨px, py, vx, vy, run⟩ := h
  obtain ⟨pad_px, pad_py, pad_vx, pad_vy, _, _⟩ := update_paddles_ball s i
  obtain ⟨_, _, pad_run, _⟩ := update_paddles_same s i
  have hrest : resting_ball (update_paddles s i) :=
    ⟨pad_px.trans px, pad_py.trans py, pad_vx.trans vx, pad_vy.trans vy, pad_run.trans run⟩
  obtain ⟨dio_px, dio_py, dio_vx, dio_vy, _, _⟩ := update_diodes_ball (update_paddles s i)
  obtain ⟨_, _, dio_run, _⟩ := update_diodes_same (update_paddles s i)
  have hupd : update s i = update_diodes (update_paddles s i) := by
    show update_diodes (on_ball_left_right_edge_collision (update_ball (update_paddles s i)).1
      (update_ball (update_paddles s i)).2 i.rand_reset_y i.rand_reset_x) = _
    rw [update_ball_resting _ hrest]
    rfl
  rw [hupd]
  obtain ⟨qx, qy, wx, wy, qrun⟩ := hrest
  exact ⟨dio_px.trans qx, dio_py.trans qy, dio_vx.trans wx, dio_vy.trans wy, dio_run.trans qrun⟩

/-- Any number of ticks keeps a resting ball at rest and the match running. -/
theorem update_loop_ticks_resting (inputs : List tick_input) :
    ∀ s : game_state, resting_ball s → resting_ball (update_loop_ticks s inputs) := by
  induction inputs with
  | nil => intro s h; exact h
  | cons i rest ih =>
    intro s h
    have hrun : s.game_running ≠ 0 := by rw [h.2.2.2.2]; decide
    simp only [update_loop_ticks, if_pos hrun]
    exact ih _ (update_resting s i h)

/-- With an unrecognised difficulty `init_game` leaves a resting ball (once the
loop has set the running flag) and a ball speed of 0. -/
theorem init_game_unknown_difficulty (s : game_state) (r1 r2 : Nat)
    (hbad : s.game_settings.difficulty ≠ EASY ∧ s.game_settings.difficulty ≠ MEDIUM
      ∧ s.game_settings.difficulty ≠ HARD) :
    (init_game s r1 r2).ball_speed = 0
    ∧ (init_game s r1 r2).data.ball_pos_x = 230 ∧ (init_game s r1 r2).data.ball_pos_y = 172
    ∧ (init_game s r1 r2).data.ball_vel_x = 0 ∧ (init_game s r1 r2).data.ball_vel_y = 0
    ∧ (init_game s r1 r2).data.paddle_left_pos = 142
    ∧ (init_game s r1 r2).data.paddle_right_pos = 142 := by
  obtain ⟨_, game_speed, game_data_eq⟩ := init_game_frame s r1 r2
  obtain ⟨h1, h2, h3⟩ := hbad
  have hspeed : (init_data s r1 r2).ball_speed = 0 := by
    unfold init_data
    simp only [reset_ball_frame, if_neg h1, if_neg h2, if_neg h3]
    split_ifs <;> rfl
  have d1 : (init_data s r1 r2).data.ball_pos_x = 230 := by
    unfold init_data; simp only; rfl
  have d2 : (init_data s r1 r2).data.ball_pos_y = 172 := by
    unfold init_data; simp only; rfl
  have d3 : (init_data s r1 r2).data.ball_vel_x
      = (if r2 % 2 = 0 then -(init_data s r1 r2).ball_speed
          else (init_data s r1 r2).ball_speed) := by
    unfold init_data; simp only; rfl
  have d4 : (init_data s r1 r2).data.ball_vel_y
      = (if r1 % 2 = 0 then -(init_data s r1 r2).ball_speed
          else (init_data s r1 r2).ball_speed) := by
    unfold init_data; simp only; rfl
  have d5 : (init_data s r1 r2).data.paddle_left_pos = 142 := by
    unfold init_data; simp only; split_ifs <;> rfl
  have d6 : (init_data s r1 r2).data.paddle_right_pos = 142 := by
    unfold init_data; simp only; split_ifs <;> rfl
  rw [hspeed] at d3 d4
  simp only [neg_zero, ite_self] at d3 d4
  rw [game_speed, game_data_eq]
  exact ⟨hspeed, d1, d2, d3, d4, d5, d6⟩

/-! ## Claims C21 to C30 -/

/-- C21 fails on the code: for a human left side with no encoder movement and
the keys 'w', 's' read in that order in one tick, the latch keeps its previous
value (0, or -1 with the paddle moving up to 139) instead of taking the
direction 1 of the later key; and a paddle at 45 with the key 'w' moves one
pixel to the border 44, not PADDLE_SPEED_KEY = 3 pixels. -/
theorem C21_counterexample :
    keyboard_state.game_settings.left = PLAYER
    ∧ get_knob_movement (get_knob_value keyboard_state.input_knobs 0) RED_K = 0
    ∧ keyboard_state.last_key_left = 0
    ∧ (update_paddles keyboard_state ⟨['w', 's'], 0, 0, 0, 0, 0⟩).last_key_left = 0
    ∧ (update_paddles keyboard_state ⟨['w', 's'], 0, 0, 0, 0, 0⟩).data.paddle_left_pos = 142
    ∧ (update_paddles { keyboard_state with last_key_left := -1 }
        ⟨['w', 's'], 0, 0, 0, 0, 0⟩).last_key_left = -1
    ∧ (update_paddles { keyboard_state with last_key_left := -1 }
        ⟨['w', 's'], 0, 0, 0, 0, 0⟩).data.paddle_left_pos = 139
    ∧ (update_paddles { keyboard_state with data := ⟨230, 172, 8, 8, 45, 142, 3, 3⟩ }
        ⟨['w'], 0, 0, 0, 0, 0⟩).data.paddle_left_pos = 44 := by
  decide

/-- C21 as amended (key latch): for a human-controlled side with no encoder
movement in the tick, the side's latch after `update_paddles` is -1 when the
keys read contain the side's up key and not its down key, 1 when they contain
its down key and not its up key, and its previous value otherwise (no such key,
or both of them); the paddle then moves PADDLE_SPEED_KEY = 3 pixels in the
latched direction, clamped to [44, 240], and stays when the latch is 0. -/
theorem C21_key_latch (s : game_state) (i : tick_input) :
    (s.game_settings.left = PLAYER →
      get_knob_movement (get_knob_value s.input_knobs i.knob_register) RED_K = 0 →
      (update_paddles s i).last_key_left
        = (if LEFT_PLAYER_UP ∈ i.keys ∧ ¬ LEFT_PLAYER_DOWN ∈ i.keys then -1
           else if LEFT_PLAYER_DOWN ∈ i.keys ∧ ¬ LEFT_PLAYER_UP ∈ i.keys then 1
           else s.last_key_left)
      ∧ (update_paddles s i).data.paddle_left_pos
        = (if (update_paddles s i).last_key_left = -1 then
            max 44 (min 240 (s.data.paddle_left_pos - PADDLE_SPEED_KEY))
           else if (update_paddles s i).last_key_left = 1 then
            max 44 (min 240 (s.data.paddle_left_pos + PADDLE_SPEED_KEY))
           else s.data.paddle_left_pos))
    ∧ (s.game_settings.right = PLAYER →
      get_knob_movement (get_knob_value s.input_knobs i.knob_register) BLUE_K = 0 →
      (update_paddles s i).last_key_right
        = (if RIGHT_PLAYER_UP ∈ i.keys ∧ ¬ RIGHT_PLAYER_DOWN ∈ i.keys then -1
           else if RIGHT_PLAYER_DOWN ∈ i.keys ∧ ¬ RIGHT_PLAYER_UP ∈ i.keys then 1
           else s.last_key_right)
      ∧ (update_paddles s i).data.paddle_right_pos
        = (if (update_paddles s i).last_key_right = -1 then
            max 44 (min 240 (s.data.paddle_right_pos - PADDLE_SPEED_KEY))
           else if (update_paddles s i).last_key_right = 1 then
            max 44 (min 240 (s.data.paddle_right_pos + PADDLE_SPEED_KEY))
           else s.data.paddle_right_pos)) := by
  obtain ⟨f1, f2, f3, f4⟩ := get_input_flags i.keys
  -- the state after `get_knob_value`
  let s0 : game_state := { s with input_knobs := get_knob_value s.input_knobs i.knob_register }
  -- the key directions
  let dl : Int := if (get_input i.keys).left_down ≠ 0 ∧ (get_input i.keys).left_up = 0 then 1
    else if (get_input i.keys).left_up ≠ 0 ∧ (get_input i.keys).left_down = 0 then -1 else 0
  let dr : Int := if (get_input i.keys).right_down ≠ 0 ∧ (get_input i.keys).right_up = 0 then 1
    else if (get_input i.keys).right_up ≠ 0 ∧ (get_input i.keys).right_down = 0 then -1 else 0
  have hdl : dl = (if LEFT_PLAYER_UP ∈ i.keys ∧ ¬ LEFT_PLAYER_DOWN ∈ i.keys then -1
      else if LEFT_PLAYER_DOWN ∈ i.keys ∧ ¬ LEFT_PLAYER_UP ∈ i.keys then 1 else 0) := by
    show (if (get_input i.keys).left_down ≠ 0 ∧ (get_input i.keys).left_up = 0 then (1 : Int)
      else if (get_input i.keys).left_up ≠ 0 ∧ (get_input i.keys).left_down = 0 then -1
      else 0) = _
    rw [f1, f2]
    exact paddle_dir_of_flags _ _
  have hdr : dr = (if RIGHT_PLAYER_UP ∈ i.keys ∧ ¬ RIGHT_PLAYER_DOWN ∈ i.keys then -1
      else if RIGHT_PLAYER_DOWN ∈ i.keys ∧ ¬ RIGHT_PLAYER_UP ∈ i.keys then 1 else 0) := by
    show (if (get_input i.keys).right_down ≠ 0 ∧ (get_input i.keys).right_up = 0 then (1 : Int)
      else if (get_input i.keys).right_up ≠ 0 ∧ (get_input i.keys).right_down = 0 then -1
      else 0) = _
    rw [f3, f4]
    exact paddle_dir_of_flags _ _
  -- the state after the left side has been handled
  let s1 : game_state :=
    if s0.game_settings.left = PLAYER then
      update_player_paddle s0 false dl (get_knob_movement s0.input_knobs RED_K)
    else update_ai_paddle s0 false i.rand_ai_left
  have hs1 : other_side_same false s0 s1 := by
    show other_side_same false s0 (if s0.game_settings.left = PLAYER then _ else _)
    split_ifs
    · exact update_player_paddle_other _ _ _ _
    · exact update_ai_paddle_other _ _ _
  have hfinal : update_paddles s i =
      (if s1.game_settings.right = PLAYER then
        update_player_paddle s1 true dr (get_knob_movement s1.input_knobs BLUE_K)
       else update_ai_paddle s1 true i.rand_ai_right) := rfl
  have hright : other_side_same true s1 (update_paddles s i) := by
    rw [hfinal]
    split_ifs
    · exact update_player_paddle_other _ _ _ _
    · exact update_ai_paddle_other _ _ _
  constructor
  · intro hleft hknob
    have e1 : s1 = update_player_paddle s0 false dl 0 := by
      show (if s0.game_settings.left = PLAYER then _ else _) = _
      rw [if_pos hleft]
      show update_player_paddle s0 false dl
        (get_knob_movement (get_knob_value s.input_knobs i.knob_register) RED_K) = _
      rw [hknob]
    obtain ⟨k1, k2⟩ := update_player_paddle_keys s0 false dl
    rw [← e1] at k1 k2
    obtain ⟨r1, r2, _, _⟩ := hright
    simp only [last_key, Bool.not_true, Bool.false_eq_true, if_false, if_true] at r1 r2 k1 k2
    have hlatch : (update_paddles s i).last_key_left
        = (if LEFT_PLAYER_UP ∈ i.keys ∧ ¬ LEFT_PLAYER_DOWN ∈ i.keys then -1
           else if LEFT_PLAYER_DOWN ∈ i.keys ∧ ¬ LEFT_PLAYER_UP ∈ i.keys then 1
           else s.last_key_left) := by
      rw [r1, k1, hdl]
      exact latch_of_dir _ _ _
    refine ⟨hlatch, ?_⟩
    rw [r2, k2, r1, k1]
    simp only [PADDLE_SPEED_KEY, Int.sub_eq_add_neg]
  · intro hrightp hknob
    obtain ⟨l1, l2, l3, l4⟩ := hs1
    simp only [last_key, Bool.not_false, Bool.false_eq_true, if_false, if_true] at l1 l2
    have e1 : update_paddles s i = update_player_paddle s1 true dr 0 := by
      rw [hfinal, l3, if_pos hrightp, l4]
      show update_player_paddle s1 true dr
        (get_knob_movement (get_knob_value s.input_knobs i.knob_register) BLUE_K) = _
      rw [hknob]
    obtain ⟨k1, k2⟩ := update_player_paddle_keys s1 true dr
    rw [← e1] at k1 k2
    simp only [last_key, if_true] at k1 k2
    have hlatch : (update_paddles s i).last_key_right
        = (if RIGHT_PLAYER_UP ∈ i.keys ∧ ¬ RIGHT_PLAYER_DOWN ∈ i.keys then -1
           else if RIGHT_PLAYER_DOWN ∈ i.keys ∧ ¬ RIGHT_PLAYER_UP ∈ i.keys then 1
           else s.last_key_right) := by
      rw [k1, hdr, l1]
      exact latch_of_dir _ _ _
    refine ⟨hlatch, ?_⟩
    rw [k2, k1, l1, l2]
    simp only [PADDLE_SPEED_KEY, Int.sub_eq_add_neg]

/-- Witness of C21: the key 's' alone latches the direction 1 on the left
side. -/
theorem C21_key_latch_witness :
    keyboard_state.game_settings.left = PLAYER
    ∧ get_knob_movement (get_knob_value keyboard_state.input_knobs 0) RED_K = 0
    ∧ (update_paddles keyboard_state ⟨['s'], 0, 0, 0, 0, 0⟩).last_key_left
      = (if LEFT_PLAYER_UP ∈ ['s'] ∧ ¬ LEFT_PLAYER_DOWN ∈ ['s'] then -1
         else if LEFT_PLAYER_DOWN ∈ ['s'] ∧ ¬ LEFT_PLAYER_UP ∈ ['s'] then 1
         else keyboard_state.last_key_left)
    ∧ (update_paddles keyboard_state ⟨['s'], 0, 0, 0, 0, 0⟩).last_key_left = 1
    ∧ (update_paddles keyboard_state ⟨['s'], 0, 0, 0, 0, 0⟩).data.paddle_left_pos = 145 :=
  ⟨by decide, by decide,
    ((C21_key_latch keyboard_state ⟨['s'], 0, 0, 0, 0, 0⟩).1 (by decide) (by decide)).1,
    by decide, by decide⟩

/-- The iterations of the update loop keep a resting ball at rest and the match
running, whatever the clock readings are. -/
theorem update_loop_iterations_resting (clocks_per_update : Int)
    (readings : List (Int × tick_input)) :
    ∀ st : loop_state, resting_ball st.game →
      resting_ball (update_loop_iterations clocks_per_update st readings).1.game := by
  induction readings with
  | nil => intro st h; exact h
  | cons reading rest ih =>
    intro st h
    obtain ⟨now, i⟩ := reading
    have hrun : st.game.game_running ≠ 0 := by rw [h.2.2.2.2]; decide
    simp only [update_loop_iterations, if_pos hrun]
    apply ih
    simp only [update_loop_iteration]
    split_ifs
    · exact update_resting st.game i h
    · exact h

/-- C22 fails on the code: with difficulty 7 (none of EASY, MEDIUM, HARD)
`start_game` runs `init_game` and enters the update loop; two due iterations
perform two updates on a match state with the ball at rest in the centre, the
left paddle follows the key 'w' from 142 to 136, and the match is still
running after them. -/
theorem C22_counterexample :
    (unknown_difficulty_settings.difficulty ≠ EASY
      ∧ unknown_difficulty_settings.difficulty ≠ MEDIUM
      ∧ unknown_difficulty_settings.difficulty ≠ HARD)
    ∧ (start_game (example_state ⟨0, 0, 0, 0, 0, 0, 0, 0⟩ 0 0 ⟨EASY, DUMB_AI, BOT, BOT⟩)
        init_knobs unknown_difficulty_settings 0 0 1000000 0
        [(20000, ⟨['w'], 0, 0, 0, 0, 0⟩), (40000, idle_input)]).1.2 = 2
    ∧ (start_game (example_state ⟨0, 0, 0, 0, 0, 0, 0, 0⟩ 0 0 ⟨EASY, DUMB_AI, BOT, BOT⟩)
        init_knobs unknown_difficulty_settings 0 0 1000000 0
        [(20000, ⟨['w'], 0, 0, 0, 0, 0⟩), (40000, idle_input)]).1.1.game.data
      = ⟨230, 172, 0, 0, 136, 142, -1, -1⟩
    ∧ (start_game (example_state ⟨0, 0, 0, 0, 0, 0, 0, 0⟩ 0 0 ⟨EASY, DUMB_AI, BOT, BOT⟩)
        init_knobs unknown_difficulty_settings 0 0 1000000 0
        [(20000, ⟨['w'], 0, 0, 0, 0, 0⟩), (40000, idle_input)]).1.1.game.game_running = 1 := by
  decide

/-- C22 as amended (unknown difficulty): for every settings value whose
difficulty is not one of EASY, MEDIUM, HARD, `init_data` sets the ball speed to
0 and `init_game` completes with the ball at the centre (230, 172) with
velocity (0, 0) and both paddles at 142; `start_game` enters the update loop
with that state, a first iteration that is due performs an update, and through
any number of ticks and any clock readings the ball stays at rest in the centre
and the match keeps running, so the loop does not end and `start_game` does
not return. -/
theorem C22_unknown_difficulty (s : game_state) (knobs : knobs_t) (settings : settings_t)
    (r1 r2 : Nat) (clocks_per_sec first_clock now : Int) (i : tick_input)
    (rest : List (Int × tick_input))
    (hbad : settings.difficulty ≠ EASY ∧ settings.difficulty ≠ MEDIUM
      ∧ settings.difficulty ≠ HARD) :
    (init_game { s with input_knobs := knobs, game_settings := settings } r1 r2).ball_speed = 0
    ∧ (init_game { s with input_knobs := knobs, game_settings := settings } r1 r2).data.ball_pos_x
        = 230
    ∧ (init_game { s with input_knobs := knobs, game_settings := settings } r1 r2).data.ball_pos_y
        = 172
    ∧ (init_game { s with input_knobs := knobs, game_settings := settings } r1 r2).data.ball_vel_x
        = 0
    ∧ (init_game { s with input_knobs := knobs, game_settings := settings } r1 r2).data.ball_vel_y
        = 0
    ∧ (init_game { s with input_knobs := knobs, game_settings := settings }
        r1 r2).data.paddle_left_pos = 142
    ∧ (init_game { s with input_knobs := knobs, game_settings := settings }
        r1 r2).data.paddle_right_pos = 142
    ∧ (start_game s knobs settings r1 r2 clocks_per_sec first_clock ((now, i) :: rest)).1
        = update_loop clocks_per_sec
            (init_game { s with input_knobs := knobs, game_settings := settings } r1 r2)
            first_clock ((now, i) :: rest)
    ∧ (now - first_clock ≥ Int.tdiv clocks_per_sec UPDATES_PER_SECOND →
        1 ≤ (start_game s knobs settings r1 r2 clocks_per_sec first_clock
          ((now, i) :: rest)).1.2)
    ∧ (∀ inputs : List tick_input,
        resting_ball (update_loop_ticks (update_loop_start
          (init_game { s with input_knobs := knobs, game_settings := settings } r1 r2))
          inputs))
    ∧ (∀ readings : List (Int × tick_input),
        resting_ball (start_game s knobs settings r1 r2 clocks_per_sec first_clock
          readings).1.1.game
        ∧ (start_game s knobs settings r1 r2 clocks_per_sec first_clock
          readings).1.1.game.game_running = 1
        ∧ (start_game s knobs settings r1 r2 clocks_per_sec first_clock readings).2 = none) := by
  obtain ⟨g0, g1, g2, g3, g4, g5, g6⟩ := init_game_unknown_difficulty
    { s with input_knobs := knobs, game_settings := settings } r1 r2 hbad
  refine ⟨g0, g1, g2, g3, g4, g5, g6, rfl, ?_, ?_, ?_⟩
  · intro hdue
    have hrun : (update_loop_start
        (init_game { s with input_knobs := knobs, game_settings := settings } r1 r2)).game_running
        ≠ 0 := by
      show (1 : Int) ≠ 0
      decide
    simp only [start_game, update_loop, update_loop_iterations, if_pos hrun,
      update_loop_iteration, zero_add, if_pos hdue, if_true]
    omega
  · intro inputs
    exact update_loop_ticks_resting inputs _ ⟨g1, g2, g3, g4, rfl⟩
  · intro readings
    have hrest : resting_ball (start_game s knobs settings r1 r2 clocks_per_sec first_clock
        readings).1.1.game :=
      update_loop_iterations_resting _ readings
        ⟨first_clock, 0, update_loop_start
          (init_game { s with input_knobs := knobs, game_settings := settings } r1 r2)⟩
        ⟨g1, g2, g3, g4, rfl⟩
    have hrun := hrest.2.2.2.2
    refine ⟨hrest, hrun, ?_⟩
    show (if (start_game s knobs settings r1 r2 clocks_per_sec first_clock
        readings).1.1.game.game_running = 0 then _ else none) = none
    rw [if_neg (by rw [hrun]; decide)]

/-- Witness of C22: difficulty 7; the ball is still at rest after three ticks
and `start_game` has not returned after two clock readings. -/
theorem C22_unknown_difficulty_witness :
    (unknown_difficulty_settings.difficulty ≠ EASY
      ∧ unknown_difficulty_settings.difficulty ≠ MEDIUM
      ∧ unknown_difficulty_settings.difficulty ≠ HARD)
    ∧ resting_ball (update_loop_ticks (update_loop_start
        (init_game { example_state ⟨0, 0, 0, 0, 0, 0, 0, 0⟩ 0 0 ⟨EASY, DUMB_AI, BOT, BOT⟩ with
          input_knobs := init_knobs, game_settings := unknown_difficulty_settings } 1 1))
        [idle_input, idle_input, idle_input])
    ∧ (start_game (example_state ⟨0, 0, 0, 0, 0, 0, 0, 0⟩ 0 0 ⟨EASY, DUMB_AI, BOT, BOT⟩)
        init_knobs unknown_difficulty_settings 1 1 1000000 0
        [(20000, idle_input), (40000, idle_input)]).2 = none :=
  ⟨by decide,
    (C22_unknown_difficulty (example_state ⟨0, 0, 0, 0, 0, 0, 0, 0⟩ 0 0 ⟨EASY, DUMB_AI, BOT, BOT⟩)
      init_knobs unknown_difficulty_settings 1 1 1000000 0 20000 idle_input [] (by decide)
      ).2.2.2.2.2.2.2.2.2.1 [idle_input, idle_input, idle_input],
    ((C22_unknown_difficulty
      (example_state ⟨0, 0, 0, 0, 0, 0, 0, 0⟩ 0 0 ⟨EASY, DUMB_AI, BOT, BOT⟩)
      init_knobs unknown_difficulty_settings 1 1 1000000 0 20000 idle_input [] (by decide)
      ).2.2.2.2.2.2.2.2.2.2 [(20000, idle_input), (40000, idle_input)]).2.2⟩

/-- C23 fails on the code: after the readings 0 and then 255 of the red knob
(one step counter-clockwise across the wrap) `get_knob_movement` returns 1,
the same as for the readings 0 and then 1, where the signed rotation congruent
to now - before modulo 256 is -1; the wrap in the other direction (250, then 2)
gives 8 as it should; in `update_paddles` both readings move the left paddle
down from 142 to 145. -/
theorem C23_knob_wrap :
    get_knob_value (get_knob_value init_knobs 0) (255 * 65536)
      = { before := [0, 0, 0, 0, 0, 0], now := [255, 0, 0, 0, 0, 0] }
    ∧ get_knob_movement { before := [0, 0, 0, 0, 0, 0], now := [255, 0, 0, 0, 0, 0] } RED_K = 1
    ∧ get_knob_movement { before := [0, 0, 0, 0, 0, 0], now := [1, 0, 0, 0, 0, 0] } RED_K = 1
    ∧ get_knob_movement { before := [250, 0, 0, 0, 0, 0], now := [2, 0, 0, 0, 0, 0] } RED_K = 8
    ∧ ¬ ((1 : Int) - (255 - 0)) % 256 = 0
    ∧ ((-1 : Int) - (255 - 0)) % 256 = 0
    ∧ (update_paddles { keyboard_state with input_knobs := get_knob_value init_knobs 0 }
        ⟨[], 255 * 65536, 0, 0, 0, 0⟩).data.paddle_left_pos = 145
    ∧ (update_paddles { keyboard_state with input_knobs := get_knob_value init_knobs 0 }
        ⟨[], 1 * 65536, 0, 0, 0, 0⟩).data.paddle_left_pos = 145 := by
  decide

/-- C24 fails on the code: 131 ticks without input into a HARD match the ball
is at (22, 235) with velocity (-8, 15); on the next tick it crosses the left
plane at (14, 250) and the contact y of the hit test is 237, computed with the
truncated quotient 15 / -8 = -1, while the exact interpolation
235 + (20 - 22) * 15 / -8 = 238.75 rounds to 239; a paddle at 158 is hit at
contact y 237 and missed at 239. -/
theorem C24_truncated_ratio :
    (update_loop_ticks (diagonal_start 1 0) (List.replicate 131 idle_input)).data
      = ⟨22, 235, -8, 15, 142, 142, 3, 3⟩
    ∧ ((14 : Int) < 20 ∧ (20 : Int) ≤ 14 - -8)
    ∧ left_hit_y ⟨14, 250, -8, 15, 142, 142, 3, 3⟩ = 237
    ∧ interpolated_left_contact_y ⟨14, 250, -8, 15, 142, 142, 3, 3⟩ = 239
    ∧ double.ofInt 235 + double.ofInt (20 - 22) * (double.ofInt 15 / double.ofInt (-8))
        = ⟨-1910, -8⟩
    ∧ Int.tdiv 15 (-8) = -1
    ∧ (paddle_hit 158 237 ∧ ¬ paddle_hit 158 239) := by
  decide

/-- C25 fails on the code: 26 ticks without input into a HARD match the ball
is at (22, 124) with velocity (-8, 8); the next tick registers a hit of the left
paddle (top 142) at contact y 126 and sets the vertical velocity to -14, while
the value 2 * (126 - 142 - 30) / 49.5 * 8 = -23552 / 1584 (about -14.87) has
nearest integer -15; the offset of the same size below the centre (contact y
218) gives 15, which is the nearest integer. -/
theorem C25_negative_rounding :
    (update_loop_ticks (diagonal_start 0 0) (List.replicate 26 idle_input)).data
      = ⟨22, 124, -8, 8, 142, 142, 3, 3⟩
    ∧ (update_ball (update_loop_ticks (diagonal_start 0 0)
        (List.replicate 26 idle_input))).1.data.ball_vel_y = -14
    ∧ paddle_hit 142 126
    ∧ (on_hit_change_ball_vel_y (diagonal_start 0 0) 142 126 6).data.ball_vel_y = -14
    ∧ bounce_value 126 142 8 = ⟨-23552, 1584⟩
    ∧ (bounce_value 126 142 8).nearest = -15
    ∧ (on_hit_change_ball_vel_y (diagonal_start 0 0) 142 218 6).data.ball_vel_y = 15
    ∧ (bounce_value 218 142 8).nearest = 15 := by
  decide

/-- C26 (division guard): each crossing condition of
`check_ball_paddle_collision` implies vx ≠ 0, so the function with the division
made explicit never divides by zero and agrees with the embedded one on every
state; with vx = 0 both crossing conditions are false and the state is
unchanged. -/
theorem C26_division_guard (s : game_state) :
    (s.data.ball_pos_x < 20 ∧ s.data.ball_pos_x - s.data.ball_vel_x ≥ 20 →
      s.data.ball_vel_x ≠ 0)
    ∧ (s.data.ball_pos_x > 440 ∧ s.data.ball_pos_x - s.data.ball_vel_x ≤ 440 →
      s.data.ball_vel_x ≠ 0)
    ∧ check_ball_paddle_collision_checked s = some (check_ball_paddle_collision s)
    ∧ (s.data.ball_vel_x = 0 →
      ¬ (s.data.ball_pos_x < 20 ∧ s.data.ball_pos_x - s.data.ball_vel_x ≥ 20)
      ∧ ¬ (s.data.ball_pos_x > 440 ∧ s.data.ball_pos_x - s.data.ball_vel_x ≤ 440)
      ∧ check_ball_paddle_collision s = s) := by
  refine ⟨fun h => by omega, fun h => by omega, ?_, ?_⟩
  · by_cases hl : s.data.ball_pos_x < left_limit
        ∧ s.data.ball_pos_x - s.data.ball_vel_x ≥ left_limit
    · have hv : s.data.ball_vel_x ≠ 0 := by
        simp only [left_limit, PADDLE_WIDTH] at hl; omega
      simp only [check_ball_paddle_collision_checked, check_ball_paddle_collision, if_pos hl,
        c_div, if_neg hv, left_hit_y]
      split_ifs <;> rfl
    · by_cases hr : s.data.ball_pos_x > right_limit
          ∧ s.data.ball_pos_x - s.data.ball_vel_x ≤ right_limit
      · have hv : s.data.ball_vel_x ≠ 0 := by
          simp only [right_limit, PADDLE_WIDTH, LCD_WIDTH, BALL_SIZE] at hr; omega
        simp only [check_ball_paddle_collision_checked, check_ball_paddle_collision, if_neg hl,
          if_pos hr, c_div, if_neg hv, right_hit_y]
        split_ifs <;> rfl
      · simp only [check_ball_paddle_collision_checked, check_ball_paddle_collision, if_neg hl,
          if_neg hr]
  · intro hv
    refine ⟨by omega, by omega, ?_⟩
    apply paddle_collision_no_hit
    · intro h; omega
    · intro h; omega

/-- Witness of C26: a ball without horizontal velocity passes the paddle check
unchanged. -/
theorem C26_division_guard_witness :
    fresh_ai_state.data.ball_vel_x = 0
    ∧ check_ball_paddle_collision fresh_ai_state = fresh_ai_state :=
  ⟨by decide, ((C26_division_guard fresh_ai_state).2.2.2 (by decide)).2.2⟩

/-- C27 (predictive AI caching): when the sign of ball_vel_x equals the
remembered direction, `better_ai_move` leaves the state (remembered direction
and cached target included) unchanged, its outcome is the same for every value
of the random draw, and the result is -1, 1 or 0 as the cached target is below,
above or equal to the controlled paddle; it is the same for any other ball data
with that direction and that paddle position. -/
theorem C27_predictive_caching (s : game_state) (is_right : Bool) (d : game_data) (r : Nat)
    (hsame : get_ball_x_dir d = s.ai_ball_x_dir) :
    (better_ai_move s is_right d r).1 = s
    ∧ (better_ai_move s is_right d r).1.ai_ball_x_dir = s.ai_ball_x_dir
    ∧ (better_ai_move s is_right d r).1.ai_target_paddle_y = s.ai_target_paddle_y
    ∧ (∀ r2 : Nat, better_ai_move s is_right d r2 = better_ai_move s is_right d r)
    ∧ (better_ai_move s is_right d r).2 =
      (if s.ai_target_paddle_y
          < (if is_right then d.paddle_right_pos else d.paddle_left_pos) then -1
       else if s.ai_target_paddle_y
          > (if is_right then d.paddle_right_pos else d.paddle_left_pos) then 1
       else 0)
    ∧ (∀ e : game_data, get_ball_x_dir e = s.ai_ball_x_dir →
        (if is_right then e.paddle_right_pos else e.paddle_left_pos)
          = (if is_right then d.paddle_right_pos else d.paddle_left_pos) →
        (better_ai_move s is_right e r).2 = (better_ai_move s is_right d r).2) := by
  have key : ∀ (e : game_data) (q : Nat), get_ball_x_dir e = s.ai_ball_x_dir →
      (better_ai_move s is_right e q).1 = s
      ∧ (better_ai_move s is_right e q).2 =
        (if s.ai_target_paddle_y
            < (if is_right then e.paddle_right_pos else e.paddle_left_pos) then -1
         else if s.ai_target_paddle_y
            > (if is_right then e.paddle_right_pos else e.paddle_left_pos) then 1
         else 0) := by
    intro e q he
    have hstate : (better_ai_move s is_right e q).1 = s := by
      simp only [better_ai_move, he, ne_eq, not_true_eq_false, if_false]
      split_ifs <;> rfl
    have hdir := better_ai_move_dir s is_right e q
    rw [hstate] at hdir
    exact ⟨hstate, hdir⟩
  obtain ⟨k1, k2⟩ := key d r hsame
  refine ⟨k1, by rw [k1], by rw [k1], ?_, k2, ?_⟩
  · intro r2
    obtain ⟨j1, j2⟩ := key d r2 hsame
    exact Prod.ext (j1.trans k1.symm) (j2.trans k2.symm)
  · intro e he hp
    rw [(key e r he).2, k2, hp]

/-- Witness of C27: the remembered direction is -1 and the ball moves left; the
state is unchanged and the AI steers up toward the cached target 60. -/
theorem C27_predictive_caching_witness :
    get_ball_x_dir leftward_ball = moving_ai_state.ai_ball_x_dir
    ∧ (better_ai_move moving_ai_state false leftward_ball 7).1 = moving_ai_state
    ∧ (better_ai_move moving_ai_state false leftward_ball 7).2 = -1 :=
  ⟨by decide, (C27_predictive_caching moving_ai_state false leftward_ball 7 (by decide)).1,
    by decide⟩

/-- C28 (reflection agrees with the physics): for every integer y for which
the wall step `check_ball_top_bot_edge_collision`, applied to a ball whose
advanced position is y, yields a position inside [44, 300],
`calculate_bounces y` is exactly that position. -/
theorem C28_reflection_agrees (s : game_state) (y : Int)
    (hin : 44 ≤ (check_ball_top_bot_edge_collision
        { s with data := { s.data with ball_pos_y := y } }).data.ball_pos_y
      ∧ (check_ball_top_bot_edge_collision
        { s with data := { s.data with ball_pos_y := y } }).data.ball_pos_y ≤ 300) :
    calculate_bounces y
      = (check_ball_top_bot_edge_collision
        { s with data := { s.data with ball_pos_y := y } }).data.ball_pos_y := by
  rw [wall_step_y] at hin ⊢
  have h1 := calculate_bounces_step y
  have h2 := calculate_bounces_step (bounce_step y)
  simp only [bounce_step, LIVES_FONT_SIZE, LCD_HEIGHT, BALL_SIZE] at h1 h2
  simp only at hin ⊢
  split_ifs at hin h1 h2 ⊢
  all_goals first
    | omega
    | (rw [h1, h2]; exact calculate_bounces_in_bounds _ (by omega))

/-- Witness of C28: the advanced position -300 is reflected at the top and at
the bottom wall to 212. -/
theorem C28_reflection_agrees_witness :
    (check_ball_top_bot_edge_collision
      { fresh_ai_state with data := { fresh_ai_state.data with ball_pos_y := -300 } }
      ).data.ball_pos_y = 212
    ∧ calculate_bounces (-300)
      = (check_ball_top_bot_edge_collision
        { fresh_ai_state with data := { fresh_ai_state.data with ball_pos_y := -300 } }
        ).data.ball_pos_y :=
  ⟨by decide, C28_reflection_agrees fresh_ai_state (-300) (by decide)⟩

/-- C29 fails on the code: 26 ticks without input into a HARD match the ball
is at (22, 220) with velocity (-8, -8) and both paddles at 142; `update_ball`
registers a hit of the left paddle (contact y 218) and the ball leaves at
(26, 229) with velocity (8, 15).  The mirror image, ball at (438, 220) with
velocity (8, -8), is the state 26 ticks into the match with the opposite draw;
there `update_ball` computes the contact y 222, registers no hit and the ball
passes the right paddle to (446, 212). -/
theorem C29_mirror_asymmetry :
    left_approach_state.data = ⟨22, 220, -8, -8, 142, 142, 3, 3⟩
    ∧ left_approach_state.ball_speed = 8
    ∧ (mirror left_approach_state).data = ⟨438, 220, 8, -8, 142, 142, 3, 3⟩
    ∧ mirror left_approach_state
        = update_loop_ticks (diagonal_start 1 1) (List.replicate 26 idle_input)
    ∧ (update_ball left_approach_state).1.data = ⟨26, 229, 8, 15, 142, 142, 3, 3⟩
    ∧ (mirror (update_ball left_approach_state).1).data = ⟨434, 229, -8, 15, 142, 142, 3, 3⟩
    ∧ (update_ball (mirror left_approach_state)).1.data = ⟨446, 212, 8, -8, 142, 142, 3, 3⟩
    ∧ (update_ball (mirror left_approach_state)).1 ≠ mirror (update_ball left_approach_state).1
    ∧ left_hit_y ⟨14, 212, -8, -8, 142, 142, 3, 3⟩ = 218
    ∧ right_hit_y ⟨446, 212, 8, -8, 142, 142, 3, 3⟩ = 222 := by
  decide

/-- C30 (bounded bounce): for a registered hit (so hit_y - paddle_y is in
[-19, 79]) and a ball speed of 3, 5 or 8, the vertical velocity assigned by
`on_hit_change_ball_vel_y` has magnitude at most BOUNCE_CONST * speed =
2 * speed; in every state reachable from `init_game` with a recognised
difficulty |ball_vel_y| ≤ 2 * ball_speed ≤ 16 ≤ 256, and from a ball inside
[44, 300] the advance by ball_vel_y followed by the wall check ends inside
[44, 300]. -/
theorem C30_bounded_bounce (s : game_state) (paddle_y hit_y overshoot : Int)
    (hhit : paddle_hit paddle_y hit_y)
    (hspeed : s.ball_speed = 3 ∨ s.ball_speed = 5 ∨ s.ball_speed = 8) :
    (-19 ≤ hit_y - paddle_y ∧ hit_y - paddle_y ≤ 79)
    ∧ |(on_hit_change_ball_vel_y s paddle_y hit_y overshoot).data.ball_vel_y|
        ≤ BOUNCE_CONST * s.ball_speed
    ∧ BOUNCE_CONST * s.ball_speed = 2 * s.ball_speed
    ∧ (∀ t : game_state, reachable t →
        |t.data.ball_vel_y| ≤ 2 * t.ball_speed
        ∧ |t.data.ball_vel_y| ≤ 16
        ∧ |t.data.ball_vel_y| ≤ 256
        ∧ (44 ≤ t.data.ball_pos_y ∧ t.data.ball_pos_y ≤ 300 →
          44 ≤ (check_ball_top_bot_edge_collision { t with data := { t.data with
              ball_pos_y := t.data.ball_pos_y + t.data.ball_vel_y } }).data.ball_pos_y
          ∧ (check_ball_top_bot_edge_collision { t with data := { t.data with
              ball_pos_y := t.data.ball_pos_y + t.data.ball_vel_y } }).data.ball_pos_y
            ≤ 300)) := by
  have hbound := on_hit_vel_y_bound s paddle_y hit_y overshoot hhit hspeed
  simp only [paddle_hit, PADDLE_HEIGHT, BALL_SIZE] at hhit
  refine ⟨by omega, ?_, by simp only [BOUNCE_CONST], ?_⟩
  · rw [abs_le]
    simp only [BOUNCE_CONST]
    exact hbound
  · intro t ht
    obtain ⟨hconf, hlo, hhi⟩ := reachable_vel_y_inv t ht
    have hval := configured_speed_values _ _ hconf
    refine ⟨abs_le.mpr ⟨hlo, hhi⟩, abs_le.mpr ⟨by omega, by omega⟩,
      abs_le.mpr ⟨by omega, by omega⟩, ?_⟩
    intro hy
    rw [wall_step_y]
    simp only
    split_ifs <;> omega

/-- Witness of C30: a hit 16 pixels above the top of a paddle at 142 with ball
speed 8. -/
theorem C30_bounded_bounce_witness :
    paddle_hit 142 126
    ∧ |(on_hit_change_ball_vel_y keyboard_state 142 126 6).data.ball_vel_y|
        ≤ BOUNCE_CONST * keyboard_state.ball_speed :=
  ⟨by decide, (C30_bounded_bounce keyboard_state 142 126 6 (by decide) (by decide)).2.1⟩

end Apong
